import Mathlib

/-!
# Admin panel connector: command dispatch and reply correlation

A shallow embedding of `src/agent/Core/AdminPanelConnector.h`.

* `JsonValue` mirrors `Json::Value` of jsoncpp: the eight value types, objects being
  key-ordered maps (kept here as association lists, inserted in key order).
* Exceptions are explicit: every operation that can throw returns `Except Exn _`.
* Side effects of a handler are collected in an `Outcome`: the documents handed to
  `sendJsonReply` and the background threads created, next to the returned flag.
* Collaborators that live outside the header (the JSON reader and writer, the
  configuration store, the application pool, the helper tool runner) are fields of `Env`.
* Logging (`P_ERROR`, `WCRS_DEBUG_FRAME`) has no influence on replies and is left out.
-/

namespace Passenger

/-- The value type of jsoncpp. A real number is kept as the bit pattern of its double. -/
inductive JsonValue where
  | null
  | bool (b : Bool)
  | int (n : Int)
  | uint (n : Nat)
  | real (bits : Nat)
  | str (s : String)
  | arr (elems : List JsonValue)
  | obj (members : List (String × JsonValue))

/-- What can be thrown while a handler runs. -/
inductive Exn where
  /-- A `Passenger::RuntimeException` carrying its `what()` text. -/
  | runtimeException (what : String)
  /-- A failed `JSON_ASSERT` or `JSON_FAIL_MESSAGE` inside jsoncpp. -/
  | jsonLogicError
  /-- A failed `assert(...)`. -/
  | assertionFailure
  /-- Comparing against an iterator taken from a null value. -/
  | singularIterator
  /-- A `FileSystemException` thrown while a file is read. -/
  | fileSystemException (what : String)
deriving DecidableEq

namespace JsonValue

mutual
/-- Decidable equality of values (structural, as `Json::Value::operator==` on key-ordered maps). -/
def decEqValue : (a b : JsonValue) → Decidable (a = b)
  | .null, .null => isTrue rfl
  | .bool a, .bool b =>
    if h : a = b then isTrue (by rw [h]) else isFalse (by intro e; cases e; exact h rfl)
  | .int a, .int b =>
    if h : a = b then isTrue (by rw [h]) else isFalse (by intro e; cases e; exact h rfl)
  | .uint a, .uint b =>
    if h : a = b then isTrue (by rw [h]) else isFalse (by intro e; cases e; exact h rfl)
  | .real a, .real b =>
    if h : a = b then isTrue (by rw [h]) else isFalse (by intro e; cases e; exact h rfl)
  | .str a, .str b =>
    if h : a = b then isTrue (by rw [h]) else isFalse (by intro e; cases e; exact h rfl)
  | .arr a, .arr b =>
    match decEqElems a b with
    | isTrue h => isTrue (by rw [h])
    | isFalse h => isFalse (by intro e; cases e; exact h rfl)
  | .obj a, .obj b =>
    match decEqMembers a b with
    | isTrue h => isTrue (by rw [h])
    | isFalse h => isFalse (by intro e; cases e; exact h rfl)
  | .null, .bool _ | .null, .int _ | .null, .uint _ | .null, .real _ | .null, .str _
  | .null, .arr _ | .null, .obj _ => isFalse (by intro e; cases e)
  | .bool _, .null | .bool _, .int _ | .bool _, .uint _ | .bool _, .real _ | .bool _, .str _
  | .bool _, .arr _ | .bool _, .obj _ => isFalse (by intro e; cases e)
  | .int _, .null | .int _, .bool _ | .int _, .uint _ | .int _, .real _ | .int _, .str _
  | .int _, .arr _ | .int _, .obj _ => isFalse (by intro e; cases e)
  | .uint _, .null | .uint _, .bool _ | .uint _, .int _ | .uint _, .real _ | .uint _, .str _
  | .uint _, .arr _ | .uint _, .obj _ => isFalse (by intro e; cases e)
  | .real _, .null | .real _, .bool _ | .real _, .int _ | .real _, .uint _ | .real _, .str _
  | .real _, .arr _ | .real _, .obj _ => isFalse (by intro e; cases e)
  | .str _, .null | .str _, .bool _ | .str _, .int _ | .str _, .uint _ | .str _, .real _
  | .str _, .arr _ | .str _, .obj _ => isFalse (by intro e; cases e)
  | .arr _, .null | .arr _, .bool _ | .arr _, .int _ | .arr _, .uint _ | .arr _, .real _
  | .arr _, .str _ | .arr _, .obj _ => isFalse (by intro e; cases e)
  | .obj _, .null | .obj _, .bool _ | .obj _, .int _ | .obj _, .uint _ | .obj _, .real _
  | .obj _, .str _ | .obj _, .arr _ => isFalse (by intro e; cases e)
/-- Decidable equality of element lists. -/
def decEqElems : (a b : List JsonValue) → Decidable (a = b)
  | [], [] => isTrue rfl
  | [], _ :: _ => isFalse (by intro e; cases e)
  | _ :: _, [] => isFalse (by intro e; cases e)
  | x :: xs, y :: ys =>
    match decEqValue x y, decEqElems xs ys with
    | isTrue h, isTrue h2 => isTrue (by rw [h, h2])
    | isFalse h, _ => isFalse (by intro e; cases e; exact h rfl)
    | _, isFalse h => isFalse (by intro e; cases e; exact h rfl)
/-- Decidable equality of member lists. -/
def decEqMembers : (a b : List (String × JsonValue)) → Decidable (a = b)
  | [], [] => isTrue rfl
  | [], _ :: _ => isFalse (by intro e; cases e)
  | _ :: _, [] => isFalse (by intro e; cases e)
  | (k, x) :: xs, (l, y) :: ys =>
    if hk : k = l then
      match decEqValue x y, decEqMembers xs ys with
      | isTrue h, isTrue h2 => isTrue (by rw [hk, h, h2])
      | isFalse h, _ => isFalse (by intro e; cases e; exact h rfl)
      | _, isFalse h => isFalse (by intro e; cases e; exact h rfl)
    else isFalse (by intro e; cases e; exact hk rfl)
end

instance : DecidableEq JsonValue := decEqValue

/-- The test `isNull()`. -/
def isNull : JsonValue → Bool
  | .null => true
  | _ => false

/-- The test `isObject()`. -/
def isObject : JsonValue → Bool
  | .obj _ => true
  | _ => false

/-- The test `isString()`. -/
def isString : JsonValue → Bool
  | .str _ => true
  | _ => false

/-- Lookup of a key in the member map of an object. -/
def find (key : String) : List (String × JsonValue) → Option JsonValue
  | [] => none
  | (k, v) :: rest => if k = key then some v else find key rest

/-- Lexicographic comparison of two character sequences by code point. -/
def ltChars : List Char → List Char → Bool
  | _, [] => false
  | [], _ :: _ => true
  | a :: as, b :: bs =>
    if a.toNat < b.toNat then true
    else if a = b then ltChars as bs
    else false

/-- The order of member keys in the map of an object (`CZString::operator<`). -/
def keyLt (a b : String) : Bool := ltChars a.data b.data

/-- Insertion into the key-ordered member map; an existing key has its value replaced. -/
def insert (key : String) (x : JsonValue) :
    List (String × JsonValue) → List (String × JsonValue)
  | [] => [(key, x)]
  | (k, v) :: rest =>
    if k = key then (key, x) :: rest
    else if keyLt key k then (key, x) :: (k, v) :: rest
    else (k, v) :: insert key x rest

/-- The const `operator[](key)`: the member, or null when absent; needs null or an object. -/
def get (v : JsonValue) (key : String) : Except Exn JsonValue :=
  match v with
  | .null => .ok .null
  | .obj m => .ok ((find key m).getD .null)
  | _ => .error .jsonLogicError

/-- The non-const `operator[](key)` used as a read: a null value becomes an object and an
absent member is created as null. Returns the container afterwards and the member. -/
def ref (v : JsonValue) (key : String) : Except Exn (JsonValue × JsonValue) :=
  match v with
  | .null => .ok (.obj [(key, .null)], .null)
  | .obj m =>
    match find key m with
    | some x => .ok (.obj m, x)
    | none => .ok (.obj (insert key .null m), .null)
  | _ => .error .jsonLogicError

/-- The assignment `v[key] = x`. -/
def set (v : JsonValue) (key : String) (x : JsonValue) : Except Exn JsonValue :=
  match v with
  | .null => .ok (.obj [(key, x)])
  | .obj m => .ok (.obj (insert key x m))
  | _ => .error .jsonLogicError

/-- The assignment `v[k1][k2] = x`. -/
def setIn (v : JsonValue) (k1 k2 : String) (x : JsonValue) : Except Exn JsonValue :=
  match v.ref k1 with
  | .error e => .error e
  | .ok (v1, sub) =>
    match sub.set k2 x with
    | .error e => .error e
    | .ok sub1 => v1.set k1 sub1

/-- The test `isMember(key)`; needs null or an object. -/
def isMember (v : JsonValue) (key : String) : Except Exn Bool :=
  match v with
  | .null => .ok false
  | .obj m => .ok (find key m).isSome
  | _ => .error .jsonLogicError

/-- The call `append(x)` on an array (or on null, which becomes an array). -/
def append (v : JsonValue) (x : JsonValue) : Except Exn JsonValue :=
  match v with
  | .null => .ok (.arr [x])
  | .arr xs => .ok (.arr (xs ++ [x]))
  | _ => .error .jsonLogicError

end JsonValue

/-- An error of the secondary (inspection options) schema, `ConfigKit::Error`. -/
abbrev ConfigError := String

/-- The server configuration store, typed by `AdminPanelConnector::Schema`: `ruby` and
`integration_mode` are strings with a default, the other three are strings or null. -/
structure Config where
  ruby : String
  integration_mode : String
  standalone_engine : JsonValue
  web_server_module_version : JsonValue
  web_server_version : JsonValue

/-- The inspection options `ApplicationPool2::Pool::ToJsonOptions`: whether they were made
by `makeAuthorized()`, and the effective values installed by `set(...)`, if any. -/
structure ToJsonOptions where
  authorized : Bool
  values : Option JsonValue
deriving DecidableEq

/-- The options built by `ToJsonOptions::makeAuthorized()`. -/
def ToJsonOptions.makeAuthorized : ToJsonOptions := ⟨true, none⟩

/-- The call `inspectOptions.set(values)`. -/
def ToJsonOptions.set (o : ToJsonOptions) (values : JsonValue) : ToJsonOptions :=
  ⟨o.authorized, some values⟩

/-- The collaborators of the connector that are not part of the header. -/
structure Env where
  /-- The call `Json::Reader::parse`: the document, or `getFormattedErrorMessages()`. -/
  parse : String → Except String JsonValue
  /-- The serialization `Json::Value::toStyledString`. -/
  toStyledString : JsonValue → String
  /-- The text jsoncpp gives a real number in `asString()`. -/
  realToString : Nat → String
  /-- The truth value jsoncpp gives a real number in `asBool()`. -/
  realAsBool : Nat → Bool
  /-- The store `server.getConfig()`. -/
  config : Config
  /-- The constant `PASSENGER_VERSION`. -/
  passengerVersion : String
  /-- The result of `getpid()`. -/
  pid : Nat
  /-- The result of `resourceLocator->isOriginallyPackaged()`. -/
  isOriginallyPackaged : Bool
  /-- The result of `resourceLocator->getPackagingMethod()`. -/
  packagingMethod : String
  /-- The errors `store.update(arguments, errors)` reports; it succeeds when there are none. -/
  updateErrors : JsonValue → List ConfigError
  /-- The result of `store.inspectEffectiveValues()` after a successful update. -/
  inspectEffectiveValues : JsonValue → JsonValue
  /-- The rendering `ConfigKit::toString(errors)`. -/
  errorsToString : List ConfigError → String
  /-- The result of `appPool->inspectPropertiesInAdminPanelFormat`. -/
  inspectPropertiesInAdminPanelFormat : ToJsonOptions → JsonValue
  /-- The result of `appPool->inspectConfigInAdminPanelFormat`. -/
  inspectConfigInAdminPanelFormat : ToJsonOptions → JsonValue
  /-- The snapshot returned by `configGetter()`. -/
  configGetter : JsonValue
  /-- The call `runInternalRubyTool(locator, ruby, args, &status, &output)`: the wait status
  and the captured output, or the `what()` of the exception it throws. -/
  runInternalRubyTool : String → List String → Except String (Int × String)
  /-- What the text at the pointer `e.what()` reads as once the exception `e` has been
  destroyed: the memory has been freed, so it need not be the description any more. -/
  danglingWhat : String → String
  /-- The call `readAll(path)`: the content of the file, or the `what()` of the exception
  it throws. -/
  readAll : String → Except String String
  /-- The result of `InstanceDirectory::generateInstanceId()`. -/
  generateInstanceId : String

namespace JsonValue

/-- The conversion `asString()`. -/
def asString (env : Env) : JsonValue → Except Exn String
  | .null => .ok ""
  | .str s => .ok s
  | .bool b => .ok (if b then "true" else "false")
  | .int n => .ok (toString n)
  | .uint n => .ok (toString n)
  | .real bits => .ok (env.realToString bits)
  | _ => .error .jsonLogicError

/-- The conversion `asBool()`. -/
def asBool (env : Env) : JsonValue → Except Exn Bool
  | .null => .ok false
  | .bool b => .ok b
  | .int n => .ok (n != 0)
  | .uint n => .ok (n != 0)
  | .real bits => .ok (env.realAsBool bits)
  | _ => .error .jsonLogicError

/-- Runs `f` on every element of an array or object through a mutable iterator;
null and scalars have no elements. -/
def forEachM (f : JsonValue → Except Exn JsonValue) : JsonValue → Except Exn JsonValue
  | .arr xs => (xs.mapM f).map .arr
  | .obj m => (m.mapM (fun kv => (f kv.2).map (fun v => (kv.1, v)))).map .obj
  | v => .ok v

end JsonValue

namespace Core

open JsonValue

deriving instance DecidableEq for Except

/-- A thread created through `threads.create_thread`, with the arguments bound to it. -/
inductive BgJob where
  | getServerProperties (doc : JsonValue) (ruby : String)
  | getGlobalConfiguration (doc : JsonValue)
deriving DecidableEq

/-- A completion callback posted on the io service of the channel, with its arguments. -/
inductive Completion where
  | getServerPropertiesDone (doc : JsonValue) (output : String) (status : Int) (error : String)
  | getGlobalConfigDone (input : JsonValue) (config : JsonValue)
deriving DecidableEq

/-- What a message handler did: the flag it returned, the documents it passed to
`sendJsonReply`, and the background threads it created. -/
structure Outcome where
  handled : Bool
  replies : List JsonValue
  jobs : List BgJob
deriving DecidableEq

/-- What a background job did: the callbacks it posted and the documents it sent. -/
structure JobTrace where
  posted : List Completion
  replies : List JsonValue
deriving DecidableEq

/-- What a completion callback did: the documents it passed to `sendJsonReply` and the
number of calls of `server.doneReplying`. -/
structure DoneTrace where
  replies : List JsonValue
  doneReplying : Nat
deriving DecidableEq

/-- The connector: its collaborators and the member `globalPropertiesFromInstanceDir`. -/
structure AdminPanelConnector where
  env : Env
  globalPropertiesFromInstanceDir : JsonValue

/-- The member function `readInstanceDirProperties`: the properties it records. -/
def readInstanceDirProperties (env : Env) (instanceDir : String) : Except Exn JsonValue :=
  match env.readAll (instanceDir ++ "/properties.json") with
  | .error what => .error (.fileSystemException what)
  | .ok content =>
    match env.parse content with
    | .error msg =>
      .error (.runtimeException
        ("Cannot parse " ++ instanceDir ++ "/properties.json: " ++ msg))
    | .ok doc => do
      let (doc1, instanceId) ← doc.ref "instance_id"
      let props ← JsonValue.null.set "instance_id" instanceId
      let (_, watchdogPid) ← doc1.ref "watchdog_pid"
      props.set "watchdog_pid" watchdogPid

/-- The member function `initializePropertiesWithoutInstanceDir`. -/
def initializePropertiesWithoutInstanceDir (env : Env) : Except Exn JsonValue :=
  JsonValue.null.set "instance_id" (.str env.generateInstanceId)

/-- The constructor, given the `instance_dir` entry of its configuration. -/
def AdminPanelConnector.construct (env : Env) (instanceDir : JsonValue) :
    Except Exn AdminPanelConnector := do
  if !instanceDir.isNull then
    let dir ← instanceDir.asString env
    let props ← readInstanceDirProperties env dir
    pure ⟨env, props⟩
  else
    let props ← initializePropertiesWithoutInstanceDir env
    pure ⟨env, props⟩

/-- The member function `parseAndBasicValidateMessageAsJSON`. -/
def parseAndBasicValidateMessageAsJSON (env : Env) (msg : String) : Except Exn JsonValue :=
  match env.parse msg with
  | .error formatted =>
    .error (.runtimeException ("Error parsing command JSON document: " ++ formatted))
  | .ok doc => do
    if !doc.isObject then
      throw (.runtimeException "Invalid command JSON document: must be an object")
    if !(← doc.isMember "action") then
      throw (.runtimeException "Invalid command JSON document: missing 'action' key")
    let (doc1, action) ← doc.ref "action"
    if !action.isString then
      throw (.runtimeException
        "Invalid command JSON document: the 'action' key must be a string")
    if !(← doc1.isMember "request_id") then
      throw (.runtimeException "Invalid command JSON document: missing 'request_id' key")
    if !(← doc1.isMember "resource") then
      throw (.runtimeException "Invalid command JSON document: missing 'resource' key")
    let (doc2, resource) ← doc1.ref "resource"
    if !resource.isString then
      throw (.runtimeException
        "Invalid command JSON document: the 'resource' key must be a string")
    if (← doc2.isMember "arguments") then
      let (doc3, arguments) ← doc2.ref "arguments"
      if !arguments.isObject then
        throw (.runtimeException
          "Invalid command JSON document: the 'arguments' key, when present, must be an object")
      pure doc3
    else
      pure doc2

/-- The macro `WEXITSTATUS(status)` of `sys/wait.h`: `(status >> 8) & 0xff`. -/
def WEXITSTATUS (status : Int) : Int := (status / 256) % 256

/-- The member function `onGetServerProperties`: creates the background thread. -/
def onGetServerProperties (self : AdminPanelConnector) (doc : JsonValue) :
    Except Exn Outcome :=
  .ok ⟨false, [], [.getServerProperties doc self.env.config.ruby]⟩

/-- The member function `onGetServerPropertiesBgJob`. In the catch block `boost::bind`
stores the pointer `e.what()`, not a copy of the text; the callback runs on the io service
after the catch block has returned and destroyed `e`, so the error string it is called with
is built from freed memory. -/
def onGetServerPropertiesBgJob (self : AdminPanelConnector) (doc : JsonValue)
    (ruby : String) : JobTrace :=
  let args := ["passenger-config", "system-properties"]
  match self.env.runInternalRubyTool ruby args with
  | .error what =>
    ⟨[.getServerPropertiesDone doc "" (-1) (self.env.danglingWhat what)], []⟩
  | .ok (status, output) => ⟨[.getServerPropertiesDone doc output status ""], []⟩

/-- The member function `onGetServerPropertiesDone`. -/
def onGetServerPropertiesDone (self : AdminPanelConnector) (doc : JsonValue)
    (output : String) (status : Int) (error : String) : Except Exn DoneTrace := do
  let reply := JsonValue.null
  let reply ← reply.set "request_id" (← doc.get "request_id")
  let reply ←
    (if error.isEmpty then
      if status = 0 ∨ status = -1 then
        if output.isEmpty then do
          let reply ← reply.set "result" (.str "error")
          reply.setIn "data" "message" (.str "Error parsing internal helper tool output")
        else
          match self.env.parse output with
          | .ok dataDoc => do
            let reply ← reply.set "result" (.str "ok")
            reply.set "data" dataDoc
          | .error _ => do
            let reply ← reply.set "result" (.str "error")
            reply.setIn "data" "message" (.str "Error parsing internal helper tool output")
      else do
        let exitStatus := WEXITSTATUS status
        let reply ← reply.set "result" (.str "error")
        reply.setIn "data" "message"
          (.str ("Internal helper tool exited with status " ++ toString exitStatus))
    else do
      let reply ← reply.set "result" (.str "error")
      reply.setIn "data" "message" (.str error))
  pure ⟨[reply], 1⟩

/-- The member function `onGetGlobalProperties`. -/
def onGetGlobalProperties (self : AdminPanelConnector) (doc : JsonValue) :
    Except Exn Outcome := do
  let config := self.env.config
  let reply := JsonValue.null
  let reply ← reply.set "result" (.str "ok")
  let reply ← reply.set "request_id" (← doc.get "request_id")
  let data := self.globalPropertiesFromInstanceDir
  let data ← data.set "version" (.str self.env.passengerVersion)
  let data ← data.set "core_pid" (.uint self.env.pid)
  let integrationMode := config.integration_mode
  let data ← data.setIn "integration_mode" "name" (.str integrationMode)
  let data ←
    (if !config.web_server_module_version.isNull then
      data.setIn "integration_mode" "web_server_module_version"
        config.web_server_module_version
    else pure data)
  let data ←
    (if integrationMode = "standalone" then
      data.setIn "integration_mode" "standalone_engine" config.standalone_engine
    else pure data)
  let data ←
    (if !config.web_server_version.isNull then
      data.setIn "integration_mode" "web_server_version" config.web_server_version
    else pure data)
  let data ← data.set "originally_packaged" (.bool self.env.isOriginallyPackaged)
  let data ←
    (if !self.env.isOriginallyPackaged then
      data.set "packaging_method" (.str self.env.packagingMethod)
    else pure data)
  let reply ← reply.set "data" data
  pure ⟨true, [reply], []⟩

/-- The member function `onGetGlobalConfiguration`: creates the background thread. -/
def onGetGlobalConfiguration (_self : AdminPanelConnector) (doc : JsonValue) :
    Except Exn Outcome :=
  .ok ⟨false, [], [.getGlobalConfiguration doc]⟩

/-- The member function `onGetGlobalConfigurationBgJob`. -/
def onGetGlobalConfigurationBgJob (self : AdminPanelConnector) (input : JsonValue) :
    JobTrace :=
  ⟨[.getGlobalConfigDone input self.env.configGetter], []⟩

/-- The static function `modifyLogTarget`; returns `subconfig` as it is left. -/
def modifyLogTarget (env : Env) (subconfig : JsonValue) (key : String) :
    Except Exn JsonValue := do
  if !(← subconfig.isMember key) then pure subconfig
  else
    let (subconfig1, target) ← subconfig.ref key
    if target.isNull then pure subconfig1
    else if (← target.isMember "path") then
      let (_, path) ← target.ref "path"
      subconfig1.set key path
    else
      if !(← target.isMember "stderr") then throw .assertionFailure
      else
        let (_, stderrFlag) ← target.ref "stderr"
        if !(← stderrFlag.asBool env) then throw .assertionFailure
        else subconfig1.set key (.str "/dev/stderr")

/-- The static function `modifyPrestartUrls`; returns `subconfig` as it is left. -/
def modifyPrestartUrls (env : Env) (subconfig : JsonValue) (key : String) :
    Except Exn JsonValue := do
  if !(← subconfig.isMember key) then pure subconfig
  else
    let (subconfig1, urls) ← subconfig.ref key
    if urls.isNull then pure subconfig1
    else subconfig1.set key (.str (env.toStyledString urls))

/-- The static function `modifyMaxInstancesPerApp`; returns `subconfig` as it is left. -/
def modifyMaxInstancesPerApp (subconfig : JsonValue) (key : String) :
    Except Exn JsonValue := do
  if !(← subconfig.isMember key) then pure subconfig
  else
    let (subconfig1, value) ← subconfig.ref key
    if value.isNull then pure subconfig1
    else subconfig1.set key (.int 0)

/-- Applies a reshaping function to `config[option]` for the three value keys in turn. -/
def modifyOption (modify : JsonValue → String → Except Exn JsonValue)
    (config : JsonValue) (option : String) : Except Exn JsonValue := do
  let (config, sub) ← config.ref option
  let config ← config.set option (← modify sub "user_value")
  let (config, sub) ← config.ref option
  let config ← config.set option (← modify sub "default_value")
  let (config, sub) ← config.ref option
  config.set option (← modify sub "effective_value")

/-- The body of the loop of `onGetGlobalConfigDone`: the value hierarchy of one option. -/
def valueHierarchy (subconfig : JsonValue) : Except Exn JsonValue := do
  let hierarchy := JsonValue.arr []
  let userValue ← subconfig.get "user_value"
  let hierarchy ←
    (if !userValue.isNull then do
      let entry ← JsonValue.null.set "value" userValue
      let entry ← entry.setIn "source" "type" (.str "ephemeral")
      hierarchy.append entry
    else pure hierarchy)
  let defaultValue ← subconfig.get "default_value"
  let hierarchy ←
    (if !defaultValue.isNull then do
      let entry ← JsonValue.null.set "value" defaultValue
      let entry ← entry.setIn "source" "type" (.str "default")
      hierarchy.append entry
    else pure hierarchy)
  pure hierarchy

/-- The loop of `onGetGlobalConfigDone` over the members of `config`, filling `options`. -/
def buildOptions : List (String × JsonValue) → JsonValue → Except Exn JsonValue
  | [], options => .ok options
  | (name, subconfig) :: rest, options => do
    let hierarchy ← valueHierarchy subconfig
    let options ← options.set name hierarchy
    buildOptions rest options

/-- The member function `onGetGlobalConfigDone`. The end iterator is taken before
`config` is indexed, so a null `config` leaves the loop comparing against an iterator
of no container. -/
def onGetGlobalConfigDone (self : AdminPanelConnector) (input : JsonValue)
    (config : JsonValue) : Except Exn DoneTrace := do
  let reply := JsonValue.null
  let options := JsonValue.obj []
  let endOfNull := config.isNull
  let config ← modifyOption (modifyLogTarget self.env) config "log_target"
  let config ← modifyOption (modifyPrestartUrls self.env) config "prestart_urls"
  let config ← modifyOption (fun s k => modifyMaxInstancesPerApp s k) config
    "max_instances_per_app"
  if endOfNull then throw .singularIterator
  else
    match config with
    | .obj members =>
      let options ← buildOptions members options
      let reply ← reply.set "result" (.str "ok")
      let reply ← reply.set "request_id" (← input.get "request_id")
      let reply ← reply.setIn "data" "options" options
      pure ⟨[reply], 1⟩
    | _ => throw .jsonLogicError

/-- The member function `onGetGlobalStatistics`. -/
def onGetGlobalStatistics (_self : AdminPanelConnector) (doc : JsonValue) :
    Except Exn Outcome := do
  let reply := JsonValue.null
  let reply ← reply.set "result" (.str "error")
  let reply ← reply.set "request_id" (← doc.get "request_id")
  let reply ← reply.setIn "data" "message" (.str "Action not implemented")
  pure ⟨true, [reply], []⟩

/-- The member function `onGetApplicationProperties`. -/
def onGetApplicationProperties (self : AdminPanelConnector) (doc : JsonValue) :
    Except Exn Outcome := do
  let reply := JsonValue.null
  let inspectOptions := ToJsonOptions.makeAuthorized
  let hasArguments ← doc.isMember "arguments"
  let checked : Except JsonValue ToJsonOptions ←
    (if hasArguments then do
      let arguments ← doc.get "arguments"
      let errors := self.env.updateErrors arguments
      if errors.isEmpty then
        pure (Except.ok (inspectOptions.set (self.env.inspectEffectiveValues arguments)))
      else
        let reply ← reply.set "result" (.str "error")
        let reply ← reply.set "request_id" (← doc.get "request_id")
        let reply ← reply.setIn "data" "message"
          (.str ("Invalid arguments: " ++ self.env.errorsToString errors))
        pure (Except.error reply)
    else pure (Except.ok inspectOptions))
  match checked with
  | .error reply => pure ⟨true, [reply], []⟩
  | .ok inspectOptions =>
    let reply ← reply.set "result" (.str "ok")
    let reply ← reply.set "request_id" (← doc.get "request_id")
    let reply ← reply.setIn "data" "applications"
      (self.env.inspectPropertiesInAdminPanelFormat inspectOptions)
    pure ⟨true, [reply], []⟩

/-- The static function `modifyEnvironmentVariables`; returns `option` as it is left. -/
def modifyEnvironmentVariables (env : Env) (option : JsonValue) : Except Exn JsonValue :=
  option.forEachM (fun suboption => do
    let (suboption1, value) ← suboption.ref "value"
    suboption1.set "value" (.str (env.toStyledString value)))

/-- The body of the loop of `onGetApplicationConfig` over the applications: reshapes
`appConfig["environment_variables"]`; returns `appConfig` as it is left. -/
def modifyAppConfig (env : Env) (appConfig : JsonValue) : Except Exn JsonValue := do
  let (appConfig1, envVars) ← appConfig.ref "environment_variables"
  appConfig1.set "environment_variables" (← modifyEnvironmentVariables env envVars)

/-- The member function `onGetApplicationConfig`. -/
def onGetApplicationConfig (self : AdminPanelConnector) (doc : JsonValue) :
    Except Exn Outcome := do
  let reply := JsonValue.null
  let inspectOptions := ToJsonOptions.makeAuthorized
  let hasArguments ← doc.isMember "arguments"
  let checked : Except JsonValue ToJsonOptions ←
    (if hasArguments then do
      let arguments ← doc.get "arguments"
      let errors := self.env.updateErrors arguments
      if errors.isEmpty then
        pure (Except.ok (inspectOptions.set (self.env.inspectEffectiveValues arguments)))
      else
        let reply ← reply.set "result" (.str "error")
        let reply ← reply.set "request_id" (← doc.get "request_id")
        let reply ← reply.setIn "data" "message"
          (.str ("Invalid arguments: " ++ self.env.errorsToString errors))
        pure (Except.error reply)
    else pure (Except.ok inspectOptions))
  match checked with
  | .error reply => pure ⟨true, [reply], []⟩
  | .ok inspectOptions =>
    let resultOptions := self.env.inspectConfigInAdminPanelFormat inspectOptions
    let resultOptions ← resultOptions.forEachM (modifyAppConfig self.env)
    let reply ← reply.set "result" (.str "ok")
    let reply ← reply.set "request_id" (← doc.get "request_id")
    let reply ← reply.setIn "data" "options" resultOptions
    pure ⟨true, [reply], []⟩

/-- The member function `onUnknownResource`. -/
def onUnknownResource (self : AdminPanelConnector) (doc : JsonValue) :
    Except Exn Outcome := do
  let reply := JsonValue.null
  let reply ← reply.set "result" (.str "error")
  let reply ← reply.set "request_id" (← doc.get "request_id")
  let resource ← (← doc.get "resource").asString self.env
  let reply ← reply.setIn "data" "message" (.str ("Unknown resource '" ++ resource ++ "'"))
  pure ⟨true, [reply], []⟩

/-- The member function `onUnknownMessageAction`. -/
def onUnknownMessageAction (self : AdminPanelConnector) (doc : JsonValue) :
    Except Exn Outcome := do
  let reply := JsonValue.null
  let reply ← reply.set "result" (.str "error")
  let reply ← reply.set "request_id" (← doc.get "request_id")
  let action ← (← doc.get "action").asString self.env
  let reply ← reply.setIn "data" "message" (.str ("Unknown action '" ++ action ++ "'"))
  pure ⟨true, [reply], []⟩

/-- The member function `onGetMessage`. -/
def onGetMessage (self : AdminPanelConnector) (doc : JsonValue) : Except Exn Outcome := do
  let resource ← (← doc.get "resource").asString self.env
  if resource = "server_properties" then onGetServerProperties self doc
  else if resource = "global_properties" then onGetGlobalProperties self doc
  else if resource = "global_configuration" then onGetGlobalConfiguration self doc
  else if resource = "global_statistics" then onGetGlobalStatistics self doc
  else if resource = "application_properties" then onGetApplicationProperties self doc
  else if resource = "application_configuration" then onGetApplicationConfig self doc
  else onUnknownResource self doc

/-- The member function `onMessage`, on the payload of the message. When validation
throws, the local `doc` has not been assigned and is still null. -/
def onMessage (self : AdminPanelConnector) (payload : String) : Except Exn Outcome :=
  let doc := JsonValue.null
  match parseAndBasicValidateMessageAsJSON self.env payload with
  | .error (.runtimeException what) => do
    let reply := JsonValue.null
    let reply ← reply.set "result" (.str "error")
    let (_, requestId) ← doc.ref "request_id"
    let reply ← reply.set "request_id" requestId
    let reply ← reply.setIn "data" "message" (.str what)
    pure ⟨true, [reply], []⟩
  | .error e => .error e
  | .ok doc => do
    let (doc1, action) ← doc.ref "action"
    if action = .str "get" then onGetMessage self doc1
    else onUnknownMessageAction self doc1

/-- Runs a background thread. -/
def BgJob.run (self : AdminPanelConnector) : BgJob → JobTrace
  | .getServerProperties doc ruby => onGetServerPropertiesBgJob self doc ruby
  | .getGlobalConfiguration doc => onGetGlobalConfigurationBgJob self doc

/-- Runs a posted completion callback on the io service. -/
def Completion.run (self : AdminPanelConnector) : Completion → Except Exn DoneTrace
  | .getServerPropertiesDone doc output status error =>
    onGetServerPropertiesDone self doc output status error
  | .getGlobalConfigDone input config => onGetGlobalConfigDone self input config

/-! ## The wire format and the validation rules, as the specification words them -/

/-- The reply of the wire format: an object with the members `request_id`, `result`, `data`. -/
def replyDocument (requestId : JsonValue) (result : String) (data : JsonValue) : JsonValue :=
  .obj [("data", data), ("request_id", requestId), ("result", .str result)]

/-- The error reply of the wire format, whose data holds the message. -/
def errorReply (requestId : JsonValue) (message : String) : JsonValue :=
  replyDocument requestId "error" (.obj [("message", .str message)])

/-- Whether a document is an object holding the key. -/
def hasMember (doc : JsonValue) (key : String) : Bool :=
  match doc with
  | .obj m => (find key m).isSome
  | _ => false

/-- The member of a document under the key, null when there is none. -/
def member (doc : JsonValue) (key : String) : JsonValue :=
  match doc with
  | .obj m => (find key m).getD .null
  | _ => .null

/-- A Command that satisfies the validation rules (b) to (f) of the message codec. -/
def ValidCommand (doc : JsonValue) : Prop :=
  doc.isObject = true ∧
    (hasMember doc "action" = true ∧ (member doc "action").isString = true) ∧
    hasMember doc "request_id" = true ∧
    (hasMember doc "resource" = true ∧ (member doc "resource").isString = true) ∧
    (hasMember doc "arguments" = true → (member doc "arguments").isObject = true)

/-- A validation rule of the message codec, with the reason reported when it is violated. -/
structure Rule where
  holds : JsonValue → Bool
  reason : String

/-- The rules (b) to (f) in the order of the specification; (c) and (e) each have a
reason for the missing key and one for the wrong type. -/
def validationRules : List Rule :=
  [ ⟨fun d => d.isObject, "Invalid command JSON document: must be an object"⟩,
    ⟨fun d => hasMember d "action", "Invalid command JSON document: missing 'action' key"⟩,
    ⟨fun d => (member d "action").isString,
      "Invalid command JSON document: the 'action' key must be a string"⟩,
    ⟨fun d => hasMember d "request_id",
      "Invalid command JSON document: missing 'request_id' key"⟩,
    ⟨fun d => hasMember d "resource", "Invalid command JSON document: missing 'resource' key"⟩,
    ⟨fun d => (member d "resource").isString,
      "Invalid command JSON document: the 'resource' key must be a string"⟩,
    ⟨fun d => !hasMember d "arguments" || (member d "arguments").isObject,
      "Invalid command JSON document: the 'arguments' key, when present, must be an object"⟩ ]

/-- The reason of rule (a), given the formatted error messages of the reader. -/
def parseFailureReason (formatted : String) : String :=
  "Error parsing command JSON document: " ++ formatted

/-- The reason of the first violated rule for a payload with the given reading, if any. -/
def firstViolation (parsed : Except String JsonValue) : Option String :=
  match parsed with
  | .error formatted => some (parseFailureReason formatted)
  | .ok doc => (validationRules.find? (fun r => !r.holds doc)).map (fun r => r.reason)

/-- The resources the router knows. -/
def knownResources : List String :=
  ["server_properties", "global_properties", "global_configuration", "global_statistics",
    "application_properties", "application_configuration"]

/-- The resources served by a deferred handler. -/
def deferredResources : List String := ["server_properties", "global_configuration"]

/-- The keys of an object, in the order of its map. -/
def keys : JsonValue → List String
  | .obj m => m.map (fun kv => kv.1)
  | _ => []

/-- The Reply of the wire format: an object with exactly the keys `request_id`, `result`
and `data`, whose result is "ok" or "error", the data of an error being an object that
holds a string `message`. -/
def WireReply (reply : JsonValue) : Prop :=
  reply.isObject = true ∧ keys reply = ["data", "request_id", "result"] ∧
    (member reply "result" = .str "ok" ∨ member reply "result" = .str "error") ∧
    (member reply "result" = .str "error" →
      (member reply "data").isObject = true ∧
        (member (member reply "data") "message").isString = true)

/-- An entry of a value hierarchy: `value` with the type of its source. -/
def hierarchyEntry (value : JsonValue) (sourceType : String) : JsonValue :=
  .obj [("source", .obj [("type", .str sourceType)]), ("value", value)]

/-- The provenance ordering of the specification: the user value first, as "ephemeral",
then the default; a null value has no entry. -/
def provenance (userValue defaultValue : JsonValue) : List JsonValue :=
  (if userValue.isNull then [] else [hierarchyEntry userValue "ephemeral"]) ++
    (if defaultValue.isNull then [] else [hierarchyEntry defaultValue "default"])

/-- The options `onGetGlobalConfigDone` reshapes before it builds the hierarchies. -/
def reshapedOptions : List String := ["log_target", "prestart_urls", "max_instances_per_app"]

/-- The reshaping of one option of the snapshot: the reshaping function applied for the
keys `user_value`, `default_value` and `effective_value` in turn. -/
def reshapeOption (modify : JsonValue → String → Except Exn JsonValue)
    (subconfig : JsonValue) : Except Exn JsonValue := do
  let subconfig ← modify subconfig "user_value"
  let subconfig ← modify subconfig "default_value"
  modify subconfig "effective_value"

/-- The invariant of the member map of an object: its keys strictly increase. -/
def sortedKeys : List (String × JsonValue) → Bool
  | [] => true
  | (k, _) :: rest => rest.all (fun kv => keyLt k kv.1) && sortedKeys rest

/-- The precondition of `modifyLogTarget` on a log target: null, or an object with a
`path`, or an object whose `stderr` is true. -/
def logTargetPrecondition : JsonValue → Bool
  | .null => true
  | .obj target => (find "path" target).isSome || find "stderr" target == some (.bool true)
  | _ => false

/-- The same collaborators with another application pool. -/
def withInspector (env : Env) (inspectProperties inspectConfig : ToJsonOptions → JsonValue) :
    Env :=
  { env with
    inspectPropertiesInAdminPanelFormat := inspectProperties
    inspectConfigInAdminPanelFormat := inspectConfig }

/-- The same collaborators with another secondary schema. -/
def withSchema (env : Env) (updateErrors : JsonValue → List ConfigError)
    (inspectEffectiveValues : JsonValue → JsonValue) : Env :=
  { env with
    updateErrors := updateErrors
    inspectEffectiveValues := inspectEffectiveValues }

/-- The data of the `global_properties` reply, as the specification composes it: the
process identity, the properties recorded at startup and the integration-mode fields. -/
def globalPropertiesData (env : Env) (recorded : List (String × JsonValue)) : JsonValue :=
  .obj ([("core_pid", .uint env.pid)] ++
    (match find "instance_id" recorded with
      | some instanceId => [("instance_id", instanceId)]
      | none => []) ++
    [("integration_mode", .obj ([("name", .str env.config.integration_mode)] ++
      (if env.config.integration_mode = "standalone" then
        [("standalone_engine", env.config.standalone_engine)] else []) ++
      (if env.config.web_server_module_version.isNull then [] else
        [("web_server_module_version", env.config.web_server_module_version)]) ++
      (if env.config.web_server_version.isNull then [] else
        [("web_server_version", env.config.web_server_version)]))),
      ("originally_packaged", .bool env.isOriginallyPackaged)] ++
    (if env.isOriginallyPackaged then [] else
      [("packaging_method", .str env.packagingMethod)]) ++
    [("version", .str env.passengerVersion)] ++
    (match find "watchdog_pid" recorded with
      | some watchdogPid => [("watchdog_pid", watchdogPid)]
      | none => []))

/-! ## What the handlers need from their collaborators -/

/-- Whether a value is null or an object: the values that `operator[](key)` and
`isMember(key)` accept. -/
def isNullOrObject : JsonValue → Bool
  | .null => true
  | .obj _ => true
  | _ => false

/-- The elements an iterator over a value visits. -/
def elements : JsonValue → List JsonValue
  | .arr xs => xs
  | .obj m => m.map (fun kv => kv.2)
  | _ => []

/-- The shape `onGetApplicationConfig` needs of the output of the application pool:
each entry is null or an object, and so is each entry of its `environment_variables`. -/
def inspectedConfigShape (resultOptions : JsonValue) : Bool :=
  (elements resultOptions).all (fun appConfig =>
    isNullOrObject appConfig &&
      (elements (member appConfig "environment_variables")).all isNullOrObject)

/-- The shape `modifyLogTarget` needs of a log target: null, an object with a `path`, or
an object with a true `stderr`. -/
def logTargetShape (env : Env) : JsonValue → Bool
  | .null => true
  | .obj target =>
    (find "path" target).isSome ||
      (match find "stderr" target with
        | some flag =>
          (match flag.asBool env with
            | .ok b => b
            | .error _ => false)
        | none => false)
  | _ => false

/-- The shape `onGetGlobalConfigDone` needs of the configuration snapshot: an object
whose entries are null or objects, the values of `log_target` being log targets. -/
def snapshotShape (env : Env) (config : JsonValue) : Bool :=
  config.isObject && (elements config).all isNullOrObject &&
    ["user_value", "default_value", "effective_value"].all (fun key =>
      logTargetShape env (member (member config "log_target") key))

/-! ## A concrete connector, used to evaluate the handlers -/

/-- A command for a resource the router does not know, as JSON text. -/
def unknownResourcePayload : String :=
  "\x7b\"action\":\"get\",\"request_id\":\"r1\",\"resource\":\"nonexistent\"\x7d"

/-- The document `unknownResourcePayload` denotes. -/
def unknownResourceCommand : JsonValue :=
  .obj [("action", .str "get"), ("request_id", .str "r1"), ("resource", .str "nonexistent")]

/-- An object that has a `request_id` but no `resource`, as JSON text. -/
def missingResourcePayload : String := "\x7b\"action\":\"get\",\"request_id\":5\x7d"

/-- The document `missingResourcePayload` denotes. -/
def missingResourceDocument : JsonValue :=
  .obj [("action", .str "get"), ("request_id", .int 5)]

/-- A command whose `request_id` is null, as JSON text. -/
def nullRequestIdPayload : String :=
  "\x7b\"action\":\"get\",\"request_id\":null,\"resource\":\"global_statistics\"\x7d"

/-- The document `nullRequestIdPayload` denotes. -/
def nullRequestIdCommand : JsonValue :=
  .obj [("action", .str "get"), ("request_id", .null), ("resource", .str "global_statistics")]

/-- A command with an unknown action and an unknown resource, as JSON text. -/
def unknownActionPayload : String :=
  "\x7b\"action\":\"set\",\"request_id\":\"r2\",\"resource\":\"nonexistent\"\x7d"

/-- The document `unknownActionPayload` denotes. -/
def unknownActionCommand : JsonValue :=
  .obj [("action", .str "set"), ("request_id", .str "r2"), ("resource", .str "nonexistent")]

/-- A command for `server_properties`, as JSON text. -/
def serverPropertiesPayload : String :=
  "\x7b\"action\":\"get\",\"request_id\":\"r3\",\"resource\":\"server_properties\"\x7d"

/-- The document `serverPropertiesPayload` denotes. -/
def serverPropertiesCommand : JsonValue :=
  .obj [("action", .str "get"), ("request_id", .str "r3"),
    ("resource", .str "server_properties")]

/-- A command for `global_configuration`, as JSON text. -/
def globalConfigurationPayload : String :=
  "\x7b\"action\":\"get\",\"request_id\":\"r4\",\"resource\":\"global_configuration\"\x7d"

/-- The document `globalConfigurationPayload` denotes. -/
def globalConfigurationCommand : JsonValue :=
  .obj [("action", .str "get"), ("request_id", .str "r4"),
    ("resource", .str "global_configuration")]

/-- A command whose resource differs from a known one by case only, as JSON text. -/
def mixedCaseResourcePayload : String :=
  "\x7b\"action\":\"get\",\"request_id\":\"r5\",\"resource\":\"Server_Properties\"\x7d"

/-- The document `mixedCaseResourcePayload` denotes. -/
def mixedCaseResourceCommand : JsonValue :=
  .obj [("action", .str "get"), ("request_id", .str "r5"),
    ("resource", .str "Server_Properties")]

/-- An object without `action` and `request_id` whose `resource` is a number, as JSON text. -/
def resourceOnlyPayload : String := "\x7b\"resource\":7\x7d"

/-- The document `resourceOnlyPayload` denotes. -/
def resourceOnlyDocument : JsonValue := .obj [("resource", .int 7)]

/-- A payload that is an array, as JSON text. -/
def arrayPayload : String := "[1]"

/-- The document `arrayPayload` denotes. -/
def arrayDocument : JsonValue := .arr [.int 1]

/-- An output of the helper tool, as JSON text. -/
def helperOutputText : String := "\x7b\"ruby\":\"2.4.1\"\x7d"

/-- The document `helperOutputText` denotes. -/
def helperOutputDocument : JsonValue := .obj [("ruby", .str "2.4.1")]

/-- A configuration snapshot with an option that has neither a user value nor a default,
and an option that has both. -/
def sampleSnapshot : JsonValue :=
  .obj [("instance_registry_dir",
      .obj [("effective_value", .null), ("type", .str "string"), ("user_value", .null)]),
    ("max_pool_size",
      .obj [("default_value", .int 6), ("effective_value", .int 8),
        ("type", .str "unsigned integer"), ("user_value", .int 8)])]

/-- A command for `application_properties` that carries arguments. -/
def applicationPropertiesCommand : JsonValue :=
  .obj [("action", .str "get"), ("arguments", .obj [("uid", .str "x")]),
    ("request_id", .str "r6"), ("resource", .str "application_properties")]

/-- The content of `properties.json` in the instance directory, as JSON text. -/
def instancePropertiesText : String :=
  "\x7b\"instance_id\":\"abc\",\"watchdog_pid\":123\x7d"

/-- The document `instancePropertiesText` denotes. -/
def instancePropertiesDocument : JsonValue :=
  .obj [("instance_id", .str "abc"), ("watchdog_pid", .int 123)]

/-- A command for `global_properties`. -/
def globalPropertiesCommand : JsonValue :=
  .obj [("action", .str "get"), ("request_id", .str "r1"),
    ("resource", .str "global_properties")]

/-- A command for `global_statistics` that carries arguments, as JSON text. -/
def globalStatisticsPayload : String :=
  "\x7b\"action\":\"get\",\"arguments\":\x7b\"verbose\":true\x7d," ++
    "\"request_id\":\"r8\",\"resource\":\"global_statistics\"\x7d"

/-- The document `globalStatisticsPayload` denotes. -/
def globalStatisticsCommand : JsonValue :=
  .obj [("action", .str "get"), ("arguments", .obj [("verbose", .bool true)]),
    ("request_id", .str "r8"), ("resource", .str "global_statistics")]

/-- The JSON texts known to the sample reader, each with the document it denotes. -/
def sampleDocuments : List (String × JsonValue) :=
  [ (unknownResourcePayload, unknownResourceCommand),
    (missingResourcePayload, missingResourceDocument),
    (nullRequestIdPayload, nullRequestIdCommand),
    (unknownActionPayload, unknownActionCommand),
    (serverPropertiesPayload, serverPropertiesCommand),
    (globalConfigurationPayload, globalConfigurationCommand),
    (mixedCaseResourcePayload, mixedCaseResourceCommand),
    (resourceOnlyPayload, resourceOnlyDocument),
    (arrayPayload, arrayDocument),
    (helperOutputText, helperOutputDocument),
    (instancePropertiesText, instancePropertiesDocument),
    (globalStatisticsPayload, globalStatisticsCommand) ]

/-- A reader for the sample connector: it reads the texts of `sampleDocuments` and reports
a syntax error for every other text. -/
def sampleParse (text : String) : Except String JsonValue :=
  match sampleDocuments.lookup text with
  | some doc => .ok doc
  | none => .error "* Line 1, Column 1\n  Syntax error: value, object or array expected.\n"

/-- A configuration store for the sample connector. -/
def sampleConfig : Config := ⟨"ruby", "standalone", .str "builtin", .null, .null⟩

/-- What the freed buffer of an exception holds in the samples. -/
def freedMemoryText : String := "\x10\x7f"

/-- Collaborators for the sample connector: the helper tool exits with code 1, the
application pool is empty and the configuration snapshot has no option. -/
def sampleEnv : Env where
  parse := sampleParse
  toStyledString := fun _ => ""
  realToString := fun _ => "0"
  realAsBool := fun _ => false
  config := sampleConfig
  passengerVersion := "5.1.5"
  pid := 1234
  isOriginallyPackaged := true
  packagingMethod := "deb"
  updateErrors := fun _ => []
  inspectEffectiveValues := fun v => v
  errorsToString := fun errors => String.intercalate "; " errors
  inspectPropertiesInAdminPanelFormat := fun _ => .obj []
  inspectConfigInAdminPanelFormat := fun _ => .obj []
  configGetter := .obj []
  runInternalRubyTool := fun _ _ => .ok (256, "boom")
  danglingWhat := fun _ => freedMemoryText
  readAll := fun _ => .ok ""
  generateInstanceId := "abc"

/-- The sample connector, as its constructor builds it without an instance directory. -/
def sampleConnector : AdminPanelConnector := ⟨sampleEnv, .obj [("instance_id", .str "abc")]⟩


/-- The sample collaborators with an instance directory whose `properties.json` holds
`instancePropertiesText`. -/
def instanceDirEnv : Env :=
  { sampleEnv with readAll := fun _ => .ok instancePropertiesText }

/-- The connector the constructor builds from `instanceDirEnv` and an instance directory. -/
def instanceDirConnector : AdminPanelConnector :=
  ⟨instanceDirEnv, .obj [("instance_id", .str "abc"), ("watchdog_pid", .int 123)]⟩

/-- The sample connector with a secondary schema that rejects every `arguments`. -/
def strictSchemaConnector : AdminPanelConnector :=
  ⟨withSchema sampleEnv (fun _ => ["uid must be an integer", "api_key is required"])
    (fun v => v), .obj [("instance_id", .str "abc")]⟩

/-- The sample connector with the snapshot `sampleSnapshot`. -/
def snapshotConnector : AdminPanelConnector :=
  ⟨{ sampleEnv with configGetter := sampleSnapshot }, .obj [("instance_id", .str "abc")]⟩

/-- The options `onGetGlobalConfigDone` lists for `sampleSnapshot`. -/
def sampleSnapshotOptions : List (String × JsonValue) :=
  [("instance_registry_dir", .arr []),
    ("log_target", .arr []),
    ("max_instances_per_app", .arr []),
    ("max_pool_size",
      .arr [hierarchyEntry (.int 8) "ephemeral", hierarchyEntry (.int 6) "default"]),
    ("prestart_urls", .arr [])]

/-- The reply `onGetGlobalConfigDone` posts for `sampleSnapshot`, request "r4". -/
def sampleSnapshotTrace : DoneTrace :=
  ⟨[replyDocument (.str "r4") "ok" (.obj [("options", .obj sampleSnapshotOptions)])], 1⟩

/-- The member map of an object; every other value has no members. -/
def members : JsonValue → List (String × JsonValue)
  | .obj m => m
  | _ => []

/-- Replaces every element of an array or object by its image, keeping keys and order. -/
def mapElements (f : JsonValue → JsonValue) : JsonValue → JsonValue
  | .arr xs => .arr (xs.map f)
  | .obj m => .obj (m.map (fun kv => (kv.1, f kv.2)))
  | v => v

/-- The display form of an entry of `environment_variables`: its `value` is the styled
string of the value it had. -/
def flattenVariable (env : Env) (entry : JsonValue) : JsonValue :=
  .obj (JsonValue.insert "value" (.str (env.toStyledString (member entry "value")))
    (members entry))

/-- The display form of the configuration of an application: each entry of its
`environment_variables` is in display form. -/
def flattenApplication (env : Env) (appConfig : JsonValue) : JsonValue :=
  .obj (JsonValue.insert "environment_variables"
    (mapElements (flattenVariable env) (member appConfig "environment_variables"))
    (members appConfig))

/-- A styled serialization for the samples: strings, numbers and null. -/
def sampleStyledString : JsonValue → String
  | .null => "null\n"
  | .str s => "\"" ++ s ++ "\"\n"
  | .int n => toString n ++ "\n"
  | .uint n => toString n ++ "\n"
  | _ => ""

/-- What the sample application pool reports for one application, the value of whose
environment variable is an integer. -/
def sampleApplications : JsonValue :=
  .obj [("/srv/app", .obj [
    ("environment_variables", .arr [.obj [("source", .str "default"), ("value", .int 5)]]),
    ("ruby", .str "/usr/bin/ruby")])]

/-- The sample connector with an application pool that reports `sampleApplications`. -/
def applicationsConnector : AdminPanelConnector :=
  ⟨{ withInspector sampleEnv (fun _ => sampleApplications) (fun _ => sampleApplications) with
      toStyledString := sampleStyledString },
    .obj [("instance_id", .str "abc")]⟩

/-- A command for `application_configuration` without arguments. -/
def applicationConfigurationCommand : JsonValue :=
  .obj [("action", .str "get"), ("request_id", .str "r7"),
    ("resource", .str "application_configuration")]

/-- The dependencies of the connector, which its owner sets after construction:
`resourceLocator`, `appPool` and `configGetter`, each `none` while it is NULL. -/
structure Dependencies (ResourceLocator Pool ConfigGetter : Type) where
  resourceLocator : Option ResourceLocator
  appPool : Option Pool
  configGetter : Option ConfigGetter

/-- What a call of the member function of startup did: the number of calls of
`server.initialize()` and how the call ended. -/
structure StartupTrace where
  serverCalls : Nat
  result : Except Exn Unit
deriving DecidableEq

/-- The member function `initialize()`; `server` is how `server.initialize()` ends when it
is called. -/
def initializeConnector {ResourceLocator Pool ConfigGetter : Type}
    (self : Dependencies ResourceLocator Pool ConfigGetter) (server : Except Exn Unit) :
    StartupTrace :=
  if self.resourceLocator.isNone then
    ⟨0, .error (.runtimeException "resourceLocator must be non-NULL")⟩
  else if self.appPool.isNone then
    ⟨0, .error (.runtimeException "appPool must be non-NULL")⟩
  else if self.configGetter.isNone then
    ⟨0, .error (.runtimeException "configGetter must be non-NULL")⟩
  else
    ⟨1, server⟩

/-- The names of the dependencies that are unset, in the order `initialize()` tests them. -/
def unsetDependencies {ResourceLocator Pool ConfigGetter : Type}
    (self : Dependencies ResourceLocator Pool ConfigGetter) : List String :=
  (if self.resourceLocator.isNone then ["resourceLocator"] else []) ++
    (if self.appPool.isNone then ["appPool"] else []) ++
    (if self.configGetter.isNone then ["configGetter"] else [])

/-- The sample connector with a helper tool that cannot be launched. -/
def launchFailureConnector : AdminPanelConnector :=
  ⟨{ sampleEnv with runInternalRubyTool := fun _ _ => .error "Cannot execute ruby" },
    .obj [("instance_id", .str "abc")]⟩

/-- The display form of a value under a reshaping: null stays null, every other value is
replaced by its scalar form. -/
def displayed (scalar : JsonValue → JsonValue) (value : JsonValue) : JsonValue :=
  if value.isNull then .null else scalar value

/-- A snapshot in which `prestart_urls` and `max_instances_per_app` have values. -/
def reshapedSnapshot : JsonValue :=
  .obj [("max_instances_per_app",
      .obj [("default_value", .int 0), ("user_value", .int 7)]),
    ("max_pool_size",
      .obj [("default_value", .int 6), ("user_value", .int 8)]),
    ("prestart_urls",
      .obj [("default_value", .arr []), ("user_value", .arr [.str "http://a/"])])]

/-- A styled serialization for the samples that also shows the lists of `reshapedSnapshot`. -/
def snapshotStyledString : JsonValue → String
  | .arr [] => "[]\n"
  | .arr [.str s] => "[\n   \"" ++ s ++ "\"\n]\n"
  | v => sampleStyledString v

/-- The sample connector with the snapshot `reshapedSnapshot`. -/
def reshapedConnector : AdminPanelConnector :=
  ⟨{ sampleEnv with configGetter := reshapedSnapshot, toStyledString := snapshotStyledString },
    .obj [("instance_id", .str "abc")]⟩

/-- The options `onGetGlobalConfigDone` lists for `reshapedSnapshot`. -/
def reshapedSnapshotOptions : List (String × JsonValue) :=
  [("log_target", .arr []),
    ("max_instances_per_app",
      .arr [hierarchyEntry (.int 0) "ephemeral", hierarchyEntry (.int 0) "default"]),
    ("max_pool_size",
      .arr [hierarchyEntry (.int 8) "ephemeral", hierarchyEntry (.int 6) "default"]),
    ("prestart_urls",
      .arr [hierarchyEntry (.str "[\n   \"http://a/\"\n]\n") "ephemeral",
        hierarchyEntry (.str "[]\n") "default"])]

/-- The reply `onGetGlobalConfigDone` posts for `reshapedSnapshot`, request "r4". -/
def reshapedSnapshotTrace : DoneTrace :=
  ⟨[replyDocument (.str "r4") "ok" (.obj [("options", .obj reshapedSnapshotOptions)])], 1⟩

end Core

namespace Apache2Module

/-! ## The directive setters of the Apache module

The functions of `ConfigGeneral/AutoGeneratedSetterFuncs.cpp`. The global `serverConfig`
and the per-directory configuration behind `pcfg` are passed in and returned. -/

/-- The value of a flag field: the setters assign `ENABLED` or `DISABLED`. -/
inductive Threeway where
  | ENABLED
  | DISABLED
deriving DecidableEq

/-- The fields of the global `serverConfig` that the setters assign: a `const char *`
field holds a text, an `int` field a number, `prestartURLs` a set of texts, kept as a list
without duplicates. -/
structure ServerConfig where
  root : String
  defaultRuby : String
  logLevel : Int
  logFile : String
  socketBacklog : Int
  fileDescriptorLogFile : String
  maxPoolSize : Int
  poolIdleTime : Int
  responseBufferHighWatermark : Int
  userSwitching : Threeway
  defaultUser : String
  defaultGroup : String
  dataBufferDir : String
  instanceRegistryDir : String
  disableSecurityUpdateCheck : Threeway
  securityUpdateCheckProxy : String
  statThrottleRate : Int
  prestartURLs : List String
  turbocaching : Threeway
  showVersionInHeader : Threeway
deriving DecidableEq

/-- The fields of `DirConfig` that the setters assign. -/
structure DirConfig where
  ruby : String
  python : String
  nodejs : String
  meteorAppSettings : String
  appEnv : String
  minInstances : Int
  maxInstancesPerApp : Int
  user : String
  group : String
  errorOverride : Threeway
  maxRequests : Int
  startTimeout : Int
  highPerformance : Threeway
  enabled : Threeway
  maxRequestQueueSize : Int
  maxPreloaderIdleTime : Int
  loadShellEnvvars : Threeway
  bufferUpload : Threeway
  appType : String
  startupFile : String
  stickySessions : Threeway
  stickySessionsCookieName : Threeway
  friendlyErrorPages : Threeway
  restartDir : String
  appGroupName : String
  forceMaxConcurrentRequestsPerProcess : Int
  lveMinUid : Int
  appRoot : String
  bufferResponse : Threeway
  resolveSymlinksInDocumentRoot : Threeway
  allowEncodedSlashes : Threeway
deriving DecidableEq

/-- What a setter reads of `cmd_parms`: `cmd->directive->directive`, the name of the
directive as the configuration file writes it. -/
structure cmd_parms where
  directive : String
deriving DecidableEq

/-- What a call of a setter did: the message it returned (`none` for NULL), the
configuration it left and the lines it printed on the standard error. -/
structure SetterResult where
  message : Option String
  serverConfig : ServerConfig
  config : DirConfig
  stderr : List String
deriving DecidableEq

/-- The constant `LONG_MAX` of a 64-bit `long`. -/
def LONG_MAX : Int := 9223372036854775807

/-- The constant `LONG_MIN` of a 64-bit `long`. -/
def LONG_MIN : Int := -9223372036854775808

/-- The test `isspace` of the C locale: space, `\t`, `\n`, `\v`, `\f`, `\r`. -/
def isspace (c : Char) : Bool :=
  c == ' ' || c == '\t' || c == '\n' || c == '\x0b' || c == '\x0c' || c == '\r'

/-- The test `isdigit`. -/
def isdigit (c : Char) : Bool :=
  decide ('0'.toNat ≤ c.toNat) && decide (c.toNat ≤ '9'.toNat)

/-- The number a run of decimal digits denotes. -/
def digitsValue (digits : List Char) : Nat :=
  digits.foldl (fun value c => 10 * value + (c.toNat - '0'.toNat)) 0

/-- The C library function `strtol(arg, &end, 10)`, as the C standard specifies it: white
space is skipped, then an optional sign and the longest run of decimal digits are read;
a value out of the range of `long` is clamped to `LONG_MIN` or `LONG_MAX`; without a digit
the result is 0 and `end` is `arg`. Returns the number and the text at `end`, which is
empty when `*end` is the terminator. The text of `arg` ends at its first NUL. -/
def strtol (arg : String) : Int × List Char :=
  let text := arg.data.takeWhile (fun c => c != '\x00')
  let subject := text.dropWhile isspace
  let negative := subject.head? == some '-'
  let unsigned :=
    match subject with
    | '-' :: t => t
    | '+' :: t => t
    | t => t
  let digits := unsigned.takeWhile isdigit
  if digits.isEmpty then (0, text)
  else
    let magnitude : Int := digitsValue digits
    let value := if negative then -magnitude else magnitude
    (max LONG_MIN (min LONG_MAX value), unsigned.dropWhile isdigit)

/-- The conversion `(int) result` of a 64-bit `long`: its low 32 bits, read as a signed
number. -/
def toInt (result : Int) : Int := (result + 2147483648) % 4294967296 - 2147483648

/-- The function `cmd_passenger_root`. -/
def cmd_passenger_root (_cmd : cmd_parms)
    (serverConfig : ServerConfig) (pcfg : DirConfig) (arg : String) :
    SetterResult :=
  ⟨none, { serverConfig with root := arg }, pcfg, []⟩

/-- The function `cmd_passenger_default_ruby`. -/
def cmd_passenger_default_ruby (_cmd : cmd_parms)
    (serverConfig : ServerConfig) (pcfg : DirConfig) (arg : String) :
    SetterResult :=
  ⟨none, { serverConfig with defaultRuby := arg }, pcfg, []⟩

/-- The function `cmd_passenger_log_level`. -/
def cmd_passenger_log_level (cmd : cmd_parms)
    (serverConfig : ServerConfig) (pcfg : DirConfig) (arg : String) :
    SetterResult :=
  let result := (strtol arg).1
  if (strtol arg).2 ≠ [] then
    ⟨some ("Invalid number specified for " ++ cmd.directive ++ "."),
      serverConfig, pcfg, []⟩
  else if result < 0 then
    ⟨some ("Value for " ++ cmd.directive ++ " must be greater than or equal to 0."),
      serverConfig, pcfg, []⟩
  else
    ⟨none, { serverConfig with logLevel := toInt result }, pcfg, []⟩

/-- The function `cmd_passenger_log_file`. -/
def cmd_passenger_log_file (_cmd : cmd_parms)
    (serverConfig : ServerConfig) (pcfg : DirConfig) (arg : String) :
    SetterResult :=
  ⟨none, { serverConfig with logFile := arg }, pcfg, []⟩

/-- The function `cmd_passenger_socket_backlog`. -/
def cmd_passenger_socket_backlog (cmd : cmd_parms)
    (serverConfig : ServerConfig) (pcfg : DirConfig) (arg : String) :
    SetterResult :=
  let result := (strtol arg).1
  if (strtol arg).2 ≠ [] then
    ⟨some ("Invalid number specified for " ++ cmd.directive ++ "."),
      serverConfig, pcfg, []⟩
  else if result < 0 then
    ⟨some ("Value for " ++ cmd.directive ++ " must be greater than or equal to 0."),
      serverConfig, pcfg, []⟩
  else
    ⟨none, { serverConfig with socketBacklog := toInt result }, pcfg, []⟩

/-- The function `cmd_passenger_file_descriptor_log_file`. -/
def cmd_passenger_file_descriptor_log_file (_cmd : cmd_parms)
    (serverConfig : ServerConfig) (pcfg : DirConfig) (arg : String) :
    SetterResult :=
  ⟨none, { serverConfig with fileDescriptorLogFile := arg }, pcfg, []⟩

/-- The function `cmd_passenger_max_pool_size`. -/
def cmd_passenger_max_pool_size (cmd : cmd_parms)
    (serverConfig : ServerConfig) (pcfg : DirConfig) (arg : String) :
    SetterResult :=
  let result := (strtol arg).1
  if (strtol arg).2 ≠ [] then
    ⟨some ("Invalid number specified for " ++ cmd.directive ++ "."),
      serverConfig, pcfg, []⟩
  else if result < 1 then
    ⟨some ("Value for " ++ cmd.directive ++ " must be greater than or equal to 1."),
      serverConfig, pcfg, []⟩
  else
    ⟨none, { serverConfig with maxPoolSize := toInt result }, pcfg, []⟩

/-- The function `cmd_passenger_pool_idle_time`. -/
def cmd_passenger_pool_idle_time (cmd : cmd_parms)
    (serverConfig : ServerConfig) (pcfg : DirConfig) (arg : String) :
    SetterResult :=
  let result := (strtol arg).1
  if (strtol arg).2 ≠ [] then
    ⟨some ("Invalid number specified for " ++ cmd.directive ++ "."),
      serverConfig, pcfg, []⟩
  else if result < 0 then
    ⟨some ("Value for " ++ cmd.directive ++ " must be greater than or equal to 0."),
      serverConfig, pcfg, []⟩
  else
    ⟨none, { serverConfig with poolIdleTime := toInt result }, pcfg, []⟩

/-- The function `cmd_passenger_response_buffer_high_watermark`. -/
def cmd_passenger_response_buffer_high_watermark (cmd : cmd_parms)
    (serverConfig : ServerConfig) (pcfg : DirConfig) (arg : String) :
    SetterResult :=
  let result := (strtol arg).1
  if (strtol arg).2 ≠ [] then
    ⟨some ("Invalid number specified for " ++ cmd.directive ++ "."),
      serverConfig, pcfg, []⟩
  else if result < 0 then
    ⟨some ("Value for " ++ cmd.directive ++ " must be greater than or equal to 0."),
      serverConfig, pcfg, []⟩
  else
    ⟨none, { serverConfig with responseBufferHighWatermark := toInt result }, pcfg, []⟩

/-- The function `cmd_passenger_user_switching`. -/
def cmd_passenger_user_switching (_cmd : cmd_parms)
    (serverConfig : ServerConfig) (pcfg : DirConfig) (arg : Option String) :
    SetterResult :=
  ⟨none,
    { serverConfig with
      userSwitching := if arg.isSome then .ENABLED else .DISABLED },
    pcfg, []⟩

/-- The function `cmd_passenger_default_user`. -/
def cmd_passenger_default_user (_cmd : cmd_parms)
    (serverConfig : ServerConfig) (pcfg : DirConfig) (arg : String) :
    SetterResult :=
  ⟨none, { serverConfig with defaultUser := arg }, pcfg, []⟩

/-- The function `cmd_passenger_default_group`. -/
def cmd_passenger_default_group (_cmd : cmd_parms)
    (serverConfig : ServerConfig) (pcfg : DirConfig) (arg : String) :
    SetterResult :=
  ⟨none, { serverConfig with defaultGroup := arg }, pcfg, []⟩

/-- The function `cmd_passenger_data_buffer_dir`. -/
def cmd_passenger_data_buffer_dir (_cmd : cmd_parms)
    (serverConfig : ServerConfig) (pcfg : DirConfig) (arg : String) :
    SetterResult :=
  ⟨none, { serverConfig with dataBufferDir := arg }, pcfg, []⟩

/-- The function `cmd_passenger_instance_registry_dir`. -/
def cmd_passenger_instance_registry_dir (_cmd : cmd_parms)
    (serverConfig : ServerConfig) (pcfg : DirConfig) (arg : String) :
    SetterResult :=
  ⟨none, { serverConfig with instanceRegistryDir := arg }, pcfg, []⟩

/-- The function `cmd_passenger_disable_security_update_check`. -/
def cmd_passenger_disable_security_update_check (_cmd : cmd_parms)
    (serverConfig : ServerConfig) (pcfg : DirConfig) (arg : Option String) :
    SetterResult :=
  ⟨none,
    { serverConfig with
      disableSecurityUpdateCheck := if arg.isSome then .ENABLED else .DISABLED },
    pcfg, []⟩

/-- The function `cmd_passenger_security_update_check_proxy`. -/
def cmd_passenger_security_update_check_proxy (_cmd : cmd_parms)
    (serverConfig : ServerConfig) (pcfg : DirConfig) (arg : String) :
    SetterResult :=
  ⟨none, { serverConfig with securityUpdateCheckProxy := arg }, pcfg, []⟩

/-- The function `cmd_passenger_stat_throttle_rate`. -/
def cmd_passenger_stat_throttle_rate (cmd : cmd_parms)
    (serverConfig : ServerConfig) (pcfg : DirConfig) (arg : String) :
    SetterResult :=
  let result := (strtol arg).1
  if (strtol arg).2 ≠ [] then
    ⟨some ("Invalid number specified for " ++ cmd.directive ++ "."),
      serverConfig, pcfg, []⟩
  else
    ⟨none, { serverConfig with statThrottleRate := toInt result }, pcfg, []⟩

/-- The function `cmd_passenger_pre_start`. -/
def cmd_passenger_pre_start (_cmd : cmd_parms)
    (serverConfig : ServerConfig) (pcfg : DirConfig) (arg : String) :
    SetterResult :=
  ⟨none, { serverConfig with prestartURLs := serverConfig.prestartURLs.insert arg }, pcfg, []⟩

/-- The function `cmd_passenger_turbocaching`. -/
def cmd_passenger_turbocaching (_cmd : cmd_parms)
    (serverConfig : ServerConfig) (pcfg : DirConfig) (arg : Option String) :
    SetterResult :=
  ⟨none,
    { serverConfig with
      turbocaching := if arg.isSome then .ENABLED else .DISABLED },
    pcfg, []⟩

/-- The function `cmd_passenger_ruby`. -/
def cmd_passenger_ruby (_cmd : cmd_parms)
    (serverConfig : ServerConfig) (pcfg : DirConfig) (arg : String) :
    SetterResult :=
  let config := pcfg
  ⟨none, serverConfig, { config with ruby := arg }, []⟩

/-- The function `cmd_passenger_python`. -/
def cmd_passenger_python (_cmd : cmd_parms)
    (serverConfig : ServerConfig) (pcfg : DirConfig) (arg : String) :
    SetterResult :=
  let config := pcfg
  ⟨none, serverConfig, { config with python := arg }, []⟩

/-- The function `cmd_passenger_nodejs`. -/
def cmd_passenger_nodejs (_cmd : cmd_parms)
    (serverConfig : ServerConfig) (pcfg : DirConfig) (arg : String) :
    SetterResult :=
  let config := pcfg
  ⟨none, serverConfig, { config with nodejs := arg }, []⟩

/-- The function `cmd_passenger_meteor_app_settings`. -/
def cmd_passenger_meteor_app_settings (_cmd : cmd_parms)
    (serverConfig : ServerConfig) (pcfg : DirConfig) (arg : String) :
    SetterResult :=
  let config := pcfg
  ⟨none, serverConfig, { config with meteorAppSettings := arg }, []⟩

/-- The function `cmd_passenger_app_env`. -/
def cmd_passenger_app_env (_cmd : cmd_parms)
    (serverConfig : ServerConfig) (pcfg : DirConfig) (arg : String) :
    SetterResult :=
  let config := pcfg
  ⟨none, serverConfig, { config with appEnv := arg }, []⟩

/-- The function `cmd_passenger_min_instances`. -/
def cmd_passenger_min_instances (cmd : cmd_parms)
    (serverConfig : ServerConfig) (pcfg : DirConfig) (arg : String) :
    SetterResult :=
  let config := pcfg
  let result := (strtol arg).1
  if (strtol arg).2 ≠ [] then
    ⟨some ("Invalid number specified for " ++ cmd.directive ++ "."),
      serverConfig, pcfg, []⟩
  else if result < 0 then
    ⟨some ("Value for " ++ cmd.directive ++ " must be greater than or equal to 0."),
      serverConfig, pcfg, []⟩
  else
    ⟨none, serverConfig, { config with minInstances := toInt result }, []⟩

/-- The function `cmd_passenger_max_instances_per_app`. -/
def cmd_passenger_max_instances_per_app (cmd : cmd_parms)
    (serverConfig : ServerConfig) (pcfg : DirConfig) (arg : String) :
    SetterResult :=
  let config := pcfg
  let result := (strtol arg).1
  if (strtol arg).2 ≠ [] then
    ⟨some ("Invalid number specified for " ++ cmd.directive ++ "."),
      serverConfig, pcfg, []⟩
  else
    ⟨none, serverConfig, { config with maxInstancesPerApp := toInt result }, []⟩

/-- The function `cmd_passenger_user`. -/
def cmd_passenger_user (_cmd : cmd_parms)
    (serverConfig : ServerConfig) (pcfg : DirConfig) (arg : String) :
    SetterResult :=
  let config := pcfg
  ⟨none, serverConfig, { config with user := arg }, []⟩

/-- The function `cmd_passenger_group`. -/
def cmd_passenger_group (_cmd : cmd_parms)
    (serverConfig : ServerConfig) (pcfg : DirConfig) (arg : String) :
    SetterResult :=
  let config := pcfg
  ⟨none, serverConfig, { config with group := arg }, []⟩

/-- The function `cmd_passenger_error_override`. -/
def cmd_passenger_error_override (_cmd : cmd_parms)
    (serverConfig : ServerConfig) (pcfg : DirConfig) (arg : Option String) :
    SetterResult :=
  let config := pcfg
  ⟨none, serverConfig,
    { config with
      errorOverride := if arg.isSome then .ENABLED else .DISABLED },
    []⟩

/-- The function `cmd_passenger_max_requests`. -/
def cmd_passenger_max_requests (cmd : cmd_parms)
    (serverConfig : ServerConfig) (pcfg : DirConfig) (arg : String) :
    SetterResult :=
  let config := pcfg
  let result := (strtol arg).1
  if (strtol arg).2 ≠ [] then
    ⟨some ("Invalid number specified for " ++ cmd.directive ++ "."),
      serverConfig, pcfg, []⟩
  else if result < 0 then
    ⟨some ("Value for " ++ cmd.directive ++ " must be greater than or equal to 0."),
      serverConfig, pcfg, []⟩
  else
    ⟨none, serverConfig, { config with maxRequests := toInt result }, []⟩

/-- The function `cmd_passenger_start_timeout`. -/
def cmd_passenger_start_timeout (cmd : cmd_parms)
    (serverConfig : ServerConfig) (pcfg : DirConfig) (arg : String) :
    SetterResult :=
  let config := pcfg
  let result := (strtol arg).1
  if (strtol arg).2 ≠ [] then
    ⟨some ("Invalid number specified for " ++ cmd.directive ++ "."),
      serverConfig, pcfg, []⟩
  else if result < 1 then
    ⟨some ("Value for " ++ cmd.directive ++ " must be greater than or equal to 1."),
      serverConfig, pcfg, []⟩
  else
    ⟨none, serverConfig, { config with startTimeout := toInt result }, []⟩

/-- The function `cmd_passenger_high_performance`. -/
def cmd_passenger_high_performance (_cmd : cmd_parms)
    (serverConfig : ServerConfig) (pcfg : DirConfig) (arg : Option String) :
    SetterResult :=
  let config := pcfg
  ⟨none, serverConfig,
    { config with
      highPerformance := if arg.isSome then .ENABLED else .DISABLED },
    []⟩

/-- The function `cmd_passenger_enabled`. -/
def cmd_passenger_enabled (_cmd : cmd_parms)
    (serverConfig : ServerConfig) (pcfg : DirConfig) (arg : Option String) :
    SetterResult :=
  let config := pcfg
  ⟨none, serverConfig,
    { config with
      enabled := if arg.isSome then .ENABLED else .DISABLED },
    []⟩

/-- The function `cmd_passenger_max_request_queue_size`. -/
def cmd_passenger_max_request_queue_size (cmd : cmd_parms)
    (serverConfig : ServerConfig) (pcfg : DirConfig) (arg : String) :
    SetterResult :=
  let config := pcfg
  let result := (strtol arg).1
  if (strtol arg).2 ≠ [] then
    ⟨some ("Invalid number specified for " ++ cmd.directive ++ "."),
      serverConfig, pcfg, []⟩
  else if result < 0 then
    ⟨some ("Value for " ++ cmd.directive ++ " must be greater than or equal to 0."),
      serverConfig, pcfg, []⟩
  else
    ⟨none, serverConfig, { config with maxRequestQueueSize := toInt result }, []⟩

/-- The function `cmd_passenger_max_preloader_idle_time`. -/
def cmd_passenger_max_preloader_idle_time (cmd : cmd_parms)
    (serverConfig : ServerConfig) (pcfg : DirConfig) (arg : String) :
    SetterResult :=
  let config := pcfg
  let result := (strtol arg).1
  if (strtol arg).2 ≠ [] then
    ⟨some ("Invalid number specified for " ++ cmd.directive ++ "."),
      serverConfig, pcfg, []⟩
  else if result < 0 then
    ⟨some ("Value for " ++ cmd.directive ++ " must be greater than or equal to 0."),
      serverConfig, pcfg, []⟩
  else
    ⟨none, serverConfig, { config with maxPreloaderIdleTime := toInt result }, []⟩

/-- The function `cmd_passenger_load_shell_envvars`. -/
def cmd_passenger_load_shell_envvars (_cmd : cmd_parms)
    (serverConfig : ServerConfig) (pcfg : DirConfig) (arg : Option String) :
    SetterResult :=
  let config := pcfg
  ⟨none, serverConfig,
    { config with
      loadShellEnvvars := if arg.isSome then .ENABLED else .DISABLED },
    []⟩

/-- The function `cmd_passenger_buffer_upload`. -/
def cmd_passenger_buffer_upload (_cmd : cmd_parms)
    (serverConfig : ServerConfig) (pcfg : DirConfig) (arg : Option String) :
    SetterResult :=
  let config := pcfg
  ⟨none, serverConfig,
    { config with
      bufferUpload := if arg.isSome then .ENABLED else .DISABLED },
    []⟩

/-- The function `cmd_passenger_app_type`. -/
def cmd_passenger_app_type (_cmd : cmd_parms)
    (serverConfig : ServerConfig) (pcfg : DirConfig) (arg : String) :
    SetterResult :=
  let config := pcfg
  ⟨none, serverConfig, { config with appType := arg }, []⟩

/-- The function `cmd_passenger_startup_file`. -/
def cmd_passenger_startup_file (_cmd : cmd_parms)
    (serverConfig : ServerConfig) (pcfg : DirConfig) (arg : String) :
    SetterResult :=
  let config := pcfg
  ⟨none, serverConfig, { config with startupFile := arg }, []⟩

/-- The function `cmd_passenger_sticky_sessions`. -/
def cmd_passenger_sticky_sessions (_cmd : cmd_parms)
    (serverConfig : ServerConfig) (pcfg : DirConfig) (arg : Option String) :
    SetterResult :=
  let config := pcfg
  ⟨none, serverConfig,
    { config with
      stickySessions := if arg.isSome then .ENABLED else .DISABLED },
    []⟩

/-- The function `cmd_passenger_sticky_sessions_cookie_name`. -/
def cmd_passenger_sticky_sessions_cookie_name (_cmd : cmd_parms)
    (serverConfig : ServerConfig) (pcfg : DirConfig) (arg : Option String) :
    SetterResult :=
  let config := pcfg
  ⟨none, serverConfig,
    { config with
      stickySessionsCookieName := if arg.isSome then .ENABLED else .DISABLED },
    []⟩

/-- The function `cmd_passenger_show_version_in_header`. -/
def cmd_passenger_show_version_in_header (_cmd : cmd_parms)
    (serverConfig : ServerConfig) (pcfg : DirConfig) (arg : Option String) :
    SetterResult :=
  ⟨none,
    { serverConfig with
      showVersionInHeader := if arg.isSome then .ENABLED else .DISABLED },
    pcfg, []⟩

/-- The function `cmd_passenger_friendly_error_pages`. -/
def cmd_passenger_friendly_error_pages (_cmd : cmd_parms)
    (serverConfig : ServerConfig) (pcfg : DirConfig) (arg : Option String) :
    SetterResult :=
  let config := pcfg
  ⟨none, serverConfig,
    { config with
      friendlyErrorPages := if arg.isSome then .ENABLED else .DISABLED },
    []⟩

/-- The function `cmd_passenger_restart_dir`. -/
def cmd_passenger_restart_dir (_cmd : cmd_parms)
    (serverConfig : ServerConfig) (pcfg : DirConfig) (arg : String) :
    SetterResult :=
  let config := pcfg
  ⟨none, serverConfig, { config with restartDir := arg }, []⟩

/-- The function `cmd_passenger_app_group_name`. -/
def cmd_passenger_app_group_name (_cmd : cmd_parms)
    (serverConfig : ServerConfig) (pcfg : DirConfig) (arg : String) :
    SetterResult :=
  let config := pcfg
  ⟨none, serverConfig, { config with appGroupName := arg }, []⟩

/-- The function `cmd_passenger_force_max_concurrent_requests_per_process`. -/
def cmd_passenger_force_max_concurrent_requests_per_process (cmd : cmd_parms)
    (serverConfig : ServerConfig) (pcfg : DirConfig) (arg : String) :
    SetterResult :=
  let config := pcfg
  let result := (strtol arg).1
  if (strtol arg).2 ≠ [] then
    ⟨some ("Invalid number specified for " ++ cmd.directive ++ "."),
      serverConfig, pcfg, []⟩
  else
    ⟨none, serverConfig,
      { config with
        forceMaxConcurrentRequestsPerProcess := toInt result },
      []⟩

/-- The function `cmd_passenger_lve_min_uid`. -/
def cmd_passenger_lve_min_uid (cmd : cmd_parms)
    (serverConfig : ServerConfig) (pcfg : DirConfig) (arg : String) :
    SetterResult :=
  let config := pcfg
  let result := (strtol arg).1
  if (strtol arg).2 ≠ [] then
    ⟨some ("Invalid number specified for " ++ cmd.directive ++ "."),
      serverConfig, pcfg, []⟩
  else if result < 0 then
    ⟨some ("Value for " ++ cmd.directive ++ " must be greater than or equal to 0."),
      serverConfig, pcfg, []⟩
  else
    ⟨none, serverConfig, { config with lveMinUid := toInt result }, []⟩

/-- The function `cmd_passenger_app_root`. -/
def cmd_passenger_app_root (_cmd : cmd_parms)
    (serverConfig : ServerConfig) (pcfg : DirConfig) (arg : String) :
    SetterResult :=
  let config := pcfg
  ⟨none, serverConfig, { config with appRoot := arg }, []⟩

/-- The function `cmd_passenger_buffer_response`. -/
def cmd_passenger_buffer_response (_cmd : cmd_parms)
    (serverConfig : ServerConfig) (pcfg : DirConfig) (arg : Option String) :
    SetterResult :=
  let config := pcfg
  ⟨none, serverConfig,
    { config with
      bufferResponse := if arg.isSome then .ENABLED else .DISABLED },
    []⟩

/-- The function `cmd_passenger_resolve_symlinks_in_document_root`. -/
def cmd_passenger_resolve_symlinks_in_document_root (_cmd : cmd_parms)
    (serverConfig : ServerConfig) (pcfg : DirConfig) (arg : Option String) :
    SetterResult :=
  let config := pcfg
  ⟨none, serverConfig,
    { config with
      resolveSymlinksInDocumentRoot := if arg.isSome then .ENABLED else .DISABLED },
    []⟩

/-- The function `cmd_passenger_allow_encoded_slashes`. -/
def cmd_passenger_allow_encoded_slashes (_cmd : cmd_parms)
    (serverConfig : ServerConfig) (pcfg : DirConfig) (arg : Option String) :
    SetterResult :=
  let config := pcfg
  ⟨none, serverConfig,
    { config with
      allowEncodedSlashes := if arg.isSome then .ENABLED else .DISABLED },
    []⟩

/-- The function `cmd_rails_spawn_server`. -/
def cmd_rails_spawn_server (_cmd : cmd_parms)
    (serverConfig : ServerConfig) (pcfg : DirConfig) (_arg : String) :
    SetterResult :=
  ⟨none, serverConfig, pcfg,
    ["WARNING: The 'RailsSpawnServer' option is obsolete. Please specify " ++
      "'PassengerRoot' instead. The correct value was given to you by " ++
      "'passenger-install-apache2-module'.\n"]⟩

/-- The function `cmd_rails_allow_mod_rewrite`. -/
def cmd_rails_allow_mod_rewrite (_cmd : cmd_parms)
    (serverConfig : ServerConfig) (pcfg : DirConfig) (_arg : String) :
    SetterResult :=
  ⟨none, serverConfig, pcfg,
    ["WARNING: The 'RailsAllowModRewrite' option is obsolete: Phusion Passenger now " ++
      "fully supports mod_rewrite. Please remove this option from your configuration " ++
      "file.\n"]⟩

/-- The function `cmd_rails_framework_spawner_idle_time`. -/
def cmd_rails_framework_spawner_idle_time (_cmd : cmd_parms)
    (serverConfig : ServerConfig) (pcfg : DirConfig) (_arg : String) :
    SetterResult :=
  ⟨none, serverConfig, pcfg,
    ["WARNING: The 'RailsFrameworkSpawnerIdleTime' option is obsolete. Please use " ++
      "'PassengerMaxPreloaderIdleTime' instead.\n"]⟩

/-- The function `cmd_passenger_use_global_queue`. -/
def cmd_passenger_use_global_queue (_cmd : cmd_parms)
    (serverConfig : ServerConfig) (pcfg : DirConfig) (_arg : String) :
    SetterResult :=
  ⟨none, serverConfig, pcfg,
    ["WARNING: The 'PassengerUseGlobalQueue' option is obsolete: global queueing is " ++
      "now always turned on. Please remove this option from your configuration file.\n"]⟩

/-- The function `cmd_union_station_gateway_address`. -/
def cmd_union_station_gateway_address (_cmd : cmd_parms)
    (serverConfig : ServerConfig) (pcfg : DirConfig) (_arg : String) :
    SetterResult :=
  ⟨none, serverConfig, pcfg,
    ["WARNING: The 'UnionStationGatewayAddress' option is obsolete. Please remove this " ++
      "option from your configuration file.\n"]⟩

/-- The function `cmd_union_station_gateway_port`. -/
def cmd_union_station_gateway_port (_cmd : cmd_parms)
    (serverConfig : ServerConfig) (pcfg : DirConfig) (_arg : String) :
    SetterResult :=
  ⟨none, serverConfig, pcfg,
    ["WARNING: The 'UnionStationGatewayPort' option is obsolete. Please remove this " ++
      "option from your configuration file.\n"]⟩

/-- The function `cmd_union_station_gateway_cert`. -/
def cmd_union_station_gateway_cert (_cmd : cmd_parms)
    (serverConfig : ServerConfig) (pcfg : DirConfig) (_arg : String) :
    SetterResult :=
  ⟨none, serverConfig, pcfg,
    ["WARNING: The 'UnionStationGatewayCert' option is obsolete. Please remove this " ++
      "option from your configuration file.\n"]⟩

/-- The function `cmd_union_station_proxy_address`. -/
def cmd_union_station_proxy_address (_cmd : cmd_parms)
    (serverConfig : ServerConfig) (pcfg : DirConfig) (_arg : String) :
    SetterResult :=
  ⟨none, serverConfig, pcfg,
    ["WARNING: The 'UnionStationProxyAddress' option is obsolete. Please remove this " ++
      "option from your configuration file.\n"]⟩

/-- The function `cmd_passenger_analytics_log_user`. -/
def cmd_passenger_analytics_log_user (_cmd : cmd_parms)
    (serverConfig : ServerConfig) (pcfg : DirConfig) (_arg : String) :
    SetterResult :=
  ⟨none, serverConfig, pcfg,
    ["WARNING: The 'PassengerAnalyticsLogUser' option is obsolete. Please remove this " ++
      "option from your configuration file.\n"]⟩

/-- The function `cmd_passenger_analytics_log_group`. -/
def cmd_passenger_analytics_log_group (_cmd : cmd_parms)
    (serverConfig : ServerConfig) (pcfg : DirConfig) (_arg : String) :
    SetterResult :=
  ⟨none, serverConfig, pcfg,
    ["WARNING: The 'PassengerAnalyticsLogGroup' option is obsolete. Please remove this " ++
      "option from your configuration file.\n"]⟩

/-- The function `cmd_union_station_key`. -/
def cmd_union_station_key (_cmd : cmd_parms)
    (serverConfig : ServerConfig) (pcfg : DirConfig) (_arg : String) :
    SetterResult :=
  ⟨none, serverConfig, pcfg,
    ["WARNING: The 'UnionStationKey' option is obsolete. Please remove this option " ++
      "from your configuration file.\n"]⟩

/-- The function `cmd_union_station_filter`. -/
def cmd_union_station_filter (_cmd : cmd_parms)
    (serverConfig : ServerConfig) (pcfg : DirConfig) (_arg : String) :
    SetterResult :=
  ⟨none, serverConfig, pcfg,
    ["WARNING: The 'UnionStationFilter' option is obsolete. Please remove this option " ++
      "from your configuration file.\n"]⟩

/-- The function `cmd_union_station_support`. -/
def cmd_union_station_support (_cmd : cmd_parms)
    (serverConfig : ServerConfig) (pcfg : DirConfig) (_arg : String) :
    SetterResult :=
  ⟨none, serverConfig, pcfg,
    ["WARNING: The 'UnionStationSupport' option is obsolete. Please remove this option " ++
      "from your configuration file.\n"]⟩

/-- The names of the fields of `serverConfig` and of `DirConfig`. -/
inductive Field where
  | root
  | defaultRuby
  | logLevel
  | logFile
  | socketBacklog
  | fileDescriptorLogFile
  | maxPoolSize
  | poolIdleTime
  | responseBufferHighWatermark
  | userSwitching
  | defaultUser
  | defaultGroup
  | dataBufferDir
  | instanceRegistryDir
  | disableSecurityUpdateCheck
  | securityUpdateCheckProxy
  | statThrottleRate
  | prestartURLs
  | turbocaching
  | ruby
  | python
  | nodejs
  | meteorAppSettings
  | appEnv
  | minInstances
  | maxInstancesPerApp
  | user
  | group
  | errorOverride
  | maxRequests
  | startTimeout
  | highPerformance
  | enabled
  | maxRequestQueueSize
  | maxPreloaderIdleTime
  | loadShellEnvvars
  | bufferUpload
  | appType
  | startupFile
  | stickySessions
  | stickySessionsCookieName
  | showVersionInHeader
  | friendlyErrorPages
  | restartDir
  | appGroupName
  | forceMaxConcurrentRequestsPerProcess
  | lveMinUid
  | appRoot
  | bufferResponse
  | resolveSymlinksInDocumentRoot
  | allowEncodedSlashes
deriving DecidableEq

/-- The value of a field, whatever its type. -/
inductive FieldValue where
  | number (n : Int)
  | text (s : String)
  | flag (t : Threeway)
  | texts (set : List String)
deriving DecidableEq

/-- Reads a field by its name: the first fields are those of `serverConfig`, the others
those of `DirConfig`. -/
def read (serverConfig : ServerConfig) (config : DirConfig) : Field → FieldValue
  | .root => .text serverConfig.root
  | .defaultRuby => .text serverConfig.defaultRuby
  | .logLevel => .number serverConfig.logLevel
  | .logFile => .text serverConfig.logFile
  | .socketBacklog => .number serverConfig.socketBacklog
  | .fileDescriptorLogFile => .text serverConfig.fileDescriptorLogFile
  | .maxPoolSize => .number serverConfig.maxPoolSize
  | .poolIdleTime => .number serverConfig.poolIdleTime
  | .responseBufferHighWatermark => .number serverConfig.responseBufferHighWatermark
  | .userSwitching => .flag serverConfig.userSwitching
  | .defaultUser => .text serverConfig.defaultUser
  | .defaultGroup => .text serverConfig.defaultGroup
  | .dataBufferDir => .text serverConfig.dataBufferDir
  | .instanceRegistryDir => .text serverConfig.instanceRegistryDir
  | .disableSecurityUpdateCheck => .flag serverConfig.disableSecurityUpdateCheck
  | .securityUpdateCheckProxy => .text serverConfig.securityUpdateCheckProxy
  | .statThrottleRate => .number serverConfig.statThrottleRate
  | .prestartURLs => .texts serverConfig.prestartURLs
  | .turbocaching => .flag serverConfig.turbocaching
  | .ruby => .text config.ruby
  | .python => .text config.python
  | .nodejs => .text config.nodejs
  | .meteorAppSettings => .text config.meteorAppSettings
  | .appEnv => .text config.appEnv
  | .minInstances => .number config.minInstances
  | .maxInstancesPerApp => .number config.maxInstancesPerApp
  | .user => .text config.user
  | .group => .text config.group
  | .errorOverride => .flag config.errorOverride
  | .maxRequests => .number config.maxRequests
  | .startTimeout => .number config.startTimeout
  | .highPerformance => .flag config.highPerformance
  | .enabled => .flag config.enabled
  | .maxRequestQueueSize => .number config.maxRequestQueueSize
  | .maxPreloaderIdleTime => .number config.maxPreloaderIdleTime
  | .loadShellEnvvars => .flag config.loadShellEnvvars
  | .bufferUpload => .flag config.bufferUpload
  | .appType => .text config.appType
  | .startupFile => .text config.startupFile
  | .stickySessions => .flag config.stickySessions
  | .stickySessionsCookieName => .flag config.stickySessionsCookieName
  | .showVersionInHeader => .flag serverConfig.showVersionInHeader
  | .friendlyErrorPages => .flag config.friendlyErrorPages
  | .restartDir => .text config.restartDir
  | .appGroupName => .text config.appGroupName
  | .forceMaxConcurrentRequestsPerProcess => .number config.forceMaxConcurrentRequestsPerProcess
  | .lveMinUid => .number config.lveMinUid
  | .appRoot => .text config.appRoot
  | .bufferResponse => .flag config.bufferResponse
  | .resolveSymlinksInDocumentRoot => .flag config.resolveSymlinksInDocumentRoot
  | .allowEncodedSlashes => .flag config.allowEncodedSlashes

/-- A setter with the field its directive names. -/
structure Setter (Arg : Type) where
  field : Field
  run : cmd_parms → ServerConfig → DirConfig → Arg → SetterResult

/-- The setters of the text-valued directives, `cmd_passenger_pre_start` included. -/
def stringSetters : List (Setter String) :=
  [⟨.root, cmd_passenger_root⟩,
    ⟨.defaultRuby, cmd_passenger_default_ruby⟩,
    ⟨.logFile, cmd_passenger_log_file⟩,
    ⟨.fileDescriptorLogFile, cmd_passenger_file_descriptor_log_file⟩,
    ⟨.defaultUser, cmd_passenger_default_user⟩,
    ⟨.defaultGroup, cmd_passenger_default_group⟩,
    ⟨.dataBufferDir, cmd_passenger_data_buffer_dir⟩,
    ⟨.instanceRegistryDir, cmd_passenger_instance_registry_dir⟩,
    ⟨.securityUpdateCheckProxy, cmd_passenger_security_update_check_proxy⟩,
    ⟨.prestartURLs, cmd_passenger_pre_start⟩,
    ⟨.ruby, cmd_passenger_ruby⟩,
    ⟨.python, cmd_passenger_python⟩,
    ⟨.nodejs, cmd_passenger_nodejs⟩,
    ⟨.meteorAppSettings, cmd_passenger_meteor_app_settings⟩,
    ⟨.appEnv, cmd_passenger_app_env⟩,
    ⟨.user, cmd_passenger_user⟩,
    ⟨.group, cmd_passenger_group⟩,
    ⟨.appType, cmd_passenger_app_type⟩,
    ⟨.startupFile, cmd_passenger_startup_file⟩,
    ⟨.restartDir, cmd_passenger_restart_dir⟩,
    ⟨.appGroupName, cmd_passenger_app_group_name⟩,
    ⟨.appRoot, cmd_passenger_app_root⟩]

/-- The integer setters with the lower bound 0. -/
def lowerBoundZeroSetters : List (Setter String) :=
  [⟨.logLevel, cmd_passenger_log_level⟩,
    ⟨.socketBacklog, cmd_passenger_socket_backlog⟩,
    ⟨.poolIdleTime, cmd_passenger_pool_idle_time⟩,
    ⟨.responseBufferHighWatermark, cmd_passenger_response_buffer_high_watermark⟩,
    ⟨.minInstances, cmd_passenger_min_instances⟩,
    ⟨.maxRequests, cmd_passenger_max_requests⟩,
    ⟨.maxRequestQueueSize, cmd_passenger_max_request_queue_size⟩,
    ⟨.maxPreloaderIdleTime, cmd_passenger_max_preloader_idle_time⟩,
    ⟨.lveMinUid, cmd_passenger_lve_min_uid⟩]

/-- The integer setters with the lower bound 1. -/
def lowerBoundOneSetters : List (Setter String) :=
  [⟨.maxPoolSize, cmd_passenger_max_pool_size⟩,
    ⟨.startTimeout, cmd_passenger_start_timeout⟩]

/-- The integer setters without a bound. -/
def unboundedSetters : List (Setter String) :=
  [⟨.statThrottleRate, cmd_passenger_stat_throttle_rate⟩,
    ⟨.maxInstancesPerApp, cmd_passenger_max_instances_per_app⟩,
    ⟨.forceMaxConcurrentRequestsPerProcess,
      cmd_passenger_force_max_concurrent_requests_per_process⟩]

/-- The setters of the integer directives. -/
def integerSetters : List (Setter String) :=
  lowerBoundZeroSetters ++ lowerBoundOneSetters ++ unboundedSetters

/-- The setters that assign `ENABLED` or `DISABLED`. -/
def flagSetters : List (Setter (Option String)) :=
  [⟨.userSwitching, cmd_passenger_user_switching⟩,
    ⟨.disableSecurityUpdateCheck, cmd_passenger_disable_security_update_check⟩,
    ⟨.turbocaching, cmd_passenger_turbocaching⟩,
    ⟨.errorOverride, cmd_passenger_error_override⟩,
    ⟨.highPerformance, cmd_passenger_high_performance⟩,
    ⟨.enabled, cmd_passenger_enabled⟩,
    ⟨.loadShellEnvvars, cmd_passenger_load_shell_envvars⟩,
    ⟨.bufferUpload, cmd_passenger_buffer_upload⟩,
    ⟨.stickySessions, cmd_passenger_sticky_sessions⟩,
    ⟨.stickySessionsCookieName, cmd_passenger_sticky_sessions_cookie_name⟩,
    ⟨.showVersionInHeader, cmd_passenger_show_version_in_header⟩,
    ⟨.friendlyErrorPages, cmd_passenger_friendly_error_pages⟩,
    ⟨.bufferResponse, cmd_passenger_buffer_response⟩,
    ⟨.resolveSymlinksInDocumentRoot, cmd_passenger_resolve_symlinks_in_document_root⟩,
    ⟨.allowEncodedSlashes, cmd_passenger_allow_encoded_slashes⟩]

/-- The handlers of the obsolete directives. -/
def obsoleteHandlers :
    List (cmd_parms → ServerConfig → DirConfig → String → SetterResult) :=
  [cmd_rails_spawn_server,
    cmd_rails_allow_mod_rewrite,
    cmd_rails_framework_spawner_idle_time,
    cmd_passenger_use_global_queue,
    cmd_union_station_gateway_address,
    cmd_union_station_gateway_port,
    cmd_union_station_gateway_cert,
    cmd_union_station_proxy_address,
    cmd_passenger_analytics_log_user,
    cmd_passenger_analytics_log_group,
    cmd_union_station_key,
    cmd_union_station_filter,
    cmd_union_station_support]

/-- A `serverConfig` for the examples: no text, 0 and `DISABLED` everywhere. -/
def sampleServerConfig : ServerConfig where
  root := ""
  defaultRuby := ""
  logLevel := 0
  logFile := ""
  socketBacklog := 0
  fileDescriptorLogFile := ""
  maxPoolSize := 0
  poolIdleTime := 0
  responseBufferHighWatermark := 0
  userSwitching := .DISABLED
  defaultUser := ""
  defaultGroup := ""
  dataBufferDir := ""
  instanceRegistryDir := ""
  disableSecurityUpdateCheck := .DISABLED
  securityUpdateCheckProxy := ""
  statThrottleRate := 0
  prestartURLs := []
  turbocaching := .DISABLED
  showVersionInHeader := .DISABLED

/-- A `DirConfig` for the examples: no text, 0 and `DISABLED` everywhere. -/
def sampleDirConfig : DirConfig where
  ruby := ""
  python := ""
  nodejs := ""
  meteorAppSettings := ""
  appEnv := ""
  minInstances := 0
  maxInstancesPerApp := 0
  user := ""
  group := ""
  errorOverride := .DISABLED
  maxRequests := 0
  startTimeout := 0
  highPerformance := .DISABLED
  enabled := .DISABLED
  maxRequestQueueSize := 0
  maxPreloaderIdleTime := 0
  loadShellEnvvars := .DISABLED
  bufferUpload := .DISABLED
  appType := ""
  startupFile := ""
  stickySessions := .DISABLED
  stickySessionsCookieName := .DISABLED
  friendlyErrorPages := .DISABLED
  restartDir := ""
  appGroupName := ""
  forceMaxConcurrentRequestsPerProcess := 0
  lveMinUid := 0
  appRoot := ""
  bufferResponse := .DISABLED
  resolveSymlinksInDocumentRoot := .DISABLED
  allowEncodedSlashes := .DISABLED

/-- The directive `PassengerLogLevel`, as `cmd_passenger_log_level` receives it. -/
def logLevelDirective : cmd_parms := ⟨"PassengerLogLevel"⟩

end Apache2Module

namespace Core

open JsonValue

/-! ## Lemmas on JSON values and on the exception monad -/

theorem bind_ok_iff {ε α β : Type} (x : Except ε α) (f : α → Except ε β) (b : β) :
    (x >>= f) = .ok b ↔ ∃ a, x = .ok a ∧ f a = .ok b := by
  cases x with
  | error e => simp [bind, Except.bind]
  | ok a => simp [bind, Except.bind]

theorem set_reply_data (rid data : JsonValue) (result : String) (reply : JsonValue)
    (h : (JsonValue.obj [("request_id", rid), ("result", .str result)]).set "data" data
      = .ok reply) :
    reply = replyDocument rid result data := by
  cases h; rfl

theorem find_insert_self (k : String) (x : JsonValue) (m : List (String × JsonValue)) :
    find k (JsonValue.insert k x m) = some x := by
  induction m with
  | nil => simp [JsonValue.insert, find]
  | cons kv rest ih =>
    obtain ⟨a, v⟩ := kv
    unfold JsonValue.insert
    by_cases h1 : a = k
    · simp [h1, find]
    · by_cases h2 : keyLt k a = true
      · simp [h1, h2, find]
      · simp [h1, h2, find, ih]

theorem find_insert_ne (k k2 : String) (x : JsonValue) (m : List (String × JsonValue))
    (hne : k ≠ k2) : find k (JsonValue.insert k2 x m) = find k m := by
  induction m with
  | nil => simp [JsonValue.insert, find, Ne.symm hne]
  | cons kv rest ih =>
    obtain ⟨a, v⟩ := kv
    unfold JsonValue.insert
    by_cases h1 : a = k2
    · subst h1
      simp [find, Ne.symm hne]
    · by_cases h2 : keyLt k2 a = true
      · simp [h1, h2, find, Ne.symm hne]
      · simp [h1, h2, find, ih]

theorem mem_insert (k : String) (x : JsonValue) (m : List (String × JsonValue))
    (kv : String × JsonValue) (h : kv ∈ JsonValue.insert k x m) : kv = (k, x) ∨ kv ∈ m := by
  induction m with
  | nil => simpa [JsonValue.insert] using h
  | cons head rest ih =>
    obtain ⟨a, v⟩ := head
    unfold JsonValue.insert at h
    by_cases h1 : a = k
    · simp only [h1, if_true, List.mem_cons] at h
      rcases h with h | h
      · exact Or.inl h
      · exact Or.inr (List.mem_cons_of_mem _ h)
    · by_cases h2 : keyLt k a = true
      · simp only [h1, h2, if_true, if_false, List.mem_cons] at h
        rcases h with h | h | h
        · exact Or.inl h
        · exact Or.inr (by rw [h]; exact List.mem_cons_self _ _)
        · exact Or.inr (List.mem_cons_of_mem _ h)
      · simp only [h1, h2, if_false, List.mem_cons, Bool.false_eq_true] at h
        rcases h with h | h
        · exact Or.inr (by rw [h]; exact List.mem_cons_self _ _)
        · rcases ih h with h3 | h3
          · exact Or.inl h3
          · exact Or.inr (List.mem_cons_of_mem _ h3)

theorem find_mem (k : String) (x : JsonValue) (m : List (String × JsonValue))
    (h : find k m = some x) : ∃ a, (a, x) ∈ m := by
  induction m with
  | nil => simp [find] at h
  | cons head rest ih =>
    obtain ⟨a, v⟩ := head
    unfold find at h
    by_cases h1 : a = k
    · simp only [h1, if_true, Option.some.injEq] at h
      exact ⟨a, by rw [h]; exact List.mem_cons_self _ _⟩
    · simp only [h1, if_false] at h
      obtain ⟨b, hb⟩ := ih h
      exact ⟨b, List.mem_cons_of_mem _ hb⟩

/-- Every member of an object whose members are all null or objects is null or an object. -/
theorem member_isNullOrObject (m : List (String × JsonValue)) (k : String)
    (hall : ∀ kv ∈ m, isNullOrObject kv.2 = true) :
    isNullOrObject (member (.obj m) k) = true := by
  cases hf : find k m with
  | none => simp [member, hf, isNullOrObject]
  | some x =>
    obtain ⟨a, ha⟩ := find_mem k x m hf
    simpa [member, hf] using hall _ ha

theorem mapM_ok {α β : Type} (f : α → Except Exn β) (xs : List α)
    (h : ∀ x ∈ xs, ∃ y, f x = .ok y) : ∃ ys, xs.mapM f = .ok ys := by
  induction xs with
  | nil => exact ⟨[], rfl⟩
  | cons x rest ih =>
    obtain ⟨y, hy⟩ := h x (List.mem_cons_self _ _)
    obtain ⟨ys, hys⟩ := ih (fun z hz => h z (List.mem_cons_of_mem _ hz))
    refine ⟨y :: ys, ?_⟩
    rw [List.mapM_cons, hy, hys]
    rfl

theorem forEachM_ok (f : JsonValue → Except Exn JsonValue) (v : JsonValue)
    (h : ∀ x ∈ elements v, ∃ y, f x = .ok y) : ∃ w, v.forEachM f = .ok w := by
  cases v with
  | arr xs =>
    obtain ⟨ys, hys⟩ := mapM_ok f xs h
    exact ⟨.arr ys, by simp only [forEachM, hys]; rfl⟩
  | obj m =>
    have hm : ∀ kv ∈ m, ∃ y, (fun kv : String × JsonValue =>
        (f kv.2).map (fun v => (kv.1, v))) kv = .ok y := by
      intro kv hkv
      obtain ⟨y, hy⟩ := h kv.2 (by simp only [elements, List.mem_map]; exact ⟨kv, hkv, rfl⟩)
      exact ⟨(kv.1, y), by simp [hy, Except.map]⟩
    obtain ⟨ys, hys⟩ := mapM_ok _ m hm
    exact ⟨.obj ys, by simp only [forEachM, hys]; rfl⟩
  | _ => exact ⟨_, rfl⟩

/-! ## Validation -/

theorem validate_parse_error (env : Env) (msg formatted : String)
    (hp : env.parse msg = .error formatted) :
    parseAndBasicValidateMessageAsJSON env msg =
      .error (.runtimeException (parseFailureReason formatted)) := by
  unfold parseAndBasicValidateMessageAsJSON
  rw [hp]; rfl

theorem validate_not_object (env : Env) (msg : String) (doc : JsonValue)
    (hp : env.parse msg = .ok doc) (hd : doc.isObject = false) :
    parseAndBasicValidateMessageAsJSON env msg =
      .error (.runtimeException "Invalid command JSON document: must be an object") := by
  unfold parseAndBasicValidateMessageAsJSON
  rw [hp]
  simp [hd, bind, Except.bind, throw, throwThe, MonadExceptOf.throw]

theorem validate_obj (env : Env) (msg : String) (m : List (String × JsonValue))
    (hp : env.parse msg = .ok (.obj m)) :
    parseAndBasicValidateMessageAsJSON env msg =
      match find "action" m with
      | none => .error (.runtimeException "Invalid command JSON document: missing 'action' key")
      | some (.str _) =>
        if (find "request_id" m).isSome then
          match find "resource" m with
          | none => .error (.runtimeException "Invalid command JSON document: missing 'resource' key")
          | some (.str _) =>
            match find "arguments" m with
            | none => .ok (.obj m)
            | some (.obj _) => .ok (.obj m)
            | some _ => .error (.runtimeException
                "Invalid command JSON document: the 'arguments' key, when present, must be an object")
          | some _ => .error (.runtimeException
              "Invalid command JSON document: the 'resource' key must be a string")
        else .error (.runtimeException "Invalid command JSON document: missing 'request_id' key")
      | some _ => .error (.runtimeException
          "Invalid command JSON document: the 'action' key must be a string") := by
  unfold parseAndBasicValidateMessageAsJSON
  rw [hp]
  simp only [isObject, isMember, ref, bind, Except.bind, pure, Except.pure, throw, throwThe,
    MonadExceptOf.throw, Bool.not_true, Bool.false_eq_true, if_false]
  cases ha : find "action" m with
  | none => simp
  | some a =>
    cases a <;> simp [isString]
    cases hr : (find "request_id" m) with
    | none => simp
    | some rid =>
      simp
      cases hres : find "resource" m with
      | none => simp
      | some res =>
        cases res <;> simp [isString]
        cases harg : find "arguments" m with
        | none => simp
        | some arg => cases arg <;> simp [isObject]

theorem validate_eq_firstViolation (env : Env) (msg : String) :
    parseAndBasicValidateMessageAsJSON env msg =
      match firstViolation (env.parse msg), env.parse msg with
      | some reason, _ => .error (.runtimeException reason)
      | none, .ok doc => .ok doc
      | none, .error formatted => .error (.runtimeException (parseFailureReason formatted)) := by
  cases hp : env.parse msg with
  | error formatted => simp [validate_parse_error env msg formatted hp, firstViolation]
  | ok d =>
    cases d with
    | obj m =>
      rw [validate_obj env msg m hp]
      cases ha : find "action" m with
      | none => simp [firstViolation, validationRules, List.find?, isObject, hasMember, ha]
      | some a =>
        cases a with
        | str s =>
          cases hr : find "request_id" m with
          | none =>
            simp [firstViolation, validationRules, List.find?, isObject, hasMember, member,
              isString, ha, hr]
          | some rid =>
            cases hres : find "resource" m with
            | none =>
              simp [firstViolation, validationRules, List.find?, isObject, hasMember, member,
                isString, ha, hr, hres]
            | some res =>
              cases res with
              | str r =>
                cases harg : find "arguments" m with
                | none =>
                  simp [firstViolation, validationRules, List.find?, isObject, hasMember,
                    member, isString, ha, hr, hres, harg]
                | some arg =>
                  cases arg <;>
                    simp [firstViolation, validationRules, List.find?, isObject, hasMember,
                      member, isString, ha, hr, hres, harg]
              | _ =>
                simp [firstViolation, validationRules, List.find?, isObject, hasMember, member,
                  isString, ha, hr, hres]
        | _ =>
          simp [firstViolation, validationRules, List.find?, isObject, hasMember, member,
            isString, ha]
    | _ =>
      rw [validate_not_object env msg _ hp rfl]
      simp [firstViolation, validationRules, List.find?, isObject]

theorem validate_error_runtime (env : Env) (msg : String) (e : Exn)
    (h : parseAndBasicValidateMessageAsJSON env msg = .error e) :
    ∃ reason, firstViolation (env.parse msg) = some reason ∧ e = .runtimeException reason := by
  rw [validate_eq_firstViolation] at h
  cases hf : firstViolation (env.parse msg) with
  | some reason =>
    simp [hf] at h
    exact ⟨reason, rfl, h.symm⟩
  | none =>
    cases hp : env.parse msg with
    | ok d => rw [hf, hp] at h; simp at h
    | error f => simp [firstViolation, hp] at hf

theorem parseFailureReason_ne (formatted : String) (r : Rule) (hr : r ∈ validationRules) :
    parseFailureReason formatted ≠ r.reason := by
  simp only [validationRules, List.mem_cons, List.mem_singleton, List.not_mem_nil, or_false] at hr
  rcases hr with h | h | h | h | h | h | h <;> subst h <;>
    simp [parseFailureReason, String.ext_iff]

/-! ## The handlers, one by one -/

theorem onUnknownResource_eq (self : AdminPanelConnector) (m : List (String × JsonValue))
    (r : String) (hr : find "resource" m = some (.str r)) :
    onUnknownResource self (.obj m) =
      .ok ⟨true, [errorReply (member (.obj m) "request_id") ("Unknown resource '" ++ r ++ "'")],
        []⟩ := by
  simp only [onUnknownResource, JsonValue.get, hr, Option.getD, asString, bind, Except.bind]
  rfl

theorem onUnknownMessageAction_eq (self : AdminPanelConnector) (m : List (String × JsonValue))
    (a : String) (ha : find "action" m = some (.str a)) :
    onUnknownMessageAction self (.obj m) =
      .ok ⟨true, [errorReply (member (.obj m) "request_id") ("Unknown action '" ++ a ++ "'")],
        []⟩ := by
  simp only [onUnknownMessageAction, JsonValue.get, ha, Option.getD, asString, bind, Except.bind]
  rfl

theorem onGetGlobalStatistics_eq (self : AdminPanelConnector) (m : List (String × JsonValue)) :
    onGetGlobalStatistics self (.obj m) =
      .ok ⟨true, [errorReply (member (.obj m) "request_id") "Action not implemented"], []⟩ := by
  rfl

theorem onGetServerPropertiesDone_form (self : AdminPanelConnector)
    (m : List (String × JsonValue)) (output : String) (status : Int) (error : String) :
    ∃ result data, onGetServerPropertiesDone self (.obj m) output status error =
      .ok ⟨[replyDocument (member (.obj m) "request_id") result data], 1⟩ := by
  unfold onGetServerPropertiesDone
  by_cases he : error.isEmpty = true
  · by_cases hs : status = 0 ∨ status = -1
    · by_cases ho : output.isEmpty = true
      · exact ⟨"error", _, by simp only [he, hs, ho, if_true]; rfl⟩
      · cases hp : self.env.parse output with
        | ok dataDoc => exact ⟨"ok", dataDoc, by simp only [he, hs, ho, hp, if_true]; rfl⟩
        | error f => exact ⟨"error", _, by simp only [he, hs, ho, hp, if_true]; rfl⟩
    · exact ⟨"error", _, by simp only [he, hs, if_true, if_false]; rfl⟩
  · exact ⟨"error", _, by simp only [he, if_false]; rfl⟩

theorem onGetApplicationProperties_form (self : AdminPanelConnector)
    (m : List (String × JsonValue)) :
    ∃ result data, onGetApplicationProperties self (.obj m) =
      .ok ⟨true, [replyDocument (member (.obj m) "request_id") result data], []⟩ := by
  unfold onGetApplicationProperties
  cases ha : find "arguments" m with
  | none => exact ⟨"ok", _, by simp only [isMember, ha, bind, Except.bind]; rfl⟩
  | some args =>
    by_cases he : (self.env.updateErrors args).isEmpty = true
    · exact ⟨"ok", _, by simp [isMember, JsonValue.get, ha, he, bind, Except.bind, pure, Except.pure]; rfl⟩
    · exact ⟨"error", _, by simp [isMember, JsonValue.get, ha, he, bind, Except.bind, pure, Except.pure]; rfl⟩

theorem onGetGlobalProperties_form (self : AdminPanelConnector)
    (m : List (String × JsonValue)) (out : Outcome)
    (h : onGetGlobalProperties self (.obj m) = .ok out) :
    ∃ data, out = ⟨true, [replyDocument (member (.obj m) "request_id") "ok" data], []⟩ := by
  unfold onGetGlobalProperties at h
  simp only [bind_ok_iff] at h
  obtain ⟨r1, h1, rid, hrid, r2, h2, d1, -, d2, -, d3, -, d4, -, d5, -, d6, -, d7, -, d8, -,
    r3, h3, h4⟩ := h
  cases h1; cases hrid; cases h2
  have := set_reply_data _ _ _ _ h3
  subst this
  cases h4
  exact ⟨d8, rfl⟩

theorem construct_properties (env : Env) (instanceDir : JsonValue) (self : AdminPanelConnector)
    (h : AdminPanelConnector.construct env instanceDir = .ok self) :
    (∃ instanceId, self.globalPropertiesFromInstanceDir = .obj [("instance_id", instanceId)]) ∨
    (∃ instanceId watchdogPid, self.globalPropertiesFromInstanceDir =
      .obj [("instance_id", instanceId), ("watchdog_pid", watchdogPid)]) := by
  unfold AdminPanelConnector.construct at h
  by_cases hn : instanceDir.isNull = true
  · simp only [hn, Bool.not_true, Bool.false_eq_true, if_false, bind_ok_iff] at h
    obtain ⟨props, hp, hs⟩ := h
    cases hp; cases hs
    exact Or.inl ⟨_, rfl⟩
  · simp only [hn, Bool.not_false, if_true, bind_ok_iff, Bool.not_eq_true] at h
    obtain ⟨dir, -, props, hp, hs⟩ := h
    cases hs
    unfold readInstanceDirProperties at hp
    cases hread : env.readAll (dir ++ "/properties.json") with
    | error what => simp [hread] at hp
    | ok content =>
      cases hparse : env.parse content with
      | error f => simp [hread, hparse] at hp
      | ok doc =>
        simp only [hread, hparse, bind_ok_iff] at hp
        obtain ⟨⟨doc1, iid⟩, -, p1, hp1, ⟨doc2, wp⟩, -, hp2⟩ := hp
        cases hp1; cases hp2
        exact Or.inr ⟨_, _, rfl⟩

theorem onGetGlobalProperties_ok (self : AdminPanelConnector) (m : List (String × JsonValue))
    (hprops :
      (∃ instanceId, self.globalPropertiesFromInstanceDir = .obj [("instance_id", instanceId)]) ∨
      (∃ instanceId watchdogPid, self.globalPropertiesFromInstanceDir =
        .obj [("instance_id", instanceId), ("watchdog_pid", watchdogPid)])) :
    ∃ out, onGetGlobalProperties self (.obj m) = .ok out := by
  unfold onGetGlobalProperties
  rcases hprops with ⟨iid, hg⟩ | ⟨iid, wp, hg⟩ <;> rw [hg] <;>
    by_cases h1 : self.env.config.web_server_module_version.isNull = true <;>
    by_cases h2 : self.env.config.integration_mode = "standalone" <;>
    by_cases h3 : self.env.config.web_server_version.isNull = true <;>
    by_cases h4 : self.env.isOriginallyPackaged = true <;>
    simp only [h1, h2, h3, h4, Bool.not_true, Bool.not_false, Bool.false_eq_true, if_true,
      if_false] <;>
    exact ⟨_, rfl⟩

theorem modifyEnvironmentVariables_ok (env : Env) (option : JsonValue)
    (h : (elements option).all isNullOrObject = true) :
    ∃ w, modifyEnvironmentVariables env option = .ok w := by
  unfold modifyEnvironmentVariables
  apply forEachM_ok
  intro x hx
  rw [List.all_eq_true] at h
  have hx2 := h x hx
  cases x with
  | null => exact ⟨_, rfl⟩
  | obj m =>
    cases hf : find "value" m with
    | none => exact ⟨_, by simp only [JsonValue.ref, hf, bind, Except.bind]; rfl⟩
    | some v => exact ⟨_, by simp only [JsonValue.ref, hf, bind, Except.bind]; rfl⟩
  | _ => simp [isNullOrObject] at hx2

theorem modifyAppConfig_ok (env : Env) (appConfig : JsonValue)
    (h1 : isNullOrObject appConfig = true)
    (h2 : (elements (member appConfig "environment_variables")).all isNullOrObject = true) :
    ∃ w, modifyAppConfig env appConfig = .ok w := by
  unfold modifyAppConfig
  cases appConfig with
  | null => exact ⟨_, rfl⟩
  | obj am =>
    cases hf : find "environment_variables" am with
    | none => exact ⟨_, by simp only [JsonValue.ref, hf, bind, Except.bind]; rfl⟩
    | some ev =>
      have hev : (elements ev).all isNullOrObject = true := by
        simpa [member, hf] using h2
      obtain ⟨w, hw⟩ := modifyEnvironmentVariables_ok env ev hev
      exact ⟨_, by simp only [JsonValue.ref, hf, bind, Except.bind, hw]; rfl⟩
  | _ => simp [isNullOrObject] at h1

theorem onGetApplicationConfig_ok (self : AdminPanelConnector) (m : List (String × JsonValue))
    (hshape : ∀ options,
      inspectedConfigShape (self.env.inspectConfigInAdminPanelFormat options) = true) :
    ∃ out, onGetApplicationConfig self (.obj m) = .ok out := by
  have hloop : ∀ options, ∃ w,
      (self.env.inspectConfigInAdminPanelFormat options).forEachM
        (modifyAppConfig self.env) = .ok w := by
    intro options
    apply forEachM_ok
    intro x hx
    have hs := hshape options
    simp only [inspectedConfigShape, List.all_eq_true, Bool.and_eq_true] at hs
    obtain ⟨hx1, hx2⟩ := hs x hx
    exact modifyAppConfig_ok self.env x hx1 (by rw [List.all_eq_true]; exact hx2)
  choose w hw using hloop
  unfold onGetApplicationConfig
  simp only [hw]
  cases ha : find "arguments" m with
  | none =>
    exact ⟨_, by
      simp only [isMember, ha, bind, Except.bind, Option.isSome_none, Bool.false_eq_true,
        if_false, pure, Except.pure]
      rfl⟩
  | some args =>
    by_cases he : (self.env.updateErrors args).isEmpty = true
    · exact ⟨_, by
        simp only [isMember, JsonValue.get, ha, he, bind, Except.bind, pure, Except.pure,
          Option.isSome_some, Option.getD_some, if_true]
        rfl⟩
    · exact ⟨_, by
        simp only [isMember, JsonValue.get, ha, he, bind, Except.bind, pure, Except.pure,
          Option.isSome_some, Option.getD_some, if_true, if_false, Bool.false_eq_true]
        rfl⟩

theorem onGetApplicationConfig_form (self : AdminPanelConnector)
    (m : List (String × JsonValue)) (out : Outcome)
    (h : onGetApplicationConfig self (.obj m) = .ok out) :
    ∃ result data,
      out = ⟨true, [replyDocument (member (.obj m) "request_id") result data], []⟩ := by
  unfold onGetApplicationConfig at h
  simp only [bind_ok_iff] at h
  obtain ⟨hasArgs, -, checked, hchecked, h⟩ := h
  cases checked with
  | error reply =>
    simp only [pure, Except.pure, Except.ok.injEq] at h
    subst h
    by_cases hb : hasArgs = true
    · simp only [hb, if_true, bind_ok_iff] at hchecked
      obtain ⟨args, -, hc⟩ := hchecked
      by_cases he : (self.env.updateErrors args).isEmpty = true
      · simp [he, pure, Except.pure] at hc
      · simp only [he, if_false, Bool.false_eq_true, bind_ok_iff] at hc
        obtain ⟨r1, h1, rid, hrid, r2, h2, r3, h3, h4⟩ := hc
        cases h1; cases hrid; cases h2; cases h3
        simp only [pure, Except.pure, Except.ok.injEq, Except.error.injEq] at h4
        subst h4
        exact ⟨"error", _, rfl⟩
    · simp [hb, pure, Except.pure] at hchecked
  | ok options =>
    simp only [bind_ok_iff] at h
    obtain ⟨w, -, r1, h1, rid, hrid, r2, h2, r3, h3, h4⟩ := h
    cases h1; cases hrid; cases h2; cases h3
    simp only [pure, Except.pure, Except.ok.injEq] at h4
    subst h4
    exact ⟨"ok", _, rfl⟩

theorem modifyPrestartUrls_ok (env : Env) (sub : JsonValue) (key : String)
    (h : isNullOrObject sub = true) :
    ∃ w, modifyPrestartUrls env sub key = .ok w ∧ isNullOrObject w = true := by
  unfold modifyPrestartUrls
  cases sub with
  | null => exact ⟨.null, rfl, rfl⟩
  | obj sm =>
    cases hf : find key sm with
    | none => exact ⟨.obj sm, by simp [isMember, hf, bind, Except.bind, pure, Except.pure], rfl⟩
    | some x =>
      by_cases hx : x.isNull = true
      · exact ⟨.obj sm,
          by simp [isMember, JsonValue.ref, hf, hx, bind, Except.bind, pure, Except.pure], rfl⟩
      · refine ⟨.obj (JsonValue.insert key (.str (env.toStyledString x)) sm), ?_, rfl⟩
        simp only [isMember, JsonValue.ref, hf, hx, bind, Except.bind, pure, Except.pure,
          Option.isSome_some, Bool.not_true, Bool.false_eq_true, if_false, JsonValue.set]
  | _ => simp [isNullOrObject] at h

theorem modifyMaxInstancesPerApp_ok (sub : JsonValue) (key : String)
    (h : isNullOrObject sub = true) :
    ∃ w, modifyMaxInstancesPerApp sub key = .ok w ∧ isNullOrObject w = true := by
  unfold modifyMaxInstancesPerApp
  cases sub with
  | null => exact ⟨.null, rfl, rfl⟩
  | obj sm =>
    cases hf : find key sm with
    | none => exact ⟨.obj sm, by simp [isMember, hf, bind, Except.bind, pure, Except.pure], rfl⟩
    | some x =>
      by_cases hx : x.isNull = true
      · exact ⟨.obj sm,
          by simp [isMember, JsonValue.ref, hf, hx, bind, Except.bind, pure, Except.pure], rfl⟩
      · refine ⟨.obj (JsonValue.insert key (.int 0) sm), ?_, rfl⟩
        simp only [isMember, JsonValue.ref, hf, hx, bind, Except.bind, pure, Except.pure,
          Option.isSome_some, Bool.not_true, Bool.false_eq_true, if_false, JsonValue.set]
  | _ => simp [isNullOrObject] at h

theorem modifyLogTarget_ok (env : Env) (sub : JsonValue) (key : String)
    (h : isNullOrObject sub = true) (hshape : logTargetShape env (member sub key) = true) :
    ∃ w, modifyLogTarget env sub key = .ok w ∧ isNullOrObject w = true ∧
      ∀ k, k ≠ key → member w k = member sub k := by
  unfold modifyLogTarget
  cases sub with
  | null => exact ⟨.null, rfl, rfl, fun _ _ => rfl⟩
  | obj sm =>
    cases hf : find key sm with
    | none =>
      exact ⟨.obj sm, by simp [isMember, hf, bind, Except.bind, pure, Except.pure], rfl,
        fun _ _ => rfl⟩
    | some t =>
      simp only [member, hf, Option.getD_some] at hshape
      cases t with
      | null =>
        exact ⟨.obj sm,
          by simp [isMember, JsonValue.ref, hf, isNull, bind, Except.bind, pure, Except.pure],
          rfl, fun _ _ => rfl⟩
      | obj tm =>
        cases hp : find "path" tm with
        | some p =>
          refine ⟨.obj (JsonValue.insert key p sm), ?_, rfl, ?_⟩
          · simp [isMember, JsonValue.ref, hf, hp, isNull, bind, Except.bind, pure, Except.pure,
              JsonValue.set]
          · intro k hk
            simp only [member, find_insert_ne k key p sm hk]
        | none =>
          simp only [logTargetShape, hp, Option.isSome_none, Bool.false_or] at hshape
          cases hs : find "stderr" tm with
          | none => simp [hs] at hshape
          | some flag =>
            simp only [hs] at hshape
            cases hb : flag.asBool env with
            | error e => simp [hb] at hshape
            | ok b =>
              simp only [hb] at hshape
              subst hshape
              refine ⟨.obj (JsonValue.insert key (.str "/dev/stderr") sm), ?_, rfl, ?_⟩
              · simp [isMember, JsonValue.ref, hf, hp, hs, hb, isNull, bind, Except.bind, pure,
                  Except.pure, JsonValue.set]
              · intro k hk
                simp only [member, find_insert_ne k key _ sm hk]
      | _ => simp [logTargetShape] at hshape
  | _ => simp [isNullOrObject] at h

theorem valueHierarchy_ok (sub : JsonValue) (h : isNullOrObject sub = true) :
    ∃ w, valueHierarchy sub = .ok w := by
  unfold valueHierarchy
  cases sub with
  | null => exact ⟨_, rfl⟩
  | obj sm =>
    simp only [JsonValue.get, bind, Except.bind]
    by_cases h1 : ((find "user_value" sm).getD .null).isNull = true <;>
      by_cases h2 : ((find "default_value" sm).getD .null).isNull = true <;>
      simp only [h1, h2, Bool.not_true, Bool.not_false, Bool.false_eq_true, if_true,
        if_false] <;>
      exact ⟨_, rfl⟩
  | _ => simp [isNullOrObject] at h

theorem buildOptions_ok (members : List (String × JsonValue))
    (hall : ∀ kv ∈ members, isNullOrObject kv.2 = true) :
    ∀ om, ∃ o, buildOptions members (.obj om) = .ok (.obj o) := by
  induction members with
  | nil => intro om; exact ⟨om, rfl⟩
  | cons kv rest ih =>
    intro om
    obtain ⟨name, sub⟩ := kv
    obtain ⟨w, hw⟩ := valueHierarchy_ok sub (hall (name, sub) (List.mem_cons_self _ _))
    obtain ⟨o, ho⟩ := ih (fun kv hkv => hall kv (List.mem_cons_of_mem _ hkv))
      (JsonValue.insert name w om)
    exact ⟨o, by simp only [buildOptions, hw, bind, Except.bind, JsonValue.set, ho]⟩


theorem modifyOption_ok (modify : JsonValue → String → Except Exn JsonValue)
    (m : List (String × JsonValue)) (option : String) (Q0 Q1 Q2 : JsonValue → Prop)
    (h0 : ∀ sub, Q0 sub → ∃ w, modify sub "user_value" = .ok w ∧ Q1 w)
    (h1 : ∀ sub, Q1 sub → ∃ w, modify sub "default_value" = .ok w ∧ Q2 w)
    (h2 : ∀ sub, Q2 sub →
      ∃ w, modify sub "effective_value" = .ok w ∧ isNullOrObject w = true)
    (hn1 : ∀ sub, Q1 sub → isNullOrObject sub = true)
    (hn2 : ∀ sub, Q2 sub → isNullOrObject sub = true)
    (hsub : Q0 (member (.obj m) option))
    (hall : ∀ kv ∈ m, isNullOrObject kv.2 = true) :
    ∃ m2, modifyOption modify (.obj m) option = .ok (.obj m2) ∧
      (∀ kv ∈ m2, isNullOrObject kv.2 = true) ∧
      ∀ k, k ≠ option → find k m2 = find k m := by
  obtain ⟨w1, hw1, hq1⟩ := h0 _ hsub
  obtain ⟨w2, hw2, hq2⟩ := h1 _ hq1
  obtain ⟨w3, hw3, hq3⟩ := h2 _ hq2
  have hmem : ∀ (base : List (String × JsonValue)),
      (∀ kv ∈ base, isNullOrObject kv.2 = true) →
      ∀ kv ∈ JsonValue.insert option w3 (JsonValue.insert option w2
        (JsonValue.insert option w1 base)), isNullOrObject kv.2 = true := by
    intro base hbase kv hkv
    rcases mem_insert _ _ _ _ hkv with h | h
    · rw [h]; exact hq3
    · rcases mem_insert _ _ _ _ h with h | h
      · rw [h]; exact hn2 _ hq2
      · rcases mem_insert _ _ _ _ h with h | h
        · rw [h]; exact hn1 _ hq1
        · exact hbase kv h
  unfold modifyOption
  cases hf : find option m with
  | none =>
    simp only [member, hf, Option.getD_none] at hw1
    refine ⟨JsonValue.insert option w3 (JsonValue.insert option w2 (JsonValue.insert option w1
      (JsonValue.insert option .null m))), ?_, ?_, ?_⟩
    · simp only [JsonValue.ref, hf, bind, Except.bind, hw1, JsonValue.set, find_insert_self,
        hw2, hw3]
    · apply hmem
      intro kv hkv
      rcases mem_insert _ _ _ _ hkv with h | h
      · rw [h]; rfl
      · exact hall kv h
    · intro k hk
      rw [find_insert_ne k option _ _ hk, find_insert_ne k option _ _ hk,
        find_insert_ne k option _ _ hk, find_insert_ne k option _ _ hk]
  | some x =>
    simp only [member, hf, Option.getD_some] at hw1
    refine ⟨JsonValue.insert option w3 (JsonValue.insert option w2 (JsonValue.insert option w1
      m)), ?_, hmem m hall, ?_⟩
    · simp only [JsonValue.ref, hf, bind, Except.bind, hw1, JsonValue.set, find_insert_self,
        hw2, hw3]
    · intro k hk
      rw [find_insert_ne k option _ _ hk, find_insert_ne k option _ _ hk,
        find_insert_ne k option _ _ hk]

theorem modifyOption_ok_simple (modify : JsonValue → String → Except Exn JsonValue)
    (m : List (String × JsonValue)) (option : String)
    (hmod : ∀ sub key, isNullOrObject sub = true →
      ∃ w, modify sub key = .ok w ∧ isNullOrObject w = true)
    (hall : ∀ kv ∈ m, isNullOrObject kv.2 = true) :
    ∃ m2, modifyOption modify (.obj m) option = .ok (.obj m2) ∧
      (∀ kv ∈ m2, isNullOrObject kv.2 = true) :=
  let ⟨m2, h1, h2, _⟩ := modifyOption_ok modify m option
    (fun s => isNullOrObject s = true) (fun s => isNullOrObject s = true)
    (fun s => isNullOrObject s = true)
    (fun sub h => hmod sub _ h) (fun sub h => hmod sub _ h) (fun sub h => hmod sub _ h)
    (fun _ h => h) (fun _ h => h) (member_isNullOrObject m option hall) hall
  ⟨m2, h1, h2⟩

theorem modifyOption_logTarget_ok (env : Env) (m : List (String × JsonValue))
    (hshape : snapshotShape env (.obj m) = true) :
    ∃ m2, modifyOption (modifyLogTarget env) (.obj m) "log_target" = .ok (.obj m2) ∧
      (∀ kv ∈ m2, isNullOrObject kv.2 = true) := by
  simp only [snapshotShape, isObject, Bool.true_and, Bool.and_eq_true, List.all_eq_true,
    elements, List.mem_map, forall_exists_index, and_imp, forall_apply_eq_imp_iff₂,
    List.mem_cons, List.mem_singleton, forall_eq_or_imp, forall_eq, List.not_mem_nil,
    false_implies, implies_true, and_true] at hshape
  obtain ⟨hall, hu, hd, he⟩ := hshape
  obtain ⟨m2, h1, h2, _⟩ := modifyOption_ok (modifyLogTarget env) m "log_target"
    (fun s => isNullOrObject s = true ∧ logTargetShape env (member s "user_value") = true ∧
      logTargetShape env (member s "default_value") = true ∧
      logTargetShape env (member s "effective_value") = true)
    (fun s => isNullOrObject s = true ∧
      logTargetShape env (member s "default_value") = true ∧
      logTargetShape env (member s "effective_value") = true)
    (fun s => isNullOrObject s = true ∧
      logTargetShape env (member s "effective_value") = true)
    (fun sub ⟨hn, hu, hd, he⟩ =>
      let ⟨w, hw, hwn, hk⟩ := modifyLogTarget_ok env sub "user_value" hn hu
      ⟨w, hw, hwn, by rw [hk _ (by decide)]; exact hd, by rw [hk _ (by decide)]; exact he⟩)
    (fun sub ⟨hn, hd, he⟩ =>
      let ⟨w, hw, hwn, hk⟩ := modifyLogTarget_ok env sub "default_value" hn hd
      ⟨w, hw, hwn, by rw [hk _ (by decide)]; exact he⟩)
    (fun sub ⟨hn, he⟩ =>
      let ⟨w, hw, hwn, _⟩ := modifyLogTarget_ok env sub "effective_value" hn he
      ⟨w, hw, hwn⟩)
    (fun _ h => h.1) (fun _ h => h.1)
    ⟨member_isNullOrObject m "log_target" hall, hu, hd, he⟩ hall
  exact ⟨m2, h1, h2⟩

theorem onGetGlobalConfigDone_ok (self : AdminPanelConnector)
    (im : List (String × JsonValue)) (config : JsonValue)
    (hshape : snapshotShape self.env config = true) :
    ∃ trace, onGetGlobalConfigDone self (.obj im) config = .ok trace := by
  cases config with
  | obj m =>
    have hall : ∀ kv ∈ m, isNullOrObject kv.2 = true := by
      simp only [snapshotShape, isObject, Bool.true_and, Bool.and_eq_true, List.all_eq_true,
        elements, List.mem_map, forall_exists_index, and_imp, forall_apply_eq_imp_iff₂]
        at hshape
      exact hshape.1
    obtain ⟨m1, h1, hall1⟩ := modifyOption_logTarget_ok self.env m hshape
    obtain ⟨m2, h2, hall2⟩ := modifyOption_ok_simple (modifyPrestartUrls self.env) m1
      "prestart_urls" (fun sub key h => modifyPrestartUrls_ok self.env sub key h) hall1
    obtain ⟨m3, h3, hall3⟩ := modifyOption_ok_simple
      (fun s k => modifyMaxInstancesPerApp s k) m2
      "max_instances_per_app" (fun sub key h => modifyMaxInstancesPerApp_ok sub key h) hall2
    obtain ⟨o, ho⟩ := buildOptions_ok m3 hall3 []
    refine ⟨⟨[replyDocument (member (.obj im) "request_id") "ok"
      (.obj [("options", .obj o)])], 1⟩, ?_⟩
    unfold onGetGlobalConfigDone
    simp only [h1, h2, h3, ho, bind, Except.bind, isNull, Bool.false_eq_true, if_false]
    rfl
  | _ => simp [snapshotShape, isObject] at hshape

theorem onGetGlobalConfigDone_form (self : AdminPanelConnector)
    (im : List (String × JsonValue)) (config : JsonValue) (trace : DoneTrace)
    (h : onGetGlobalConfigDone self (.obj im) config = .ok trace) :
    ∃ data, trace = ⟨[replyDocument (member (.obj im) "request_id") "ok" data], 1⟩ := by
  unfold onGetGlobalConfigDone at h
  simp only [bind_ok_iff] at h
  obtain ⟨c1, -, c2, -, c3, -, h⟩ := h
  by_cases hn : config.isNull = true
  · simp [hn, throw, throwThe, MonadExceptOf.throw] at h
  · simp only [hn, if_false, Bool.false_eq_true] at h
    cases c3 with
    | obj members =>
      simp only [bind_ok_iff] at h
      obtain ⟨o, -, r1, hr1, rid, hrid, r2, hr2, r3, hr3, h4⟩ := h
      cases hr1; cases hrid; cases hr2; cases hr3
      simp only [pure, Except.pure, Except.ok.injEq] at h4
      subst h4
      exact ⟨_, rfl⟩
    | _ => simp [throw, throwThe, MonadExceptOf.throw] at h

/-! ## Dispatch -/

theorem validate_ok_iff (env : Env) (msg : String) (doc : JsonValue) :
    parseAndBasicValidateMessageAsJSON env msg = .ok doc ↔
      env.parse msg = .ok doc ∧ ValidCommand doc := by
  cases hp : env.parse msg with
  | error formatted => simp [validate_parse_error env msg formatted hp]
  | ok d =>
    cases d with
    | obj m =>
      rw [validate_obj env msg m hp]
      unfold ValidCommand
      constructor
      · intro h
        cases ha : find "action" m with
        | none => simp [ha] at h
        | some a =>
          cases a <;> simp [ha] at h
          cases hr : find "request_id" m with
          | none => simp [hr] at h
          | some rid =>
            cases hres : find "resource" m with
            | none => simp [hr, hres] at h
            | some res =>
              cases res <;> simp [hr, hres] at h
              cases harg : find "arguments" m with
              | none =>
                simp [harg] at h
                subst h
                simp [isObject, hasMember, member, ha, hr, hres, harg, isString]
              | some arg =>
                cases arg <;> simp [harg] at h
                subst h
                simp [isObject, hasMember, member, ha, hr, hres, harg, isString]
      · rintro ⟨hd, -, ⟨ha1, ha2⟩, hr, ⟨hres1, hres2⟩, harg⟩
        simp only [Except.ok.injEq] at hd
        subst hd
        simp only [hasMember, member] at ha1 ha2 hr hres1 hres2 harg
        cases ha : find "action" m with
        | none => simp [ha] at ha1
        | some a =>
          cases a <;> simp [ha, isString] at ha2
          cases hres : find "resource" m with
          | none => simp [hres] at hres1
          | some res =>
            cases res <;> simp [hres, isString] at hres2
            cases hargs : find "arguments" m with
            | none => simp [hr]
            | some arg =>
              cases arg <;> simp [hargs, isObject] at harg
              simp [hr]
    | _ =>
      rw [validate_not_object env msg _ hp rfl]
      simp [ValidCommand, isObject]
      intro h; subst h; simp

theorem validCommand_members (doc : JsonValue) (h : ValidCommand doc) :
    ∃ m a r, doc = .obj m ∧ find "action" m = some (.str a) ∧
      find "resource" m = some (.str r) := by
  obtain ⟨hd, ⟨ha1, ha2⟩, -, ⟨hr1, hr2⟩, -⟩ := h
  cases doc with
  | obj m =>
    simp only [hasMember, member] at ha1 ha2 hr1 hr2
    cases ha : find "action" m with
    | none => simp [ha] at ha1
    | some a =>
      cases a <;> simp [ha, isString] at ha2
      cases hr : find "resource" m with
      | none => simp [hr] at hr1
      | some r =>
        cases r <;> simp [hr, isString] at hr2
        exact ⟨m, _, _, rfl, ha, hr⟩
  | _ => simp [isObject] at hd

theorem validate_ok_members (env : Env) (msg : String) (doc : JsonValue)
    (h : parseAndBasicValidateMessageAsJSON env msg = .ok doc) :
    ∃ m a r, doc = .obj m ∧ find "action" m = some (.str a) ∧
      find "resource" m = some (.str r) :=
  validCommand_members doc ((validate_ok_iff env msg doc).mp h).2

theorem onMessage_valid (self : AdminPanelConnector) (payload : String)
    (m : List (String × JsonValue)) (a : String)
    (hv : parseAndBasicValidateMessageAsJSON self.env payload = .ok (.obj m))
    (ha : find "action" m = some (.str a)) :
    onMessage self payload =
      if a = "get" then onGetMessage self (.obj m) else onUnknownMessageAction self (.obj m) := by
  unfold onMessage
  simp only [hv, JsonValue.ref, ha, bind, Except.bind, JsonValue.str.injEq]

theorem onMessage_invalid (self : AdminPanelConnector) (payload : String) (e : Exn)
    (hv : parseAndBasicValidateMessageAsJSON self.env payload = .error e) :
    ∃ reason, firstViolation (self.env.parse payload) = some reason ∧
      e = .runtimeException reason ∧
      onMessage self payload = .ok ⟨true, [errorReply .null reason], []⟩ := by
  obtain ⟨reason, hf, he⟩ := validate_error_runtime self.env payload e hv
  refine ⟨reason, hf, he, ?_⟩
  subst he
  unfold onMessage
  simp only [hv]
  rfl

theorem onGetMessage_obj (self : AdminPanelConnector) (m : List (String × JsonValue))
    (r : String) (hr : find "resource" m = some (.str r)) :
    onGetMessage self (.obj m) =
      if r = "server_properties" then onGetServerProperties self (.obj m)
      else if r = "global_properties" then onGetGlobalProperties self (.obj m)
      else if r = "global_configuration" then onGetGlobalConfiguration self (.obj m)
      else if r = "global_statistics" then onGetGlobalStatistics self (.obj m)
      else if r = "application_properties" then onGetApplicationProperties self (.obj m)
      else if r = "application_configuration" then onGetApplicationConfig self (.obj m)
      else onUnknownResource self (.obj m) := by
  unfold onGetMessage
  simp only [JsonValue.get, hr, Option.getD_some, asString, bind, Except.bind]


/-- What a validated command makes `onMessage` do, whenever it returns. -/
theorem onMessage_valid_form (self : AdminPanelConnector) (payload : String)
    (m : List (String × JsonValue)) (a r : String)
    (hv : parseAndBasicValidateMessageAsJSON self.env payload = .ok (.obj m))
    (ha : find "action" m = some (.str a)) (hr : find "resource" m = some (.str r))
    (out : Outcome) (hout : onMessage self payload = .ok out) :
    (a = "get" ∧ r = "server_properties" ∧
      out = ⟨false, [], [.getServerProperties (.obj m) self.env.config.ruby]⟩) ∨
    (a = "get" ∧ r = "global_configuration" ∧
      out = ⟨false, [], [.getGlobalConfiguration (.obj m)]⟩) ∨
    (¬(a = "get" ∧ (r = "server_properties" ∨ r = "global_configuration")) ∧
      ∃ result data,
        out = ⟨true, [replyDocument (member (.obj m) "request_id") result data], []⟩) := by
  rw [onMessage_valid self payload m a hv ha] at hout
  by_cases hget : a = "get"
  · rw [if_pos hget, onGetMessage_obj self m r hr] at hout
    by_cases h1 : r = "server_properties"
    · rw [if_pos h1] at hout
      cases hout
      exact Or.inl ⟨hget, h1, rfl⟩
    · rw [if_neg h1] at hout
      by_cases h3 : r = "global_configuration"
      · have h2 : r ≠ "global_properties" := by rw [h3]; decide
        rw [if_neg h2, if_pos h3] at hout
        cases hout
        exact Or.inr (Or.inl ⟨hget, h3, rfl⟩)
      · refine Or.inr (Or.inr ⟨fun h => h.2.elim h1 h3, ?_⟩)
        by_cases h2 : r = "global_properties"
        · rw [if_pos h2] at hout
          obtain ⟨data, hd⟩ := onGetGlobalProperties_form self m out hout
          exact ⟨"ok", data, hd⟩
        · rw [if_neg h2, if_neg h3] at hout
          by_cases h4 : r = "global_statistics"
          · rw [if_pos h4, onGetGlobalStatistics_eq] at hout
            cases hout
            exact ⟨"error", _, rfl⟩
          · rw [if_neg h4] at hout
            by_cases h5 : r = "application_properties"
            · rw [if_pos h5] at hout
              obtain ⟨result, data, hd⟩ := onGetApplicationProperties_form self m
              rw [hd] at hout
              cases hout
              exact ⟨result, data, rfl⟩
            · rw [if_neg h5] at hout
              by_cases h6 : r = "application_configuration"
              · rw [if_pos h6] at hout
                exact onGetApplicationConfig_form self m out hout
              · rw [if_neg h6, onUnknownResource_eq self m r hr] at hout
                cases hout
                exact ⟨"error", _, rfl⟩
  · rw [if_neg hget, onUnknownMessageAction_eq self m a ha] at hout
    cases hout
    exact Or.inr (Or.inr ⟨fun h => hget h.1, "error", _, rfl⟩)

/-- A validated command makes `onMessage` return, given well-shaped collaborators. -/
theorem onMessage_valid_ok (self : AdminPanelConnector) (payload : String)
    (m : List (String × JsonValue)) (a r : String)
    (hprops :
      (∃ instanceId, self.globalPropertiesFromInstanceDir = .obj [("instance_id", instanceId)]) ∨
      (∃ instanceId watchdogPid, self.globalPropertiesFromInstanceDir =
        .obj [("instance_id", instanceId), ("watchdog_pid", watchdogPid)]))
    (hinspect : ∀ options,
      inspectedConfigShape (self.env.inspectConfigInAdminPanelFormat options) = true)
    (hv : parseAndBasicValidateMessageAsJSON self.env payload = .ok (.obj m))
    (ha : find "action" m = some (.str a)) (hr : find "resource" m = some (.str r)) :
    ∃ out, onMessage self payload = .ok out := by
  rw [onMessage_valid self payload m a hv ha]
  by_cases hget : a = "get"
  · rw [if_pos hget, onGetMessage_obj self m r hr]
    by_cases h1 : r = "server_properties"
    · rw [if_pos h1]; exact ⟨_, rfl⟩
    · rw [if_neg h1]
      by_cases h2 : r = "global_properties"
      · rw [if_pos h2]; exact onGetGlobalProperties_ok self m hprops
      · rw [if_neg h2]
        by_cases h3 : r = "global_configuration"
        · rw [if_pos h3]; exact ⟨_, rfl⟩
        · rw [if_neg h3]
          by_cases h4 : r = "global_statistics"
          · rw [if_pos h4]; exact ⟨_, onGetGlobalStatistics_eq self m⟩
          · rw [if_neg h4]
            by_cases h5 : r = "application_properties"
            · rw [if_pos h5]
              obtain ⟨result, data, hd⟩ := onGetApplicationProperties_form self m
              exact ⟨_, hd⟩
            · rw [if_neg h5]
              by_cases h6 : r = "application_configuration"
              · rw [if_pos h6]; exact onGetApplicationConfig_ok self m hinspect
              · rw [if_neg h6]; exact ⟨_, onUnknownResource_eq self m r hr⟩
  · rw [if_neg hget]; exact ⟨_, onUnknownMessageAction_eq self m a ha⟩

theorem member_replyDocument_request_id (rid : JsonValue) (result : String)
    (data : JsonValue) : member (replyDocument rid result data) "request_id" = rid := rfl


/-! ## The claims -/

/-- Claim C1: on a connector built by its constructor, with collaborators whose outputs
have the shape the handlers index into, `onMessage` returns for every payload, and either
sends one reply, creates no thread and returns true, or sends no reply, creates one thread
and returns false; every thread it creates posts one completion callback and sends
nothing, and that callback sends one reply. -/
theorem exactly_one_reply_per_message (env : Env) (instanceDir : JsonValue)
    (self : AdminPanelConnector)
    (hself : AdminPanelConnector.construct env instanceDir = .ok self)
    (hinspect : ∀ options,
      inspectedConfigShape (self.env.inspectConfigInAdminPanelFormat options) = true)
    (hsnapshot : snapshotShape self.env self.env.configGetter = true)
    (payload : String) :
    ∃ out, onMessage self payload = .ok out ∧
      ((out.handled = true ∧ out.replies.length = 1 ∧ out.jobs = []) ∨
        (out.handled = false ∧ out.replies = [] ∧ out.jobs.length = 1)) ∧
      ∀ job ∈ out.jobs, ∃ completion reply,
        job.run self = ⟨[completion], []⟩ ∧ completion.run self = .ok ⟨[reply], 1⟩ := by
  cases hv : parseAndBasicValidateMessageAsJSON self.env payload with
  | error e =>
    obtain ⟨reason, -, -, hout⟩ := onMessage_invalid self payload e hv
    exact ⟨_, hout, Or.inl ⟨rfl, rfl, rfl⟩, by simp⟩
  | ok doc =>
    obtain ⟨m, a, r, hd, ha, hr⟩ := validate_ok_members self.env payload doc hv
    subst hd
    obtain ⟨out, hout⟩ := onMessage_valid_ok self payload m a r
      (construct_properties env instanceDir self hself) hinspect hv ha hr
    refine ⟨out, hout, ?_⟩
    rcases onMessage_valid_form self payload m a r hv ha hr out hout with
      ⟨-, -, h⟩ | ⟨-, -, h⟩ | ⟨-, result, data, h⟩
    · subst h
      refine ⟨Or.inr ⟨rfl, rfl, rfl⟩, ?_⟩
      intro job hjob
      simp only [List.mem_singleton] at hjob
      subst hjob
      simp only [BgJob.run, onGetServerPropertiesBgJob]
      cases self.env.runInternalRubyTool self.env.config.ruby
          ["passenger-config", "system-properties"] with
      | error what =>
        obtain ⟨res, dat, h⟩ := onGetServerPropertiesDone_form self m "" (-1)
          (self.env.danglingWhat what)
        exact ⟨_, _, rfl, h⟩
      | ok so =>
        obtain ⟨res, dat, h⟩ := onGetServerPropertiesDone_form self m so.2 so.1 ""
        exact ⟨_, _, rfl, h⟩
    · subst h
      refine ⟨Or.inr ⟨rfl, rfl, rfl⟩, ?_⟩
      intro job hjob
      simp only [List.mem_singleton] at hjob
      subst hjob
      obtain ⟨trace, ht⟩ := onGetGlobalConfigDone_ok self m self.env.configGetter hsnapshot
      obtain ⟨dat, hform⟩ := onGetGlobalConfigDone_form self m _ trace ht
      subst hform
      exact ⟨_, _, rfl, ht⟩
    · subst h
      exact ⟨Or.inl ⟨rfl, rfl, rfl⟩, by simp⟩

/-- Witness of C1: the sample connector receiving a command for `server_properties`. -/
theorem exactly_one_reply_per_message_witness :
    AdminPanelConnector.construct sampleEnv .null = .ok sampleConnector ∧
    (∀ options, inspectedConfigShape
      (sampleConnector.env.inspectConfigInAdminPanelFormat options) = true) ∧
    snapshotShape sampleConnector.env sampleConnector.env.configGetter = true ∧
    ∃ out, onMessage sampleConnector serverPropertiesPayload = .ok out ∧
      ((out.handled = true ∧ out.replies.length = 1 ∧ out.jobs = []) ∨
        (out.handled = false ∧ out.replies = [] ∧ out.jobs.length = 1)) ∧
      ∀ job ∈ out.jobs, ∃ completion reply,
        job.run sampleConnector = ⟨[completion], []⟩ ∧
          completion.run sampleConnector = .ok ⟨[reply], 1⟩ :=
  ⟨rfl, fun _ => rfl, rfl,
    exactly_one_reply_per_message sampleEnv .null sampleConnector rfl (fun _ => rfl) rfl
      serverPropertiesPayload⟩

/-- Claim C2: `parseAndBasicValidateMessageAsJSON` returns a document exactly when the
payload parses and the parsed value is an object with a string `action`, a `request_id`
of any type, a string `resource` and, if present, an object `arguments`; the document
returned is the parsed payload itself. -/
theorem parseAndBasicValidateMessageAsJSON_accepts_iff (env : Env) (msg : String)
    (doc : JsonValue) :
    parseAndBasicValidateMessageAsJSON env msg = .ok doc ↔
      env.parse msg = .ok doc ∧ ValidCommand doc :=
  validate_ok_iff env msg doc

/-- Claim C3: the failure reported is that of the first violated rule in the order
(a) to (f), a payload that violates none is accepted, and the reasons of the rules are
pairwise distinct whatever the reader reports. -/
theorem validation_reports_first_violated_rule (env : Env) (msg : String) :
    (∀ reason, firstViolation (env.parse msg) = some reason →
      parseAndBasicValidateMessageAsJSON env msg = .error (.runtimeException reason)) ∧
    (firstViolation (env.parse msg) = none →
      ∃ doc, env.parse msg = .ok doc ∧ parseAndBasicValidateMessageAsJSON env msg = .ok doc) ∧
    (∀ formatted,
      (parseFailureReason formatted :: validationRules.map (fun r => r.reason)).Pairwise
        (fun a b => a ≠ b)) := by
  refine ⟨?_, ?_, ?_⟩
  · intro reason h
    rw [validate_eq_firstViolation, h]
  · intro h
    rw [validate_eq_firstViolation, h]
    cases hp : env.parse msg with
    | ok d => exact ⟨d, rfl, rfl⟩
    | error f => simp [firstViolation, hp] at h
  · intro formatted
    rw [List.pairwise_cons]
    constructor
    · intro b hb
      rw [List.mem_map] at hb
      obtain ⟨r, hr, rfl⟩ := hb
      exact parseFailureReason_ne formatted r hr
    · decide

/-- Witness of C3: an object lacking both `action` and `request_id`, with a `resource`
that is not a string, is reported as missing `action`. -/
theorem validation_reports_first_violated_rule_witness :
    firstViolation (sampleEnv.parse resourceOnlyPayload) =
      some "Invalid command JSON document: missing 'action' key" ∧
    parseAndBasicValidateMessageAsJSON sampleEnv resourceOnlyPayload =
      .error (.runtimeException "Invalid command JSON document: missing 'action' key") :=
  ⟨by decide,
    (validation_reports_first_violated_rule sampleEnv resourceOnlyPayload).1
      "Invalid command JSON document: missing 'action' key" (by decide)⟩

/-- Claim C4: when validation rejects the payload, `onMessage` sends one reply whose
result is "error" and whose data.message is the text of the validation failure, creates
no thread, runs no handler and returns true. -/
theorem validation_failure_reply (self : AdminPanelConnector) (payload : String) (e : Exn)
    (hv : parseAndBasicValidateMessageAsJSON self.env payload = .error e) :
    ∃ what reply, e = .runtimeException what ∧
      onMessage self payload = .ok ⟨true, [reply], []⟩ ∧
      member reply "result" = .str "error" ∧
      member (member reply "data") "message" = .str what := by
  obtain ⟨reason, -, he, hout⟩ := onMessage_invalid self payload e hv
  exact ⟨reason, _, he, hout, rfl, rfl⟩

/-- Witness of C4: a payload that is an array. -/
theorem validation_failure_reply_witness :
    parseAndBasicValidateMessageAsJSON sampleConnector.env arrayPayload =
      .error (.runtimeException "Invalid command JSON document: must be an object") ∧
    ∃ what reply,
      Exn.runtimeException "Invalid command JSON document: must be an object" =
        .runtimeException what ∧
      onMessage sampleConnector arrayPayload = .ok ⟨true, [reply], []⟩ ∧
      member reply "result" = .str "error" ∧
      member (member reply "data") "message" = .str what :=
  ⟨by decide,
    validation_failure_reply sampleConnector arrayPayload
      (.runtimeException "Invalid command JSON document: must be an object") (by decide)⟩


/-- Claim C5: for a payload that passes validation, every reply `onMessage` sends, and
every reply sent by the completion callback of a thread it creates, carries the
`request_id` member of the command, whatever its type. -/
theorem replies_echo_request_id (self : AdminPanelConnector) (payload : String)
    (doc : JsonValue) (out : Outcome)
    (hv : parseAndBasicValidateMessageAsJSON self.env payload = .ok doc)
    (hout : onMessage self payload = .ok out) :
    (∀ reply ∈ out.replies, member reply "request_id" = member doc "request_id") ∧
    ∀ job ∈ out.jobs, ∀ completion ∈ (job.run self).posted, ∀ trace,
      completion.run self = .ok trace →
        ∀ reply ∈ trace.replies, member reply "request_id" = member doc "request_id" := by
  obtain ⟨m, a, r, hd, ha, hr⟩ := validate_ok_members self.env payload doc hv
  subst hd
  rcases onMessage_valid_form self payload m a r hv ha hr out hout with
    ⟨-, -, h⟩ | ⟨-, -, h⟩ | ⟨-, result, data, h⟩
  · subst h
    refine ⟨by simp, ?_⟩
    intro job hjob completion hc trace ht reply hreply
    simp only [List.mem_singleton] at hjob
    subst hjob
    simp only [BgJob.run, onGetServerPropertiesBgJob] at hc
    cases htool : self.env.runInternalRubyTool self.env.config.ruby
        ["passenger-config", "system-properties"] with
    | error what =>
      simp only [htool, List.mem_singleton] at hc
      subst hc
      obtain ⟨res, dat, h⟩ := onGetServerPropertiesDone_form self m "" (-1)
        (self.env.danglingWhat what)
      simp only [Completion.run, h, Except.ok.injEq] at ht
      subst ht
      simp only [List.mem_singleton] at hreply
      subst hreply
      rfl
    | ok so =>
      simp only [htool, List.mem_singleton] at hc
      subst hc
      obtain ⟨res, dat, h⟩ := onGetServerPropertiesDone_form self m so.2 so.1 ""
      simp only [Completion.run, h, Except.ok.injEq] at ht
      subst ht
      simp only [List.mem_singleton] at hreply
      subst hreply
      rfl
  · subst h
    refine ⟨by simp, ?_⟩
    intro job hjob completion hc trace ht reply hreply
    simp only [List.mem_singleton] at hjob
    subst hjob
    simp only [BgJob.run, onGetGlobalConfigurationBgJob, List.mem_singleton] at hc
    subst hc
    obtain ⟨dat, hform⟩ := onGetGlobalConfigDone_form self m _ trace ht
    subst hform
    simp only [List.mem_singleton] at hreply
    subst hreply
    rfl
  · subst h
    refine ⟨?_, by simp⟩
    intro reply hreply
    simp only [List.mem_singleton] at hreply
    subst hreply
    rfl

/-- Witness of C5: a deferred command whose request_id is a string. -/
theorem replies_echo_request_id_witness :
    parseAndBasicValidateMessageAsJSON sampleConnector.env serverPropertiesPayload =
      .ok serverPropertiesCommand ∧
    onMessage sampleConnector serverPropertiesPayload =
      .ok ⟨false, [], [.getServerProperties serverPropertiesCommand "ruby"]⟩ ∧
    (∀ reply ∈ (Outcome.mk false []
        [.getServerProperties serverPropertiesCommand "ruby"]).replies,
      member reply "request_id" = member serverPropertiesCommand "request_id") ∧
    ∀ job ∈ (Outcome.mk false []
        [.getServerProperties serverPropertiesCommand "ruby"]).jobs,
      ∀ completion ∈ (job.run sampleConnector).posted, ∀ trace,
        completion.run sampleConnector = .ok trace →
          ∀ reply ∈ trace.replies,
            member reply "request_id" = member serverPropertiesCommand "request_id" :=
  ⟨by decide, by decide,
    replies_echo_request_id sampleConnector serverPropertiesPayload serverPropertiesCommand
      ⟨false, [], [.getServerProperties serverPropertiesCommand "ruby"]⟩
      (by decide) (by decide)⟩

/-- Claim C6, evaluated at a failing input: an object with `request_id` 5 that lacks
`resource` is answered with a null `request_id`, because the local document of
`onMessage` is never assigned when validation throws. -/
theorem validation_failure_drops_request_id :
    sampleEnv.parse missingResourcePayload = .ok missingResourceDocument ∧
    member missingResourceDocument "request_id" = .int 5 ∧
    onMessage sampleConnector missingResourcePayload =
      .ok ⟨true,
        [errorReply .null "Invalid command JSON document: missing 'resource' key"], []⟩ := by
  decide

/-- Counterexample to C7: a command whose `request_id` is null passes validation. -/
theorem validated_request_id_may_be_null :
    parseAndBasicValidateMessageAsJSON sampleEnv nullRequestIdPayload =
      .ok nullRequestIdCommand ∧
    member nullRequestIdCommand "request_id" = .null := by
  decide

/-- Claim C7, amended: every document returned by `parseAndBasicValidateMessageAsJSON`
is an object that has a `request_id` member (of any type, null included), a string
`action` and a string `resource`, and its `arguments`, if present, is an object. -/
theorem validated_command_invariant (env : Env) (msg : String) (doc : JsonValue)
    (h : parseAndBasicValidateMessageAsJSON env msg = .ok doc) :
    hasMember doc "request_id" = true ∧
      (member doc "action").isString = true ∧
      (member doc "resource").isString = true ∧
      (hasMember doc "arguments" = true → (member doc "arguments").isObject = true) := by
  obtain ⟨-, -, ⟨-, ha⟩, hr, ⟨-, hres⟩, harg⟩ := (validate_ok_iff env msg doc).mp h
  exact ⟨hr, ha, hres, harg⟩

/-- Witness of C7 as amended: the command `unknownResourceCommand`. -/
theorem validated_command_invariant_witness :
    parseAndBasicValidateMessageAsJSON sampleEnv unknownResourcePayload =
      .ok unknownResourceCommand ∧
    (hasMember unknownResourceCommand "request_id" = true ∧
      (member unknownResourceCommand "action").isString = true ∧
      (member unknownResourceCommand "resource").isString = true ∧
      (hasMember unknownResourceCommand "arguments" = true →
        (member unknownResourceCommand "arguments").isObject = true)) :=
  ⟨by decide,
    validated_command_invariant sampleEnv unknownResourcePayload unknownResourceCommand
      (by decide)⟩

/-- Claim C8: a validated command with action "get" and a resource that is none of the
six known names is answered, in the same call, with exactly the error reply
"Unknown resource '<resource>'" carrying the request_id of the command, and `onMessage`
returns true. Names are compared by string equality. -/
theorem unknown_resource_reply (self : AdminPanelConnector) (payload : String)
    (doc : JsonValue) (r : String)
    (hv : parseAndBasicValidateMessageAsJSON self.env payload = .ok doc)
    (ha : member doc "action" = .str "get") (hr : member doc "resource" = .str r)
    (hunknown : r ∉ knownResources) :
    onMessage self payload =
      .ok ⟨true,
        [errorReply (member doc "request_id") ("Unknown resource '" ++ r ++ "'")], []⟩ := by
  obtain ⟨m, a, r2, hd, ha2, hr2⟩ := validate_ok_members self.env payload doc hv
  subst hd
  simp only [member, ha2, hr2, Option.getD_some, JsonValue.str.injEq] at ha hr
  subst ha; subst hr
  simp only [knownResources, List.mem_cons, List.mem_singleton, List.not_mem_nil, or_false,
    not_or] at hunknown
  obtain ⟨h1, h2, h3, h4, h5, h6⟩ := hunknown
  rw [onMessage_valid self payload m _ hv ha2, if_pos rfl, onGetMessage_obj self m _ hr2,
    if_neg h1, if_neg h2, if_neg h3, if_neg h4, if_neg h5, if_neg h6,
    onUnknownResource_eq self m _ hr2]

/-- Witness of C8: a resource name that differs from a known one only by case, and the
scenario of the specification, resource "nonexistent". -/
theorem unknown_resource_reply_witness :
    "Server_Properties" ∉ knownResources ∧
    onMessage sampleConnector mixedCaseResourcePayload =
      .ok ⟨true,
        [errorReply (member mixedCaseResourceCommand "request_id")
          ("Unknown resource '" ++ "Server_Properties" ++ "'")], []⟩ ∧
    onMessage sampleConnector unknownResourcePayload =
      .ok ⟨true, [errorReply (.str "r1") "Unknown resource 'nonexistent'"], []⟩ :=
  ⟨by decide,
    unknown_resource_reply sampleConnector mixedCaseResourcePayload mixedCaseResourceCommand
      "Server_Properties" (by decide) (by decide) (by decide) (by decide),
    unknown_resource_reply sampleConnector unknownResourcePayload unknownResourceCommand
      "nonexistent" (by decide) (by decide) (by decide) (by decide)⟩

/-- Claim C9: a validated command whose action is any string other than "get" is
answered, in the same call, with exactly the error reply "Unknown action '<action>'"
carrying the request_id of the command, and `onMessage` returns true, whatever the
resource is. -/
theorem unknown_action_reply (self : AdminPanelConnector) (payload : String)
    (doc : JsonValue) (a : String)
    (hv : parseAndBasicValidateMessageAsJSON self.env payload = .ok doc)
    (ha : member doc "action" = .str a) (hne : a ≠ "get") :
    onMessage self payload =
      .ok ⟨true,
        [errorReply (member doc "request_id") ("Unknown action '" ++ a ++ "'")], []⟩ := by
  obtain ⟨m, a2, r, hd, ha2, -⟩ := validate_ok_members self.env payload doc hv
  subst hd
  simp only [member, ha2, Option.getD_some, JsonValue.str.injEq] at ha
  subst ha
  rw [onMessage_valid self payload m _ hv ha2, if_neg hne,
    onUnknownMessageAction_eq self m _ ha2]

/-- Witness of C9: an unknown action with an unknown resource reports the action. -/
theorem unknown_action_reply_witness :
    member unknownActionCommand "action" = .str "set" ∧ "set" ≠ "get" ∧
    onMessage sampleConnector unknownActionPayload =
      .ok ⟨true, [errorReply (.str "r2") "Unknown action 'set'"], []⟩ :=
  ⟨by decide, by decide,
    unknown_action_reply sampleConnector unknownActionPayload unknownActionCommand "set"
      (by decide) (by decide) (by decide)⟩

/-- Claim C10: on a connector built by its constructor, with an application pool whose
output has the shape the handler indexes into, `onMessage` returns for every payload;
it returns false exactly when the payload passes validation with action "get" and
resource `server_properties` or `global_configuration`, and then no reply has been sent;
when it returns true, one reply has been sent in the same call. -/
theorem onMessage_deferred_iff (env : Env) (instanceDir : JsonValue)
    (self : AdminPanelConnector)
    (hself : AdminPanelConnector.construct env instanceDir = .ok self)
    (hinspect : ∀ options,
      inspectedConfigShape (self.env.inspectConfigInAdminPanelFormat options) = true)
    (payload : String) :
    ∃ out, onMessage self payload = .ok out ∧
      (out.handled = false ↔
        ∃ doc, parseAndBasicValidateMessageAsJSON self.env payload = .ok doc ∧
          member doc "action" = .str "get" ∧
          (member doc "resource" = .str "server_properties" ∨
            member doc "resource" = .str "global_configuration")) ∧
      (out.handled = false → out.replies = []) ∧
      (out.handled = true → out.replies.length = 1) := by
  cases hv : parseAndBasicValidateMessageAsJSON self.env payload with
  | error e =>
    obtain ⟨reason, -, -, hout⟩ := onMessage_invalid self payload e hv
    exact ⟨_, hout, by simp, by simp, by simp⟩
  | ok doc =>
    obtain ⟨m, a, r, hd, ha, hr⟩ := validate_ok_members self.env payload doc hv
    subst hd
    obtain ⟨out, hout⟩ := onMessage_valid_ok self payload m a r
      (construct_properties env instanceDir self hself) hinspect hv ha hr
    refine ⟨out, hout, ?_⟩
    rcases onMessage_valid_form self payload m a r hv ha hr out hout with
      ⟨h1, h2, h⟩ | ⟨h1, h2, h⟩ | ⟨hn, result, data, h⟩
    · subst h
      exact ⟨⟨fun _ => ⟨_, rfl, by simp [member, ha, h1], by simp [member, hr, h2]⟩,
        fun _ => rfl⟩, fun _ => rfl, by simp⟩
    · subst h
      exact ⟨⟨fun _ => ⟨_, rfl, by simp [member, ha, h1], by simp [member, hr, h2]⟩,
        fun _ => rfl⟩, fun _ => rfl, by simp⟩
    · subst h
      refine ⟨⟨by simp, ?_⟩, by simp, by simp⟩
      rintro ⟨doc, hdoc, hda, hdr⟩
      simp only [Except.ok.injEq] at hdoc
      subst hdoc
      simp only [member, ha, hr, Option.getD_some, JsonValue.str.injEq] at hda hdr
      exact absurd ⟨hda, hdr⟩ hn

/-- Witness of C10: the sample connector defers a command for `global_configuration`. -/
theorem onMessage_deferred_iff_witness :
    AdminPanelConnector.construct sampleEnv .null = .ok sampleConnector ∧
    (∀ options, inspectedConfigShape
      (sampleConnector.env.inspectConfigInAdminPanelFormat options) = true) ∧
    onMessage sampleConnector globalConfigurationPayload =
      .ok ⟨false, [], [.getGlobalConfiguration globalConfigurationCommand]⟩ ∧
    ∃ out, onMessage sampleConnector globalConfigurationPayload = .ok out ∧
      (out.handled = false ↔
        ∃ doc, parseAndBasicValidateMessageAsJSON sampleConnector.env
            globalConfigurationPayload = .ok doc ∧
          member doc "action" = .str "get" ∧
          (member doc "resource" = .str "server_properties" ∨
            member doc "resource" = .str "global_configuration")) ∧
      (out.handled = false → out.replies = []) ∧
      (out.handled = true → out.replies.length = 1) :=
  ⟨rfl, fun _ => rfl, by decide,
    onMessage_deferred_iff sampleEnv .null sampleConnector rfl (fun _ => rfl)
      globalConfigurationPayload⟩

/-! ## The completion callback of `server_properties` -/

theorem done_launch_failure (self : AdminPanelConnector) (m : List (String × JsonValue))
    (output : String) (status : Int) (error : String) (he : error.isEmpty = false) :
    onGetServerPropertiesDone self (.obj m) output status error =
      .ok ⟨[errorReply (member (.obj m) "request_id") error], 1⟩ := by
  unfold onGetServerPropertiesDone
  simp only [he, Bool.false_eq_true, if_false]
  rfl

theorem done_exit_status (self : AdminPanelConnector) (m : List (String × JsonValue))
    (output : String) (status : Int) (error : String) (he : error.isEmpty = true)
    (hs : ¬(status = 0 ∨ status = -1)) :
    onGetServerPropertiesDone self (.obj m) output status error =
      .ok ⟨[errorReply (member (.obj m) "request_id")
        ("Internal helper tool exited with status " ++ toString (WEXITSTATUS status))], 1⟩ := by
  unfold onGetServerPropertiesDone
  simp only [he, hs, if_true, if_false]
  rfl

theorem done_empty_output (self : AdminPanelConnector) (m : List (String × JsonValue))
    (output : String) (status : Int) (error : String) (he : error.isEmpty = true)
    (hs : status = 0 ∨ status = -1) (ho : output.isEmpty = true) :
    onGetServerPropertiesDone self (.obj m) output status error =
      .ok ⟨[errorReply (member (.obj m) "request_id")
        "Error parsing internal helper tool output"], 1⟩ := by
  unfold onGetServerPropertiesDone
  simp only [he, hs, ho, if_true]
  rfl

theorem done_parsed_output (self : AdminPanelConnector) (m : List (String × JsonValue))
    (output : String) (status : Int) (error : String) (dataDoc : JsonValue)
    (he : error.isEmpty = true) (hs : status = 0 ∨ status = -1)
    (ho : output.isEmpty = false) (hp : self.env.parse output = .ok dataDoc) :
    onGetServerPropertiesDone self (.obj m) output status error =
      .ok ⟨[replyDocument (member (.obj m) "request_id") "ok" dataDoc], 1⟩ := by
  unfold onGetServerPropertiesDone
  simp only [he, hs, ho, hp, if_true, if_false, Bool.false_eq_true]
  rfl

theorem done_unparsable_output (self : AdminPanelConnector) (m : List (String × JsonValue))
    (output : String) (status : Int) (error : String) (formatted : String)
    (he : error.isEmpty = true) (hs : status = 0 ∨ status = -1)
    (ho : output.isEmpty = false) (hp : self.env.parse output = .error formatted) :
    onGetServerPropertiesDone self (.obj m) output status error =
      .ok ⟨[errorReply (member (.obj m) "request_id")
        "Error parsing internal helper tool output"], 1⟩ := by
  unfold onGetServerPropertiesDone
  simp only [he, hs, ho, hp, if_true, if_false, Bool.false_eq_true]
  rfl

theorem ldiff_255 (a : Nat) : Nat.ldiff 255 a = 255 - a % 256 := by
  apply Nat.eq_of_testBit_eq
  intro i
  have hlt : a % 2 ^ 8 < 2 ^ 8 := Nat.mod_lt _ (by norm_num)
  have h1 := Nat.testBit_two_pow_sub_succ hlt i
  have h2 := Nat.testBit_two_pow_sub_one 8 i
  have e1 : 2 ^ 8 - (a % 2 ^ 8 + 1) = 255 - a % 256 := by norm_num; omega
  have e2 : 2 ^ 8 - 1 = 255 := by norm_num
  rw [e1] at h1
  rw [e2] at h2
  rw [Nat.testBit_ldiff, h1, h2, Nat.testBit_mod_two_pow]
  cases decide (i < 8) <;> simp

/-- The arithmetic form of `WEXITSTATUS` is the bitwise one, `(status >> 8) & 0xff`. -/
theorem WEXITSTATUS_eq_bits (status : Int) :
    WEXITSTATUS status = Int.land (status >>> (8 : Nat)) (255 : Int) := by
  unfold WEXITSTATUS
  rw [Int.shiftRight_eq_div_pow]
  have h256 : ((2 ^ 8 : Nat) : Int) = 256 := by norm_num
  rw [h256]
  generalize status / 256 = q
  cases q with
  | ofNat a =>
    show ((a : Int)) % 256 = Int.land (Int.ofNat a) (Int.ofNat 255)
    simp only [Int.land]
    have h := Nat.and_pow_two_sub_one_eq_mod a 8
    norm_num at h
    rw [h]
    norm_cast
  | negSucc a =>
    show _ = Int.land (Int.negSucc a) (Int.ofNat 255)
    simp only [Int.land]
    rw [ldiff_255]
    have : a % 256 < 256 := Nat.mod_lt _ (by norm_num)
    rw [Int.negSucc_emod _ (by norm_num)]
    omega

theorem WEXITSTATUS_exit_code (n : Nat) (hn : n ≤ 255) :
    WEXITSTATUS ((n : Int) * 256) = (n : Int) := by
  unfold WEXITSTATUS
  omega

/-- Every reply of the completion callback is either the "ok" reply carrying a parsed
output, or an error reply whose message is determined by the status and the error. -/
theorem done_cases (self : AdminPanelConnector) (m : List (String × JsonValue))
    (output : String) (status : Int) (error : String) :
    onGetServerPropertiesDone self (.obj m) output status error =
        .ok ⟨[errorReply (member (.obj m) "request_id")
          (if error.isEmpty then
            if status = 0 ∨ status = -1 then "Error parsing internal helper tool output"
            else "Internal helper tool exited with status " ++ toString (WEXITSTATUS status)
          else error)], 1⟩ ∨
      ∃ dataDoc, (error.isEmpty = true ∧ (status = 0 ∨ status = -1) ∧
        output.isEmpty = false ∧ self.env.parse output = .ok dataDoc) ∧
        onGetServerPropertiesDone self (.obj m) output status error =
          .ok ⟨[replyDocument (member (.obj m) "request_id") "ok" dataDoc], 1⟩ := by
  by_cases he : error.isEmpty = true
  · by_cases hs : status = 0 ∨ status = -1
    · by_cases ho : output.isEmpty = true
      · left
        rw [done_empty_output self m output status error he hs ho]
        simp only [he, hs, if_true]
      · simp only [Bool.not_eq_true] at ho
        cases hp : self.env.parse output with
        | ok dataDoc =>
          right
          exact ⟨dataDoc, ⟨he, hs, ho, rfl⟩,
            done_parsed_output self m output status error dataDoc he hs ho hp⟩
        | error f =>
          left
          rw [done_unparsable_output self m output status error f he hs ho hp]
          simp only [he, hs, if_true]
    · left
      rw [done_exit_status self m output status error he hs]
      simp only [he, hs, if_true, if_false]
  · simp only [Bool.not_eq_true] at he
    left
    rw [done_launch_failure self m output status error he]
    simp only [he, Bool.false_eq_true, if_false]

theorem str_ok_ne_error : JsonValue.str "ok" ≠ JsonValue.str "error" := by decide

/-- Claim C12: with an empty error string and status 0, a non-empty output that parses
is answered with result "ok" and the parsed document as data; an empty or unparsable
output is answered with the error "Error parsing internal helper tool output"; so the
result is "ok" exactly when the output is non-empty and parses. -/
theorem server_properties_success_reply (self : AdminPanelConnector)
    (m : List (String × JsonValue)) (output : String) :
    (∀ dataDoc, output.isEmpty = false → self.env.parse output = .ok dataDoc →
      onGetServerPropertiesDone self (.obj m) output 0 "" =
        .ok ⟨[replyDocument (member (.obj m) "request_id") "ok" dataDoc], 1⟩) ∧
    ((output.isEmpty = true ∨ ∃ formatted, self.env.parse output = .error formatted) →
      onGetServerPropertiesDone self (.obj m) output 0 "" =
        .ok ⟨[errorReply (member (.obj m) "request_id")
          "Error parsing internal helper tool output"], 1⟩) ∧
    ∃ reply, onGetServerPropertiesDone self (.obj m) output 0 "" = .ok ⟨[reply], 1⟩ ∧
      (member reply "result" = .str "ok" ↔
        output.isEmpty = false ∧ ∃ dataDoc, self.env.parse output = .ok dataDoc) := by
  have he : "".isEmpty = true := by decide
  have hs : (0 : Int) = 0 ∨ (0 : Int) = -1 := Or.inl rfl
  refine ⟨?_, ?_, ?_⟩
  · intro dataDoc ho hp
    exact done_parsed_output self m output 0 "" dataDoc he hs ho hp
  · intro h
    by_cases ho : output.isEmpty = true
    · exact done_empty_output self m output 0 "" he hs ho
    · simp only [Bool.not_eq_true] at ho
      rcases h with h | ⟨f, hf⟩
      · rw [h] at ho; cases ho
      · exact done_unparsable_output self m output 0 "" f he hs ho hf
  · by_cases ho : output.isEmpty = true
    · refine ⟨_, done_empty_output self m output 0 "" he hs ho, ?_⟩
      constructor
      · intro h; exact absurd h.symm str_ok_ne_error
      · rintro ⟨h, -⟩; rw [ho] at h; cases h
    · simp only [Bool.not_eq_true] at ho
      cases hp : self.env.parse output with
      | ok dataDoc =>
        exact ⟨_, done_parsed_output self m output 0 "" dataDoc he hs ho hp,
          fun _ => ⟨ho, dataDoc, rfl⟩, fun _ => rfl⟩
      | error f =>
        refine ⟨_, done_unparsable_output self m output 0 "" f he hs ho hp, ?_⟩
        constructor
        · intro h; exact absurd h.symm str_ok_ne_error
        · rintro ⟨-, d, hd⟩; cases hd

/-- Witness of C12: the helper prints a JSON object. -/
theorem server_properties_success_reply_witness :
    helperOutputText.isEmpty = false ∧
    sampleConnector.env.parse helperOutputText = .ok helperOutputDocument ∧
    onGetServerPropertiesDone sampleConnector serverPropertiesCommand helperOutputText 0 "" =
      .ok ⟨[replyDocument (.str "r3") "ok" helperOutputDocument], 1⟩ :=
  ⟨by decide, by decide,
    (server_properties_success_reply sampleConnector
      [("action", .str "get"), ("request_id", .str "r3"),
        ("resource", .str "server_properties")] helperOutputText).1
      helperOutputDocument (by decide) (by decide)⟩

/-- Counterexample to C13: with status -1, an empty error string and an output that
parses, the reply has result "ok". -/
theorem unexpected_status_may_reply_ok :
    ((-1 : Int) ≠ 0) ∧
    onGetServerPropertiesDone sampleConnector serverPropertiesCommand helperOutputText
        (-1) "" =
      .ok ⟨[replyDocument (.str "r3") "ok" helperOutputDocument], 1⟩ ∧
    member (replyDocument (.str "r3") "ok" helperOutputDocument) "result" = .str "ok" := by
  decide

/-- Claim C13, amended: for every status other than 0 and -1, with any captured output
and any error string, the reply of `onGetServerPropertiesDone` is an error reply; a status
of -1 is handled like status 0: with the same output and error string the callback does
the same, so with an empty error string an output that parses is answered with result
"ok" and its document, and an empty or unparsable output with the parsing error. -/
theorem nonzero_status_replies_error (self : AdminPanelConnector)
    (m : List (String × JsonValue)) (output : String) (error : String) :
    (∀ status : Int, status ≠ 0 → status ≠ -1 →
      ∃ message, onGetServerPropertiesDone self (.obj m) output status error =
          .ok ⟨[errorReply (member (.obj m) "request_id") message], 1⟩ ∧
        member (errorReply (member (.obj m) "request_id") message) "result" =
          .str "error") ∧
    onGetServerPropertiesDone self (.obj m) output (-1) error =
      onGetServerPropertiesDone self (.obj m) output 0 error ∧
    (∀ dataDoc, output.isEmpty = false → self.env.parse output = .ok dataDoc →
      onGetServerPropertiesDone self (.obj m) output (-1) "" =
        .ok ⟨[replyDocument (member (.obj m) "request_id") "ok" dataDoc], 1⟩ ∧
      member (replyDocument (member (.obj m) "request_id") "ok" dataDoc) "result" =
        .str "ok") ∧
    ((output.isEmpty = true ∨ ∃ formatted, self.env.parse output = .error formatted) →
      onGetServerPropertiesDone self (.obj m) output (-1) "" =
        .ok ⟨[errorReply (member (.obj m) "request_id")
          "Error parsing internal helper tool output"], 1⟩) := by
  have h0 : (0 : Int) = 0 ∨ (0 : Int) = -1 := Or.inl rfl
  have h1 : (-1 : Int) = 0 ∨ (-1 : Int) = -1 := Or.inr rfl
  have hempty : "".isEmpty = true := by decide
  refine ⟨?_, ?_, ?_, ?_⟩
  · intro status hs0 hs1
    rcases done_cases self m output status error with h | ⟨d, ⟨-, hs, -, -⟩, -⟩
    · exact ⟨_, h, rfl⟩
    · rcases hs with hs | hs
      · exact absurd hs hs0
      · exact absurd hs hs1
  · by_cases he : error.isEmpty = true
    · by_cases ho : output.isEmpty = true
      · rw [done_empty_output self m output (-1) error he h1 ho,
          done_empty_output self m output 0 error he h0 ho]
      · simp only [Bool.not_eq_true] at ho
        cases hp : self.env.parse output with
        | ok dataDoc =>
          rw [done_parsed_output self m output (-1) error dataDoc he h1 ho hp,
            done_parsed_output self m output 0 error dataDoc he h0 ho hp]
        | error formatted =>
          rw [done_unparsable_output self m output (-1) error formatted he h1 ho hp,
            done_unparsable_output self m output 0 error formatted he h0 ho hp]
    · simp only [Bool.not_eq_true] at he
      rw [done_launch_failure self m output (-1) error he,
        done_launch_failure self m output 0 error he]
  · intro dataDoc ho hp
    exact ⟨done_parsed_output self m output (-1) "" dataDoc hempty h1 ho hp, rfl⟩
  · intro h
    by_cases ho : output.isEmpty = true
    · exact done_empty_output self m output (-1) "" hempty h1 ho
    · simp only [Bool.not_eq_true] at ho
      rcases h with h | ⟨f, hf⟩
      · rw [h] at ho; cases ho
      · exact done_unparsable_output self m output (-1) "" f hempty h1 ho hf

/-- Witness of C13 as amended: the helper prints a JSON object; with exit code 1 the reply
is an error, with status -1 it is the reply of status 0, which has result "ok". -/
theorem nonzero_status_replies_error_witness :
    (256 : Int) ≠ 0 ∧ (256 : Int) ≠ -1 ∧
    (∃ message, onGetServerPropertiesDone sampleConnector
          (.obj [("action", .str "get"), ("request_id", .str "r3"),
            ("resource", .str "server_properties")]) helperOutputText 256 "" =
        .ok ⟨[errorReply (member (.obj [("action", .str "get"), ("request_id", .str "r3"),
            ("resource", .str "server_properties")]) "request_id") message], 1⟩ ∧
      member (errorReply (member (.obj [("action", .str "get"), ("request_id", .str "r3"),
            ("resource", .str "server_properties")]) "request_id") message) "result" =
        .str "error") ∧
    onGetServerPropertiesDone sampleConnector serverPropertiesCommand helperOutputText
        256 "" =
      .ok ⟨[errorReply (.str "r3") "Internal helper tool exited with status 1"], 1⟩ ∧
    onGetServerPropertiesDone sampleConnector
        (.obj [("action", .str "get"), ("request_id", .str "r3"),
          ("resource", .str "server_properties")]) helperOutputText (-1) "" =
      onGetServerPropertiesDone sampleConnector
        (.obj [("action", .str "get"), ("request_id", .str "r3"),
          ("resource", .str "server_properties")]) helperOutputText 0 "" ∧
    onGetServerPropertiesDone sampleConnector serverPropertiesCommand helperOutputText
        0 "" =
      .ok ⟨[replyDocument (.str "r3") "ok" helperOutputDocument], 1⟩ :=
  ⟨by decide, by decide,
    (nonzero_status_replies_error sampleConnector
      [("action", .str "get"), ("request_id", .str "r3"),
        ("resource", .str "server_properties")] helperOutputText "").1 256
      (by decide) (by decide),
    by decide,
    (nonzero_status_replies_error sampleConnector
      [("action", .str "get"), ("request_id", .str "r3"),
        ("resource", .str "server_properties")] helperOutputText "").2.1,
    by decide⟩

/-- Claim C14: when the helper exits with code n, 1 ≤ n ≤ 255, so that the wait status is
n * 256, and the error string is empty, the reply is the error "Internal helper tool
exited with status " followed by n in decimal; for every status other than 0 and -1 the
number shown is `(status >> 8) & 0xff`. -/
theorem exit_status_message (self : AdminPanelConnector) (m : List (String × JsonValue))
    (output : String) :
    (∀ n : Nat, 1 ≤ n → n ≤ 255 →
      onGetServerPropertiesDone self (.obj m) output ((n : Int) * 256) "" =
        .ok ⟨[errorReply (member (.obj m) "request_id")
          ("Internal helper tool exited with status " ++ toString n)], 1⟩) ∧
    (∀ status : Int, status ≠ 0 → status ≠ -1 →
      onGetServerPropertiesDone self (.obj m) output status "" =
        .ok ⟨[errorReply (member (.obj m) "request_id")
          ("Internal helper tool exited with status " ++
            toString (Int.land (status >>> (8 : Nat)) (255 : Int)))], 1⟩) := by
  have he : "".isEmpty = true := by decide
  constructor
  · intro n h1 h255
    have hs : ¬((n : Int) * 256 = 0 ∨ (n : Int) * 256 = -1) := by omega
    rw [done_exit_status self m output _ "" he hs, WEXITSTATUS_exit_code n h255]
    rfl
  · intro status h0 h1
    have hs : ¬(status = 0 ∨ status = -1) := fun h => h.elim h0 h1
    rw [done_exit_status self m output _ "" he hs, WEXITSTATUS_eq_bits]

/-- Witness of C14: the scenario of the specification, exit code 1. -/
theorem exit_status_message_witness :
    onGetServerPropertiesDone sampleConnector serverPropertiesCommand "boom"
        (((1 : Nat) : Int) * 256) "" =
      .ok ⟨[errorReply (member serverPropertiesCommand "request_id")
        ("Internal helper tool exited with status " ++ toString 1)], 1⟩ ∧
    "Internal helper tool exited with status " ++ toString 1 =
      "Internal helper tool exited with status 1" :=
  ⟨(exit_status_message sampleConnector
      [("action", .str "get"), ("request_id", .str "r3"),
        ("resource", .str "server_properties")] "boom").1 1 (by decide) (by decide),
    by decide⟩

/-- Claim C15: two error replies of `onGetServerPropertiesDone` for the same command,
status and error string are equal, whatever the two captured outputs are. -/
theorem error_reply_independent_of_output (self : AdminPanelConnector)
    (m : List (String × JsonValue)) (status : Int) (error : String)
    (o1 o2 : String) (r1 r2 : JsonValue)
    (h1 : onGetServerPropertiesDone self (.obj m) o1 status error = .ok ⟨[r1], 1⟩)
    (h2 : onGetServerPropertiesDone self (.obj m) o2 status error = .ok ⟨[r2], 1⟩)
    (e1 : member r1 "result" = .str "error") (e2 : member r2 "result" = .str "error") :
    r1 = r2 := by
  rcases done_cases self m o1 status error with c1 | ⟨d1, -, c1⟩
  · rcases done_cases self m o2 status error with c2 | ⟨d2, -, c2⟩
    · rw [c1] at h1; rw [c2] at h2
      cases h1; cases h2; rfl
    · rw [c2] at h2; cases h2
      exact absurd e2.symm str_ok_ne_error.symm
  · rw [c1] at h1; cases h1
    exact absurd e1.symm str_ok_ne_error.symm

/-- Witness of C15: a helper that exits with code 1 after two different outputs. -/
theorem error_reply_independent_of_output_witness :
    onGetServerPropertiesDone sampleConnector serverPropertiesCommand "boom" 256 "" =
      .ok ⟨[errorReply (.str "r3") "Internal helper tool exited with status 1"], 1⟩ ∧
    onGetServerPropertiesDone sampleConnector serverPropertiesCommand helperOutputText
        256 "" =
      .ok ⟨[errorReply (.str "r3") "Internal helper tool exited with status 1"], 1⟩ ∧
    errorReply (.str "r3") "Internal helper tool exited with status 1" =
      errorReply (.str "r3") "Internal helper tool exited with status 1" :=
  ⟨by decide, by decide,
    error_reply_independent_of_output sampleConnector
      [("action", .str "get"), ("request_id", .str "r3"),
        ("resource", .str "server_properties")] 256 "" "boom" helperOutputText _ _
      (by decide) (by decide) (by decide) (by decide)⟩

/-! ## The handlers of the application pool -/

theorem appProperties_absent (self : AdminPanelConnector) (m : List (String × JsonValue))
    (ha : find "arguments" m = none) :
    onGetApplicationProperties self (.obj m) =
      .ok ⟨true, [replyDocument (member (.obj m) "request_id") "ok"
        (.obj [("applications",
          self.env.inspectPropertiesInAdminPanelFormat ToJsonOptions.makeAuthorized)])],
        []⟩ := by
  unfold onGetApplicationProperties
  simp only [isMember, ha, bind, Except.bind, Option.isSome_none, Bool.false_eq_true,
    if_false, pure, Except.pure]
  rfl

theorem appProperties_rejected (self : AdminPanelConnector) (m : List (String × JsonValue))
    (arguments : JsonValue) (ha : find "arguments" m = some arguments)
    (he : (self.env.updateErrors arguments).isEmpty = false) :
    onGetApplicationProperties self (.obj m) =
      .ok ⟨true, [errorReply (member (.obj m) "request_id")
        ("Invalid arguments: " ++
          self.env.errorsToString (self.env.updateErrors arguments))], []⟩ := by
  unfold onGetApplicationProperties
  simp only [isMember, JsonValue.get, ha, he, bind, Except.bind, pure, Except.pure,
    Option.isSome_some, Option.getD_some, if_true, if_false, Bool.false_eq_true]
  rfl

theorem appProperties_accepted (self : AdminPanelConnector) (m : List (String × JsonValue))
    (arguments : JsonValue) (ha : find "arguments" m = some arguments)
    (he : (self.env.updateErrors arguments).isEmpty = true) :
    onGetApplicationProperties self (.obj m) =
      .ok ⟨true, [replyDocument (member (.obj m) "request_id") "ok"
        (.obj [("applications",
          self.env.inspectPropertiesInAdminPanelFormat
            (ToJsonOptions.makeAuthorized.set (self.env.inspectEffectiveValues arguments)))])],
        []⟩ := by
  unfold onGetApplicationProperties
  simp only [isMember, JsonValue.get, ha, he, bind, Except.bind, pure, Except.pure,
    Option.isSome_some, Option.getD_some, if_true]
  rfl

theorem appConfig_absent (self : AdminPanelConnector) (m : List (String × JsonValue))
    (ha : find "arguments" m = none) :
    onGetApplicationConfig self (.obj m) =
      match (self.env.inspectConfigInAdminPanelFormat ToJsonOptions.makeAuthorized).forEachM
          (modifyAppConfig self.env) with
      | .ok resultOptions =>
        .ok ⟨true, [replyDocument (member (.obj m) "request_id") "ok"
          (.obj [("options", resultOptions)])], []⟩
      | .error e => .error e := by
  unfold onGetApplicationConfig
  simp only [isMember, ha, bind, Except.bind, Option.isSome_none, Bool.false_eq_true,
    if_false, pure, Except.pure]
  cases (self.env.inspectConfigInAdminPanelFormat ToJsonOptions.makeAuthorized).forEachM
      (modifyAppConfig self.env) with
  | ok r => rfl
  | error e => rfl

theorem appConfig_rejected (self : AdminPanelConnector) (m : List (String × JsonValue))
    (arguments : JsonValue) (ha : find "arguments" m = some arguments)
    (he : (self.env.updateErrors arguments).isEmpty = false) :
    onGetApplicationConfig self (.obj m) =
      .ok ⟨true, [errorReply (member (.obj m) "request_id")
        ("Invalid arguments: " ++
          self.env.errorsToString (self.env.updateErrors arguments))], []⟩ := by
  unfold onGetApplicationConfig
  simp only [isMember, JsonValue.get, ha, he, bind, Except.bind, pure, Except.pure,
    Option.isSome_some, Option.getD_some, if_true, if_false, Bool.false_eq_true]
  rfl

theorem appConfig_accepted (self : AdminPanelConnector) (m : List (String × JsonValue))
    (arguments : JsonValue) (ha : find "arguments" m = some arguments)
    (he : (self.env.updateErrors arguments).isEmpty = true) :
    onGetApplicationConfig self (.obj m) =
      match (self.env.inspectConfigInAdminPanelFormat
          (ToJsonOptions.makeAuthorized.set
            (self.env.inspectEffectiveValues arguments))).forEachM
          (modifyAppConfig self.env) with
      | .ok resultOptions =>
        .ok ⟨true, [replyDocument (member (.obj m) "request_id") "ok"
          (.obj [("options", resultOptions)])], []⟩
      | .error e => .error e := by
  unfold onGetApplicationConfig
  simp only [isMember, JsonValue.get, ha, he, bind, Except.bind, pure, Except.pure,
    Option.isSome_some, Option.getD_some, if_true]
  cases (self.env.inspectConfigInAdminPanelFormat
      (ToJsonOptions.makeAuthorized.set
        (self.env.inspectEffectiveValues arguments))).forEachM (modifyAppConfig self.env) with
  | ok r => rfl
  | error e => rfl

theorem modifyAppConfig_withInspector (env : Env)
    (p c : ToJsonOptions → JsonValue) :
    modifyAppConfig (withInspector env p c) = modifyAppConfig env := rfl

theorem isEmpty_false_iff_ne_nil {α : Type} (l : List α) : l.isEmpty = false ↔ l ≠ [] := by
  cases l <;> simp

/-! ## The format of replies -/

theorem wireReply_ok (rid data : JsonValue) : WireReply (replyDocument rid "ok" data) := by
  refine ⟨rfl, rfl, Or.inl rfl, ?_⟩
  intro h
  exact absurd (show JsonValue.str "ok" = JsonValue.str "error" from h) (by decide)

theorem wireReply_error (rid : JsonValue) (message : String) :
    WireReply (errorReply rid message) :=
  ⟨rfl, rfl, Or.inr rfl, fun _ => ⟨rfl, rfl⟩⟩

theorem wireReply_of_form (rid reply : JsonValue)
    (h : (∃ data, reply = replyDocument rid "ok" data) ∨
      ∃ message, reply = errorReply rid message) : WireReply reply := by
  rcases h with ⟨data, h⟩ | ⟨message, h⟩
  · rw [h]; exact wireReply_ok rid data
  · rw [h]; exact wireReply_error rid message

/-- Every reply `onMessage` sends for a validated command is the "ok" reply or an error
reply of the wire format, with the request_id of the command. -/
theorem onMessage_valid_wire (self : AdminPanelConnector) (payload : String)
    (m : List (String × JsonValue)) (a r : String)
    (hv : parseAndBasicValidateMessageAsJSON self.env payload = .ok (.obj m))
    (ha : find "action" m = some (.str a)) (hr : find "resource" m = some (.str r))
    (out : Outcome) (hout : onMessage self payload = .ok out) :
    ∀ reply ∈ out.replies,
      (∃ data, reply = replyDocument (member (.obj m) "request_id") "ok" data) ∨
        ∃ message, reply = errorReply (member (.obj m) "request_id") message := by
  rw [onMessage_valid self payload m a hv ha] at hout
  by_cases hget : a = "get"
  · rw [if_pos hget, onGetMessage_obj self m r hr] at hout
    by_cases h1 : r = "server_properties"
    · rw [if_pos h1] at hout
      cases hout
      intro reply hreply
      cases hreply
    · rw [if_neg h1] at hout
      by_cases h2 : r = "global_properties"
      · rw [if_pos h2] at hout
        obtain ⟨data, hd⟩ := onGetGlobalProperties_form self m out hout
        subst hd
        intro reply hreply
        simp only [List.mem_singleton] at hreply
        exact Or.inl ⟨data, hreply⟩
      · rw [if_neg h2] at hout
        by_cases h3 : r = "global_configuration"
        · rw [if_pos h3] at hout
          cases hout
          intro reply hreply
          cases hreply
        · rw [if_neg h3] at hout
          by_cases h4 : r = "global_statistics"
          · rw [if_pos h4, onGetGlobalStatistics_eq] at hout
            cases hout
            intro reply hreply
            simp only [List.mem_singleton] at hreply
            exact Or.inr ⟨_, hreply⟩
          · rw [if_neg h4] at hout
            by_cases h5 : r = "application_properties"
            · rw [if_pos h5] at hout
              cases harg : find "arguments" m with
              | none =>
                rw [appProperties_absent self m harg] at hout
                cases hout
                intro reply hreply
                simp only [List.mem_singleton] at hreply
                exact Or.inl ⟨_, hreply⟩
              | some arguments =>
                cases he : (self.env.updateErrors arguments).isEmpty with
                | true =>
                  rw [appProperties_accepted self m arguments harg he] at hout
                  cases hout
                  intro reply hreply
                  simp only [List.mem_singleton] at hreply
                  exact Or.inl ⟨_, hreply⟩
                | false =>
                  rw [appProperties_rejected self m arguments harg he] at hout
                  cases hout
                  intro reply hreply
                  simp only [List.mem_singleton] at hreply
                  exact Or.inr ⟨_, hreply⟩
            · rw [if_neg h5] at hout
              by_cases h6 : r = "application_configuration"
              · rw [if_pos h6] at hout
                cases harg : find "arguments" m with
                | none =>
                  rw [appConfig_absent self m harg] at hout
                  cases hloop : (self.env.inspectConfigInAdminPanelFormat
                      ToJsonOptions.makeAuthorized).forEachM (modifyAppConfig self.env) with
                  | error e => rw [hloop] at hout; cases hout
                  | ok resultOptions =>
                    rw [hloop] at hout
                    cases hout
                    intro reply hreply
                    simp only [List.mem_singleton] at hreply
                    exact Or.inl ⟨_, hreply⟩
                | some arguments =>
                  cases he : (self.env.updateErrors arguments).isEmpty with
                  | true =>
                    rw [appConfig_accepted self m arguments harg he] at hout
                    cases hloop : (self.env.inspectConfigInAdminPanelFormat
                        (ToJsonOptions.makeAuthorized.set
                          (self.env.inspectEffectiveValues arguments))).forEachM
                        (modifyAppConfig self.env) with
                    | error e => rw [hloop] at hout; cases hout
                    | ok resultOptions =>
                      rw [hloop] at hout
                      cases hout
                      intro reply hreply
                      simp only [List.mem_singleton] at hreply
                      exact Or.inl ⟨_, hreply⟩
                  | false =>
                    rw [appConfig_rejected self m arguments harg he] at hout
                    cases hout
                    intro reply hreply
                    simp only [List.mem_singleton] at hreply
                    exact Or.inr ⟨_, hreply⟩
              · rw [if_neg h6, onUnknownResource_eq self m r hr] at hout
                cases hout
                intro reply hreply
                simp only [List.mem_singleton] at hreply
                exact Or.inr ⟨_, hreply⟩
  · rw [if_neg hget, onUnknownMessageAction_eq self m a ha] at hout
    cases hout
    intro reply hreply
    simp only [List.mem_singleton] at hreply
    exact Or.inr ⟨_, hreply⟩

/-- Claim C11: every document `onMessage` passes to `sendJsonReply`, and every document
the completion callback of a thread it created passes to it, is an object with exactly
the keys `data`, `request_id` and `result`, its result is "ok" or "error", and the data
of an error is an object with a string `message`; the threads themselves send nothing. -/
theorem replies_are_wire_replies (self : AdminPanelConnector) (payload : String)
    (out : Outcome) (hout : onMessage self payload = .ok out) :
    (∀ reply ∈ out.replies, WireReply reply) ∧
    ∀ job ∈ out.jobs, (job.run self).replies = [] ∧
      ∀ completion ∈ (job.run self).posted, ∀ trace,
        completion.run self = .ok trace → ∀ reply ∈ trace.replies, WireReply reply := by
  cases hv : parseAndBasicValidateMessageAsJSON self.env payload with
  | error e =>
    obtain ⟨reason, -, -, h⟩ := onMessage_invalid self payload e hv
    rw [h] at hout
    cases hout
    refine ⟨?_, by simp⟩
    intro reply hreply
    simp only [List.mem_singleton] at hreply
    rw [hreply]
    exact wireReply_error .null reason
  | ok doc =>
    obtain ⟨m, a, r, hd, ha, hr⟩ := validate_ok_members self.env payload doc hv
    subst hd
    refine ⟨fun reply hreply => wireReply_of_form _ reply
      (onMessage_valid_wire self payload m a r hv ha hr out hout reply hreply), ?_⟩
    rcases onMessage_valid_form self payload m a r hv ha hr out hout with
      ⟨-, -, h⟩ | ⟨-, -, h⟩ | ⟨-, result, data, h⟩
    · subst h
      intro job hjob
      simp only [List.mem_singleton] at hjob
      subst hjob
      simp only [BgJob.run, onGetServerPropertiesBgJob]
      cases htool : self.env.runInternalRubyTool self.env.config.ruby
          ["passenger-config", "system-properties"] with
      | error what =>
        refine ⟨rfl, ?_⟩
        intro completion hc trace ht reply hreply
        simp only [List.mem_singleton] at hc
        subst hc
        simp only [Completion.run] at ht
        rcases done_cases self m "" (-1) (self.env.danglingWhat what) with c | ⟨d, -, c⟩ <;>
          · rw [c] at ht
            cases ht
            simp only [List.mem_singleton] at hreply
            rw [hreply]
            first | exact wireReply_error _ _ | exact wireReply_ok _ _
      | ok so =>
        refine ⟨rfl, ?_⟩
        intro completion hc trace ht reply hreply
        simp only [List.mem_singleton] at hc
        subst hc
        simp only [Completion.run] at ht
        rcases done_cases self m so.2 so.1 "" with c | ⟨d, -, c⟩ <;>
          · rw [c] at ht
            cases ht
            simp only [List.mem_singleton] at hreply
            rw [hreply]
            first | exact wireReply_error _ _ | exact wireReply_ok _ _
    · subst h
      intro job hjob
      simp only [List.mem_singleton] at hjob
      subst hjob
      refine ⟨rfl, ?_⟩
      intro completion hc trace ht reply hreply
      simp only [BgJob.run, onGetGlobalConfigurationBgJob, List.mem_singleton] at hc
      subst hc
      obtain ⟨dat, hform⟩ := onGetGlobalConfigDone_form self m _ trace ht
      subst hform
      simp only [List.mem_singleton] at hreply
      rw [hreply]
      exact wireReply_ok _ _
    · subst h
      intro job hjob
      cases hjob

/-- Witness of C11: the error reply to a payload that is an array. -/
theorem replies_are_wire_replies_witness :
    onMessage sampleConnector arrayPayload =
      .ok ⟨true, [errorReply .null "Invalid command JSON document: must be an object"], []⟩ ∧
    ∀ reply ∈ (Outcome.mk true
        [errorReply .null "Invalid command JSON document: must be an object"] []).replies,
      WireReply reply :=
  ⟨by decide,
    (replies_are_wire_replies sampleConnector arrayPayload
      ⟨true, [errorReply .null "Invalid command JSON document: must be an object"], []⟩
      (by decide)).1⟩

/-- Claim C20: in `onGetApplicationProperties` and `onGetApplicationConfig` alike, when
`arguments` is present and the secondary schema reports errors, the reply is the error
"Invalid arguments: " followed by the rendering of the whole error list, the handler
returns true and its outcome is the same whatever the application pool is; when
`arguments` is absent, the application pool is inspected with the options of
`makeAuthorized()` and the outcome is the same whatever the secondary schema is. -/
theorem invalid_arguments_short_circuit (self : AdminPanelConnector)
    (m : List (String × JsonValue)) :
    (∀ arguments, find "arguments" m = some arguments →
      self.env.updateErrors arguments ≠ [] →
      onGetApplicationProperties self (.obj m) =
        .ok ⟨true, [errorReply (member (.obj m) "request_id")
          ("Invalid arguments: " ++
            self.env.errorsToString (self.env.updateErrors arguments))], []⟩ ∧
      onGetApplicationConfig self (.obj m) =
        .ok ⟨true, [errorReply (member (.obj m) "request_id")
          ("Invalid arguments: " ++
            self.env.errorsToString (self.env.updateErrors arguments))], []⟩ ∧
      ∀ inspectProperties inspectConfig,
        onGetApplicationProperties
            ⟨withInspector self.env inspectProperties inspectConfig,
              self.globalPropertiesFromInstanceDir⟩ (.obj m) =
          onGetApplicationProperties self (.obj m) ∧
        onGetApplicationConfig
            ⟨withInspector self.env inspectProperties inspectConfig,
              self.globalPropertiesFromInstanceDir⟩ (.obj m) =
          onGetApplicationConfig self (.obj m)) ∧
    (find "arguments" m = none →
      onGetApplicationProperties self (.obj m) =
        .ok ⟨true, [replyDocument (member (.obj m) "request_id") "ok"
          (.obj [("applications",
            self.env.inspectPropertiesInAdminPanelFormat ToJsonOptions.makeAuthorized)])],
          []⟩ ∧
      onGetApplicationConfig self (.obj m) =
        (match (self.env.inspectConfigInAdminPanelFormat
            ToJsonOptions.makeAuthorized).forEachM (modifyAppConfig self.env) with
          | .ok resultOptions =>
            .ok ⟨true, [replyDocument (member (.obj m) "request_id") "ok"
              (.obj [("options", resultOptions)])], []⟩
          | .error e => .error e) ∧
      ∀ updateErrors inspectEffectiveValues,
        onGetApplicationProperties
            ⟨withSchema self.env updateErrors inspectEffectiveValues,
              self.globalPropertiesFromInstanceDir⟩ (.obj m) =
          onGetApplicationProperties self (.obj m) ∧
        onGetApplicationConfig
            ⟨withSchema self.env updateErrors inspectEffectiveValues,
              self.globalPropertiesFromInstanceDir⟩ (.obj m) =
          onGetApplicationConfig self (.obj m)) := by
  constructor
  · intro arguments ha hne
    have he : (self.env.updateErrors arguments).isEmpty = false :=
      (isEmpty_false_iff_ne_nil _).mpr hne
    refine ⟨appProperties_rejected self m arguments ha he,
      appConfig_rejected self m arguments ha he, ?_⟩
    intro p c
    constructor
    · rw [appProperties_rejected self m arguments ha he]
      exact appProperties_rejected
        ⟨withInspector self.env p c, self.globalPropertiesFromInstanceDir⟩ m arguments ha he
    · rw [appConfig_rejected self m arguments ha he]
      exact appConfig_rejected
        ⟨withInspector self.env p c, self.globalPropertiesFromInstanceDir⟩ m arguments ha he
  · intro ha
    refine ⟨appProperties_absent self m ha, appConfig_absent self m ha, ?_⟩
    intro u e
    constructor
    · rw [appProperties_absent self m ha]
      exact appProperties_absent
        ⟨withSchema self.env u e, self.globalPropertiesFromInstanceDir⟩ m ha
    · rw [appConfig_absent self m ha]
      exact appConfig_absent
        ⟨withSchema self.env u e, self.globalPropertiesFromInstanceDir⟩ m ha

/-- Witness of C20: a schema that reports two errors for the arguments of the command. -/
theorem invalid_arguments_short_circuit_witness :
    onGetApplicationProperties strictSchemaConnector applicationPropertiesCommand =
      .ok ⟨true, [errorReply (.str "r6")
        "Invalid arguments: uid must be an integer; api_key is required"], []⟩ ∧
    onGetApplicationConfig strictSchemaConnector applicationPropertiesCommand =
      .ok ⟨true, [errorReply (.str "r6")
        "Invalid arguments: uid must be an integer; api_key is required"], []⟩ :=
  ⟨((invalid_arguments_short_circuit strictSchemaConnector
      [("action", .str "get"), ("arguments", .obj [("uid", .str "x")]),
        ("request_id", .str "r6"), ("resource", .str "application_properties")]).1
      (.obj [("uid", .str "x")]) (by decide) (by decide)).1,
    ((invalid_arguments_short_circuit strictSchemaConnector
      [("action", .str "get"), ("arguments", .obj [("uid", .str "x")]),
        ("request_id", .str "r6"), ("resource", .str "application_properties")]).1
      (.obj [("uid", .str "x")]) (by decide) (by decide)).2.1⟩

/-! ## Reshaping a log target -/

theorem modifyLogTarget_absent (env : Env) (sm : List (String × JsonValue)) (key : String)
    (h : find key sm = none ∨ find key sm = some .null) :
    modifyLogTarget env (.obj sm) key = .ok (.obj sm) := by
  unfold modifyLogTarget
  rcases h with h | h
  · simp [isMember, h, bind, Except.bind, pure, Except.pure]
  · simp [isMember, JsonValue.ref, h, isNull, bind, Except.bind, pure, Except.pure]

theorem modifyLogTarget_path (env : Env) (sm target : List (String × JsonValue))
    (key : String) (path : JsonValue) (h : find key sm = some (.obj target))
    (hp : find "path" target = some path) :
    modifyLogTarget env (.obj sm) key = .ok (.obj (JsonValue.insert key path sm)) := by
  unfold modifyLogTarget
  simp [isMember, JsonValue.ref, h, hp, isNull, bind, Except.bind, pure, Except.pure,
    JsonValue.set]

theorem modifyLogTarget_stderr (env : Env) (sm target : List (String × JsonValue))
    (key : String) (h : find key sm = some (.obj target))
    (hp : find "path" target = none) (hs : find "stderr" target = some (.bool true)) :
    modifyLogTarget env (.obj sm) key =
      .ok (.obj (JsonValue.insert key (.str "/dev/stderr") sm)) := by
  unfold modifyLogTarget
  simp [isMember, JsonValue.ref, h, hp, hs, isNull, asBool, bind, Except.bind, pure,
    Except.pure, JsonValue.set]

theorem logTargetShape_of_precondition (env : Env) (target : JsonValue)
    (h : logTargetPrecondition target = true) : logTargetShape env target = true := by
  cases target with
  | null => rfl
  | obj t =>
    simp only [logTargetPrecondition, Bool.or_eq_true, beq_iff_eq] at h
    rcases h with h | h
    · simp [logTargetShape, h]
    · simp [logTargetShape, h, asBool]
  | _ => simp [logTargetPrecondition] at h

/-- Claim C18: `modifyLogTarget` leaves `subconfig` unchanged when `subconfig[key]` is
absent or null, replaces an object with a `path` member by the value of `path`, and
replaces an object without `path` whose `stderr` is true by the string "/dev/stderr";
when the log target is null, an object with `path` or an object with a true `stderr`,
the function returns: neither assertion fails. -/
theorem modifyLogTarget_reshapes (env : Env) (sm : List (String × JsonValue))
    (key : String) :
    modifyLogTarget env .null key = .ok .null ∧
    (find key sm = none ∨ find key sm = some .null →
      modifyLogTarget env (.obj sm) key = .ok (.obj sm)) ∧
    (∀ target path, find key sm = some (.obj target) → find "path" target = some path →
      modifyLogTarget env (.obj sm) key = .ok (.obj (JsonValue.insert key path sm)) ∧
      member (.obj (JsonValue.insert key path sm)) key = path) ∧
    (∀ target, find key sm = some (.obj target) → find "path" target = none →
      find "stderr" target = some (.bool true) →
      modifyLogTarget env (.obj sm) key =
        .ok (.obj (JsonValue.insert key (.str "/dev/stderr") sm)) ∧
      member (.obj (JsonValue.insert key (.str "/dev/stderr") sm)) key =
        .str "/dev/stderr") ∧
    (logTargetPrecondition (member (.obj sm) key) = true →
      ∃ reshaped, modifyLogTarget env (.obj sm) key = .ok reshaped ∧
        ∀ other, other ≠ key → member reshaped other = member (.obj sm) other) := by
  refine ⟨rfl, modifyLogTarget_absent env sm key, ?_, ?_, ?_⟩
  · intro target path h hp
    exact ⟨modifyLogTarget_path env sm target key path h hp,
      by simp only [member, find_insert_self, Option.getD_some]⟩
  · intro target h hp hs
    exact ⟨modifyLogTarget_stderr env sm target key h hp hs,
      by simp only [member, find_insert_self, Option.getD_some]⟩
  · intro h
    obtain ⟨w, hw, -, hk⟩ := modifyLogTarget_ok env (.obj sm) key rfl
      (logTargetShape_of_precondition env _ h)
    exact ⟨w, hw, hk⟩

/-- Witness of C18: a log target given by its path, and one that is the standard error. -/
theorem modifyLogTarget_reshapes_witness :
    modifyLogTarget sampleEnv
        (.obj [("user_value", .obj [("path", .str "/var/log/passenger.log")])])
        "user_value" =
      .ok (.obj [("user_value", .str "/var/log/passenger.log")]) ∧
    modifyLogTarget sampleEnv
        (.obj [("user_value", .obj [("stderr", .bool true)])]) "user_value" =
      .ok (.obj [("user_value", .str "/dev/stderr")]) :=
  ⟨((modifyLogTarget_reshapes sampleEnv
      [("user_value", .obj [("path", .str "/var/log/passenger.log")])] "user_value").2.2.1
      [("path", .str "/var/log/passenger.log")] (.str "/var/log/passenger.log")
      (by decide) (by decide)).1,
    ((modifyLogTarget_reshapes sampleEnv
      [("user_value", .obj [("stderr", .bool true)])] "user_value").2.2.2.1
      [("stderr", .bool true)] (by decide) (by decide) (by decide)).1⟩

/-! ## The reply of `global_properties` -/

/-- What the constructor records, from the instance directory or without one. -/
theorem construct_recorded (env : Env) (instanceDir : JsonValue) (self : AdminPanelConnector)
    (h : AdminPanelConnector.construct env instanceDir = .ok self) :
    self.env = env ∧
    (instanceDir.isNull = true →
      self.globalPropertiesFromInstanceDir =
        .obj [("instance_id", .str env.generateInstanceId)]) ∧
    (instanceDir.isNull = false →
      ∃ dir content doc, instanceDir.asString env = .ok dir ∧
        env.readAll (dir ++ "/properties.json") = .ok content ∧
        env.parse content = .ok doc ∧
        self.globalPropertiesFromInstanceDir =
          .obj [("instance_id", member doc "instance_id"),
            ("watchdog_pid", member doc "watchdog_pid")]) := by
  unfold AdminPanelConnector.construct at h
  by_cases hn : instanceDir.isNull = true
  · simp only [hn, Bool.not_true, Bool.false_eq_true, if_false, bind_ok_iff] at h
    obtain ⟨props, hp, hs⟩ := h
    cases hp; cases hs
    exact ⟨rfl, fun _ => rfl, fun h => by rw [hn] at h; cases h⟩
  · simp only [hn, Bool.not_false, if_true, bind_ok_iff, Bool.not_eq_true] at h
    obtain ⟨dir, hdir, props, hp, hs⟩ := h
    cases hs
    refine ⟨rfl, fun h => absurd h hn, fun _ => ?_⟩
    unfold readInstanceDirProperties at hp
    cases hread : env.readAll (dir ++ "/properties.json") with
    | error what => simp [hread] at hp
    | ok content =>
      cases hparse : env.parse content with
      | error f => simp [hread, hparse] at hp
      | ok doc =>
        simp only [hread, hparse, bind_ok_iff] at hp
        obtain ⟨⟨doc1, iid⟩, h1, p1, hp1, ⟨doc2, wp⟩, h2, hp2⟩ := hp
        cases hp1; cases hp2
        refine ⟨dir, content, doc, hdir, hread, hparse, ?_⟩
        cases doc with
        | null =>
          cases h1
          simp only [JsonValue.ref, find] at h2
          cases h2
          rfl
        | obj dm =>
          simp only [JsonValue.ref] at h1
          cases hi : find "instance_id" dm with
          | some x =>
            simp only [hi, Except.ok.injEq, Prod.mk.injEq] at h1
            obtain ⟨hd1, hx⟩ := h1
            subst hd1; subst hx
            simp only [JsonValue.ref] at h2
            cases hw : find "watchdog_pid" dm with
            | some y =>
              simp only [hw, Except.ok.injEq, Prod.mk.injEq] at h2
              obtain ⟨-, hy⟩ := h2
              subst hy
              simp only [member, hi, hw, Option.getD_some, Option.getD_none]
              rfl
            | none =>
              simp only [hw, Except.ok.injEq, Prod.mk.injEq] at h2
              obtain ⟨-, hy⟩ := h2
              subst hy
              simp only [member, hi, hw, Option.getD_some, Option.getD_none]
              rfl
          | none =>
            simp only [hi, Except.ok.injEq, Prod.mk.injEq] at h1
            obtain ⟨hd1, hx⟩ := h1
            subst hd1; subst hx
            simp only [JsonValue.ref] at h2
            have hne : find "watchdog_pid" (JsonValue.insert "instance_id" .null dm) =
                find "watchdog_pid" dm := find_insert_ne _ _ _ _ (by decide)
            cases hw : find "watchdog_pid" dm with
            | some y =>
              simp only [hne, hw, Except.ok.injEq, Prod.mk.injEq] at h2
              obtain ⟨-, hy⟩ := h2
              subst hy
              simp only [member, hi, hw, Option.getD_some, Option.getD_none]
              rfl
            | none =>
              simp only [hne, hw, Except.ok.injEq, Prod.mk.injEq] at h2
              obtain ⟨-, hy⟩ := h2
              subst hy
              simp only [member, hi, hw, Option.getD_some, Option.getD_none]
              rfl
        | _ => simp [JsonValue.ref] at h1

/-- The reply of `onGetGlobalProperties` on a connector built by its constructor. -/
theorem onGetGlobalProperties_eq (self : AdminPanelConnector) (m : List (String × JsonValue))
    (recorded : List (String × JsonValue))
    (hg : self.globalPropertiesFromInstanceDir = .obj recorded)
    (hrec : (∃ instanceId, recorded = [("instance_id", instanceId)]) ∨
      (∃ instanceId watchdogPid,
        recorded = [("instance_id", instanceId), ("watchdog_pid", watchdogPid)])) :
    onGetGlobalProperties self (.obj m) =
      .ok ⟨true, [replyDocument (member (.obj m) "request_id") "ok"
        (globalPropertiesData self.env recorded)], []⟩ := by
  unfold onGetGlobalProperties globalPropertiesData
  rcases hrec with ⟨iid, hr⟩ | ⟨iid, wp, hr⟩ <;> rw [hg, hr] <;>
    by_cases h1 : self.env.config.web_server_module_version.isNull = true <;>
    by_cases h2 : self.env.config.integration_mode = "standalone" <;>
    by_cases h3 : self.env.config.web_server_version.isNull = true <;>
    by_cases h4 : self.env.isOriginallyPackaged = true <;>
    simp only [h1, h2, h3, h4, Bool.not_true, Bool.not_false, Bool.false_eq_true, if_true,
      if_false] <;>
    rfl

theorem globalPropertiesData_facts (env : Env) (recorded : List (String × JsonValue))
    (hrec : (∃ instanceId, recorded = [("instance_id", instanceId)]) ∨
      (∃ instanceId watchdogPid,
        recorded = [("instance_id", instanceId), ("watchdog_pid", watchdogPid)])) :
    member (globalPropertiesData env recorded) "instance_id" =
        member (.obj recorded) "instance_id" ∧
    member (globalPropertiesData env recorded) "watchdog_pid" =
        member (.obj recorded) "watchdog_pid" ∧
    hasMember (globalPropertiesData env recorded) "watchdog_pid" =
        hasMember (.obj recorded) "watchdog_pid" ∧
    member (globalPropertiesData env recorded) "core_pid" = .uint env.pid ∧
    member (globalPropertiesData env recorded) "version" = .str env.passengerVersion ∧
    member (member (globalPropertiesData env recorded) "integration_mode") "name" =
        .str env.config.integration_mode ∧
    (hasMember (member (globalPropertiesData env recorded) "integration_mode")
        "standalone_engine" = true ↔ env.config.integration_mode = "standalone") ∧
    (hasMember (member (globalPropertiesData env recorded) "integration_mode")
        "web_server_version" = true ↔ env.config.web_server_version.isNull = false) ∧
    (hasMember (member (globalPropertiesData env recorded) "integration_mode")
        "web_server_module_version" = true ↔
      env.config.web_server_module_version.isNull = false) ∧
    (hasMember (globalPropertiesData env recorded) "packaging_method" = true ↔
      env.isOriginallyPackaged = false) := by
  rcases hrec with ⟨iid, hr⟩ | ⟨iid, wp, hr⟩ <;> subst hr <;>
    by_cases h1 : env.config.web_server_module_version.isNull = true <;>
    by_cases h2 : env.config.integration_mode = "standalone" <;>
    by_cases h3 : env.config.web_server_version.isNull = true <;>
    by_cases h4 : env.isOriginallyPackaged = true <;>
    simp [globalPropertiesData, member, hasMember, find, h1, h2, h3, h4]

/-- Claim C19: on a connector built by its constructor, `onGetGlobalProperties` sends one
reply with result "ok" whose data holds the instance_id and watchdog_pid recorded at
startup (read from `properties.json`, or a generated instance_id and no watchdog_pid
without an instance directory), core_pid, version and integration_mode.name;
standalone_engine is present exactly in "standalone" mode, web_server_version and
web_server_module_version exactly when the configured value is not null, and
packaging_method exactly when the installation is not originally packaged. -/
theorem global_properties_reply (env : Env) (instanceDir : JsonValue)
    (self : AdminPanelConnector)
    (hself : AdminPanelConnector.construct env instanceDir = .ok self)
    (m : List (String × JsonValue)) :
    ∃ recorded data,
      self.globalPropertiesFromInstanceDir = .obj recorded ∧
      (instanceDir.isNull = true →
        recorded = [("instance_id", .str env.generateInstanceId)]) ∧
      (instanceDir.isNull = false →
        ∃ dir content doc, instanceDir.asString env = .ok dir ∧
          env.readAll (dir ++ "/properties.json") = .ok content ∧
          env.parse content = .ok doc ∧
          recorded = [("instance_id", member doc "instance_id"),
            ("watchdog_pid", member doc "watchdog_pid")]) ∧
      onGetGlobalProperties self (.obj m) =
        .ok ⟨true, [replyDocument (member (.obj m) "request_id") "ok" data], []⟩ ∧
      member data "instance_id" = member (.obj recorded) "instance_id" ∧
      member data "watchdog_pid" = member (.obj recorded) "watchdog_pid" ∧
      hasMember data "watchdog_pid" = hasMember (.obj recorded) "watchdog_pid" ∧
      member data "core_pid" = .uint self.env.pid ∧
      member data "version" = .str self.env.passengerVersion ∧
      member (member data "integration_mode") "name" =
        .str self.env.config.integration_mode ∧
      (hasMember (member data "integration_mode") "standalone_engine" = true ↔
        self.env.config.integration_mode = "standalone") ∧
      (hasMember (member data "integration_mode") "web_server_version" = true ↔
        self.env.config.web_server_version.isNull = false) ∧
      (hasMember (member data "integration_mode") "web_server_module_version" = true ↔
        self.env.config.web_server_module_version.isNull = false) ∧
      (hasMember data "packaging_method" = true ↔
        self.env.isOriginallyPackaged = false) := by
  obtain ⟨-, hnull, hdir⟩ := construct_recorded env instanceDir self hself
  have hshape : ∃ recorded, self.globalPropertiesFromInstanceDir = .obj recorded ∧
      (instanceDir.isNull = true →
        recorded = [("instance_id", .str env.generateInstanceId)]) ∧
      (instanceDir.isNull = false →
        ∃ dir content doc, instanceDir.asString env = .ok dir ∧
          env.readAll (dir ++ "/properties.json") = .ok content ∧
          env.parse content = .ok doc ∧
          recorded = [("instance_id", member doc "instance_id"),
            ("watchdog_pid", member doc "watchdog_pid")]) ∧
      ((∃ instanceId, recorded = [("instance_id", instanceId)]) ∨
        (∃ instanceId watchdogPid,
          recorded = [("instance_id", instanceId), ("watchdog_pid", watchdogPid)])) := by
    by_cases hn : instanceDir.isNull = true
    · refine ⟨[("instance_id", .str env.generateInstanceId)], hnull hn, fun _ => rfl, ?_,
        Or.inl ⟨_, rfl⟩⟩
      intro h
      rw [hn] at h
      cases h
    · simp only [Bool.not_eq_true] at hn
      obtain ⟨dir, content, doc, h1, h2, h3, h4⟩ := hdir hn
      refine ⟨[("instance_id", member doc "instance_id"),
        ("watchdog_pid", member doc "watchdog_pid")], h4, ?_,
        fun _ => ⟨dir, content, doc, h1, h2, h3, rfl⟩, Or.inr ⟨_, _, rfl⟩⟩
      intro h
      rw [hn] at h
      cases h
  obtain ⟨recorded, hg, h1, h2, hrec⟩ := hshape
  exact ⟨recorded, globalPropertiesData self.env recorded, hg, h1, h2,
    onGetGlobalProperties_eq self m recorded hg hrec,
    globalPropertiesData_facts self.env recorded hrec⟩

/-- Witness of C19: the scenario of the specification, an instance directory holding
instance_id "abc" and watchdog_pid 123, in "standalone" mode. -/
theorem global_properties_reply_witness :
    AdminPanelConnector.construct instanceDirEnv (.str "/var/run/passenger.abc") =
      .ok instanceDirConnector ∧
    onGetGlobalProperties instanceDirConnector globalPropertiesCommand =
      .ok ⟨true, [replyDocument (.str "r1") "ok"
        (.obj [("core_pid", .uint 1234), ("instance_id", .str "abc"),
          ("integration_mode",
            .obj [("name", .str "standalone"), ("standalone_engine", .str "builtin")]),
          ("originally_packaged", .bool true), ("version", .str "5.1.5"),
          ("watchdog_pid", .int 123)])], []⟩ ∧
    ∃ recorded data,
      instanceDirConnector.globalPropertiesFromInstanceDir = .obj recorded ∧
      ((JsonValue.str "/var/run/passenger.abc").isNull = true →
        recorded = [("instance_id", .str instanceDirEnv.generateInstanceId)]) ∧
      ((JsonValue.str "/var/run/passenger.abc").isNull = false →
        ∃ dir content doc,
          (JsonValue.str "/var/run/passenger.abc").asString instanceDirEnv = .ok dir ∧
          instanceDirEnv.readAll (dir ++ "/properties.json") = .ok content ∧
          instanceDirEnv.parse content = .ok doc ∧
          recorded = [("instance_id", member doc "instance_id"),
            ("watchdog_pid", member doc "watchdog_pid")]) ∧
      onGetGlobalProperties instanceDirConnector globalPropertiesCommand =
        .ok ⟨true, [replyDocument (member globalPropertiesCommand "request_id") "ok" data],
          []⟩ ∧
      member data "instance_id" = member (.obj recorded) "instance_id" ∧
      member data "watchdog_pid" = member (.obj recorded) "watchdog_pid" ∧
      hasMember data "watchdog_pid" = hasMember (.obj recorded) "watchdog_pid" ∧
      member data "core_pid" = .uint instanceDirConnector.env.pid ∧
      member data "version" = .str instanceDirConnector.env.passengerVersion ∧
      member (member data "integration_mode") "name" =
        .str instanceDirConnector.env.config.integration_mode ∧
      (hasMember (member data "integration_mode") "standalone_engine" = true ↔
        instanceDirConnector.env.config.integration_mode = "standalone") ∧
      (hasMember (member data "integration_mode") "web_server_version" = true ↔
        instanceDirConnector.env.config.web_server_version.isNull = false) ∧
      (hasMember (member data "integration_mode") "web_server_module_version" = true ↔
        instanceDirConnector.env.config.web_server_module_version.isNull = false) ∧
      (hasMember data "packaging_method" = true ↔
        instanceDirConnector.env.isOriginallyPackaged = false) :=
  ⟨rfl, by decide,
    global_properties_reply instanceDirEnv (.str "/var/run/passenger.abc")
      instanceDirConnector rfl
      [("action", .str "get"), ("request_id", .str "r1"),
        ("resource", .str "global_properties")]⟩

/-! ## The order of keys and the invariant of member maps -/

theorem char_eq_of_toNat_eq (a b : Char) (h : a.toNat = b.toNat) : a = b := by
  have h2 : a.val = b.val := by
    apply UInt32.ext
    exact h
  exact Char.ext h2

theorem ltChars_irrefl (a : List Char) : ltChars a a = false := by
  induction a with
  | nil => rfl
  | cons c rest ih => simp [ltChars, ih]

theorem ltChars_trans (a b c : List Char) (h1 : ltChars a b = true)
    (h2 : ltChars b c = true) : ltChars a c = true := by
  induction a generalizing b c with
  | nil =>
    cases b with
    | nil => simp [ltChars] at h1
    | cons y ys =>
      cases c with
      | nil => simp [ltChars] at h2
      | cons z zs => rfl
  | cons x xs ih =>
    cases b with
    | nil => simp [ltChars] at h1
    | cons y ys =>
      cases c with
      | nil => simp [ltChars] at h2
      | cons z zs =>
        simp only [ltChars] at h1 h2 ⊢
        by_cases hxy : x.toNat < y.toNat
        · by_cases hyz : y.toNat < z.toNat
          · have : x.toNat < z.toNat := Nat.lt_trans hxy hyz
            simp [this]
          · simp only [hyz, if_false] at h2
            by_cases hyz2 : y = z
            · subst hyz2
              simp [hxy]
            · simp [hyz2] at h2
        · simp only [hxy, if_false] at h1
          by_cases hxy2 : x = y
          · subst hxy2
            simp only [if_true] at h1
            by_cases hyz : x.toNat < z.toNat
            · simp [hyz]
            · simp only [hyz, if_false] at h2 ⊢
              by_cases hxz : x = z
              · subst hxz
                simp only [if_true] at h2 ⊢
                exact ih ys zs h1 h2
              · simp [hxz] at h2
          · simp [hxy2] at h1

theorem ltChars_total (a b : List Char) (hne : a ≠ b) (h : ltChars a b = false) :
    ltChars b a = true := by
  induction a generalizing b with
  | nil =>
    cases b with
    | nil => exact absurd rfl hne
    | cons y ys => simp [ltChars] at h
  | cons x xs ih =>
    cases b with
    | nil => rfl
    | cons y ys =>
      simp only [ltChars] at h ⊢
      by_cases hxy : x.toNat < y.toNat
      · simp [hxy] at h
      · simp only [hxy, if_false] at h
        by_cases hxy2 : x = y
        · subst hxy2
          simp only [if_true] at h
          have hne2 : xs ≠ ys := fun e => hne (by rw [e])
          simp [ih ys hne2 h]
        · have hlt : y.toNat < x.toNat := by
            have : x.toNat ≠ y.toNat := fun e => hxy2 (char_eq_of_toNat_eq x y e)
            omega
          simp [hlt]

theorem keyLt_irrefl (a : String) : keyLt a a = false := ltChars_irrefl a.data

theorem keyLt_trans (a b c : String) (h1 : keyLt a b = true) (h2 : keyLt b c = true) :
    keyLt a c = true := ltChars_trans a.data b.data c.data h1 h2

theorem keyLt_total (a b : String) (hne : a ≠ b) (h : keyLt a b = false) :
    keyLt b a = true :=
  ltChars_total a.data b.data (fun e => hne (String.ext e)) h

theorem sortedKeys_cons (k : String) (v : JsonValue) (rest : List (String × JsonValue)) :
    sortedKeys ((k, v) :: rest) = true ↔
      (∀ kv ∈ rest, keyLt k kv.1 = true) ∧ sortedKeys rest = true := by
  simp [sortedKeys, List.all_eq_true]

theorem sortedKeys_insert (k : String) (x : JsonValue) (m : List (String × JsonValue))
    (h : sortedKeys m = true) : sortedKeys (JsonValue.insert k x m) = true := by
  induction m with
  | nil => rfl
  | cons head rest ih =>
    obtain ⟨a, v⟩ := head
    rw [sortedKeys_cons] at h
    obtain ⟨hall, hrest⟩ := h
    unfold JsonValue.insert
    by_cases h1 : a = k
    · subst h1
      simp only [if_true]
      rw [sortedKeys_cons]
      exact ⟨hall, hrest⟩
    · by_cases h2 : keyLt k a = true
      · simp only [h1, h2, if_true, if_false]
        rw [sortedKeys_cons]
        refine ⟨?_, (sortedKeys_cons a v rest).mpr ⟨hall, hrest⟩⟩
        intro kv hkv
        rcases List.mem_cons.mp hkv with e | hmem
        · rw [e]; exact h2
        · exact keyLt_trans k a kv.1 h2 (hall kv hmem)
      · simp only [h1, h2, if_false, Bool.false_eq_true]
        rw [sortedKeys_cons]
        refine ⟨?_, ih hrest⟩
        intro kv hkv
        rcases mem_insert k x rest kv hkv with e | hmem
        · rw [e]
          exact keyLt_total k a (fun e => h1 e.symm) (by simpa using h2)
        · exact hall kv hmem

theorem find_none_of_keyLt (k : String) (rest : List (String × JsonValue))
    (h : ∀ kv ∈ rest, keyLt k kv.1 = true) : find k rest = none := by
  induction rest with
  | nil => rfl
  | cons head tail ih =>
    obtain ⟨a, v⟩ := head
    unfold find
    have hka : keyLt k a = true := h (a, v) (List.mem_cons_self _ _)
    have hne : a ≠ k := by
      intro e
      rw [e, keyLt_irrefl] at hka
      cases hka
    simp only [hne, if_false]
    exact ih (fun kv hkv => h kv (List.mem_cons_of_mem _ hkv))

/-! ## The reply of `global_configuration`, step by step -/

theorem modifyOption_form (modify : JsonValue → String → Except Exn JsonValue)
    (m : List (String × JsonValue)) (option : String) (c : JsonValue)
    (h : modifyOption modify (.obj m) option = .ok c) :
    ∃ w m2, reshapeOption modify (member (.obj m) option) = .ok w ∧ c = .obj m2 ∧
      find option m2 = some w ∧ (∀ k, k ≠ option → find k m2 = find k m) ∧
      (sortedKeys m = true → sortedKeys m2 = true) := by
  unfold modifyOption at h
  cases hf : find option m with
  | none =>
    simp only [JsonValue.ref, hf, bind_ok_iff] at h
    obtain ⟨⟨c0, s0⟩, h0, w1, hw1, c1, hc1, ⟨c2, s2⟩, h2, w2, hw2, c3, hc3, ⟨c4, s4⟩, h4,
      w3, hw3, hc5⟩ := h
    cases h0
    simp only [JsonValue.set] at hc1
    cases hc1
    simp only [find_insert_self] at h2
    cases h2
    simp only [JsonValue.set] at hc3
    cases hc3
    simp only [JsonValue.ref, find_insert_self] at h4
    cases h4
    simp only [JsonValue.set] at hc5
    cases hc5
    refine ⟨w3, _, ?_, rfl, find_insert_self _ _ _, ?_, ?_⟩
    · simp only [reshapeOption, member, hf, Option.getD_none, bind, Except.bind, hw1, hw2,
        hw3]
    · intro k hk
      rw [find_insert_ne k option _ _ hk, find_insert_ne k option _ _ hk,
        find_insert_ne k option _ _ hk, find_insert_ne k option _ _ hk]
    · intro hs
      exact sortedKeys_insert _ _ _ (sortedKeys_insert _ _ _ (sortedKeys_insert _ _ _
        (sortedKeys_insert _ _ _ hs)))
  | some x =>
    simp only [JsonValue.ref, hf, bind_ok_iff] at h
    obtain ⟨⟨c0, s0⟩, h0, w1, hw1, c1, hc1, ⟨c2, s2⟩, h2, w2, hw2, c3, hc3, ⟨c4, s4⟩, h4,
      w3, hw3, hc5⟩ := h
    cases h0
    simp only [JsonValue.set] at hc1
    cases hc1
    simp only [find_insert_self] at h2
    cases h2
    simp only [JsonValue.set] at hc3
    cases hc3
    simp only [JsonValue.ref, find_insert_self] at h4
    cases h4
    simp only [JsonValue.set] at hc5
    cases hc5
    refine ⟨w3, _, ?_, rfl, find_insert_self _ _ _, ?_, ?_⟩
    · simp only [reshapeOption, member, hf, Option.getD_some, bind, Except.bind, hw1, hw2,
        hw3]
    · intro k hk
      rw [find_insert_ne k option _ _ hk, find_insert_ne k option _ _ hk,
        find_insert_ne k option _ _ hk]
    · intro hs
      exact sortedKeys_insert _ _ _ (sortedKeys_insert _ _ _ (sortedKeys_insert _ _ _ hs))

theorem modifyOption_ok_isObject (modify : JsonValue → String → Except Exn JsonValue)
    (config : JsonValue) (option : String) (c : JsonValue)
    (h : modifyOption modify config option = .ok c) :
    config = .null ∨ ∃ m, config = .obj m := by
  cases config with
  | null => exact Or.inl rfl
  | obj m => exact Or.inr ⟨m, rfl⟩
  | _ => simp [modifyOption, JsonValue.ref, bind, Except.bind] at h

theorem onGetGlobalConfigDone_steps (self : AdminPanelConnector)
    (im : List (String × JsonValue)) (config : JsonValue) (trace : DoneTrace)
    (h : onGetGlobalConfigDone self (.obj im) config = .ok trace) :
    ∃ m m1 m2 m3 options, config = .obj m ∧
      modifyOption (modifyLogTarget self.env) (.obj m) "log_target" = .ok (.obj m1) ∧
      modifyOption (modifyPrestartUrls self.env) (.obj m1) "prestart_urls" =
        .ok (.obj m2) ∧
      modifyOption (fun s k => modifyMaxInstancesPerApp s k) (.obj m2)
        "max_instances_per_app" = .ok (.obj m3) ∧
      buildOptions m3 (.obj []) = .ok options ∧
      trace = ⟨[replyDocument (member (.obj im) "request_id") "ok"
        (.obj [("options", options)])], 1⟩ := by
  unfold onGetGlobalConfigDone at h
  simp only [bind_ok_iff] at h
  obtain ⟨c1, hc1, c2, hc2, c3, hc3, h⟩ := h
  by_cases hn : config.isNull = true
  · simp [hn, throw, throwThe, MonadExceptOf.throw] at h
  · simp only [hn, if_false, Bool.false_eq_true] at h
    rcases modifyOption_ok_isObject _ _ _ _ hc1 with hnull | ⟨m, hm⟩
    · rw [hnull] at hn
      exact absurd rfl hn
    · subst hm
      obtain ⟨-, m1, -, e1, -⟩ := modifyOption_form _ m _ c1 hc1
      subst e1
      obtain ⟨-, m2, -, e2, -⟩ := modifyOption_form _ m1 _ c2 hc2
      subst e2
      obtain ⟨-, m3, -, e3, -⟩ := modifyOption_form _ m2 _ c3 hc3
      subst e3
      simp only [bind_ok_iff] at h
      obtain ⟨o, ho, r1, hr1, rid, hrid, r2, hr2, r3, hr3, h4⟩ := h
      cases hr1; cases hrid; cases hr2; cases hr3
      simp only [pure, Except.pure, Except.ok.injEq] at h4
      subst h4
      exact ⟨m, m1, m2, m3, o, rfl, hc1, hc2, hc3, ho, rfl⟩

theorem valueHierarchy_eq (sub h : JsonValue) (hv : valueHierarchy sub = .ok h) :
    h = .arr (provenance (member sub "user_value") (member sub "default_value")) := by
  unfold valueHierarchy at hv
  cases sub with
  | null =>
    cases hv
    rfl
  | obj sm =>
    simp only [JsonValue.get, bind, Except.bind] at hv
    by_cases h1 : ((find "user_value" sm).getD .null).isNull = true <;>
      by_cases h2 : ((find "default_value" sm).getD .null).isNull = true <;>
      simp only [h1, h2, Bool.not_true, Bool.not_false, Bool.false_eq_true, if_true,
        if_false] at hv <;>
      cases hv <;>
      simp only [provenance, member, h1, h2, if_true, if_false, Bool.false_eq_true] <;>
      rfl
  | _ => simp [JsonValue.get, bind, Except.bind] at hv

theorem valueHierarchy_of_isNullOrObject (sub : JsonValue) (h : isNullOrObject sub = true) :
    valueHierarchy sub =
      .ok (.arr (provenance (member sub "user_value") (member sub "default_value"))) := by
  obtain ⟨w, hw⟩ := valueHierarchy_ok sub h
  rw [hw, valueHierarchy_eq sub w hw]

theorem buildOptions_find (members : List (String × JsonValue))
    (hs : sortedKeys members = true) :
    ∀ o0 res, buildOptions members (.obj o0) = .ok res →
      ∃ o, res = .obj o ∧ ∀ name,
        (∀ sub, find name members = some sub →
          find name o = some (.arr (provenance (member sub "user_value")
            (member sub "default_value")))) ∧
        (find name members = none → find name o = find name o0) := by
  induction members with
  | nil =>
    intro o0 res h
    cases h
    exact ⟨o0, rfl, fun name => ⟨fun sub hf => by simp [find] at hf, fun _ => rfl⟩⟩
  | cons head rest ih =>
    intro o0 res h
    obtain ⟨n, s⟩ := head
    rw [sortedKeys_cons] at hs
    obtain ⟨hall, hrest⟩ := hs
    simp only [buildOptions, bind_ok_iff, JsonValue.set] at h
    obtain ⟨hier, hh, o1, ho1, hb⟩ := h
    cases ho1
    obtain ⟨o, ho, hfind⟩ := ih hrest _ res hb
    refine ⟨o, ho, ?_⟩
    intro name
    have hnone : find n rest = none := find_none_of_keyLt n rest hall
    by_cases hname : n = name
    · subst hname
      constructor
      · intro sub hf
        simp only [find, if_true, Option.some.injEq] at hf
        subst hf
        rw [(hfind n).2 hnone, find_insert_self, valueHierarchy_eq s hier hh]
      · intro hf
        simp [find] at hf
    · constructor
      · intro sub hf
        simp only [find, hname, if_false] at hf
        exact (hfind name).1 sub hf
      · intro hf
        simp only [find, hname, if_false] at hf
        rw [(hfind name).2 hf, find_insert_ne name n _ _ (fun e => hname e.symm)]

theorem modifyLogTarget_null_kept (env : Env) (sub w : JsonValue) (key : String)
    (h : modifyLogTarget env sub key = .ok w) :
    ∀ k, member sub k = .null → member w k = .null := by
  unfold modifyLogTarget at h
  cases sub with
  | null =>
    simp [isMember, bind, Except.bind, pure, Except.pure] at h
    subst h
    intro k hk; rfl
  | obj sm =>
    cases hf : find key sm with
    | none =>
      simp [isMember, hf, bind, Except.bind, pure, Except.pure] at h
      subst h
      intro k hk; exact hk
    | some x =>
      by_cases hx : x.isNull = true
      · simp [isMember, JsonValue.ref, hf, hx, bind, Except.bind, pure, Except.pure] at h
        subst h
        intro k hk; exact hk
      · have hchange : ∀ v, ∀ k, member (.obj sm) k = .null →
            member (.obj (JsonValue.insert key v sm)) k = .null := by
          intro v k hk
          by_cases hkk : k = key
          · subst hkk
            simp only [member, hf, Option.getD_some] at hk
            rw [hk] at hx
            exact absurd rfl hx
          · simp only [member, find_insert_ne k key v sm hkk]
            exact hk
        simp only [isMember, JsonValue.ref, hf, hx, bind_ok_iff, Option.isSome_some,
          Bool.not_true, Bool.false_eq_true, if_false] at h
        obtain ⟨b0, hb0, h⟩ := h
        cases hb0
        simp only [bind_ok_iff, Bool.not_true, Bool.false_eq_true, if_false] at h
        obtain ⟨⟨c0, t⟩, h0, h⟩ := h
        cases h0
        simp only [hx, Bool.false_eq_true, if_false, bind_ok_iff] at h
        obtain ⟨hasPath, -, h⟩ := h
        by_cases hp : hasPath = true
        · simp only [hp, if_true, bind_ok_iff, JsonValue.set] at h
          obtain ⟨⟨c1, p⟩, -, h⟩ := h
          cases h
          exact hchange _
        · simp only [hp, if_false, Bool.false_eq_true, bind_ok_iff] at h
          obtain ⟨hasStderr, -, h⟩ := h
          by_cases hs : hasStderr = true
          · simp only [hs, Bool.not_true, Bool.false_eq_true, if_false, bind_ok_iff] at h
            obtain ⟨⟨c1, flag⟩, -, b, -, h⟩ := h
            by_cases hb : b = true
            · simp only [hb, Bool.not_true, Bool.false_eq_true, if_false,
                JsonValue.set] at h
              cases h
              exact hchange _
            · simp [hb, throw, throwThe, MonadExceptOf.throw] at h
          · simp [hs, throw, throwThe, MonadExceptOf.throw] at h
  | _ => simp [isMember, bind, Except.bind] at h

theorem modifyPrestartUrls_null_kept (env : Env) (sub w : JsonValue) (key : String)
    (h : modifyPrestartUrls env sub key = .ok w) :
    ∀ k, member sub k = .null → member w k = .null := by
  unfold modifyPrestartUrls at h
  cases sub with
  | null =>
    simp [isMember, bind, Except.bind, pure, Except.pure] at h
    subst h
    intro k hk; rfl
  | obj sm =>
    cases hf : find key sm with
    | none =>
      simp [isMember, hf, bind, Except.bind, pure, Except.pure] at h
      subst h
      intro k hk; exact hk
    | some x =>
      by_cases hx : x.isNull = true
      · simp [isMember, JsonValue.ref, hf, hx, bind, Except.bind, pure, Except.pure] at h
        subst h
        intro k hk; exact hk
      · simp [isMember, JsonValue.ref, hf, hx, bind, Except.bind, pure, Except.pure,
          JsonValue.set] at h
        subst h
        intro k hk
        by_cases hkk : k = key
        · subst hkk
          simp only [member, hf, Option.getD_some] at hk
          rw [hk] at hx
          exact absurd rfl hx
        · simp only [member, find_insert_ne k key _ sm hkk]
          exact hk
  | _ => simp [isMember, bind, Except.bind] at h

theorem modifyMaxInstancesPerApp_null_kept (sub w : JsonValue) (key : String)
    (h : modifyMaxInstancesPerApp sub key = .ok w) :
    ∀ k, member sub k = .null → member w k = .null := by
  unfold modifyMaxInstancesPerApp at h
  cases sub with
  | null =>
    simp [isMember, bind, Except.bind, pure, Except.pure] at h
    subst h
    intro k hk; rfl
  | obj sm =>
    cases hf : find key sm with
    | none =>
      simp [isMember, hf, bind, Except.bind, pure, Except.pure] at h
      subst h
      intro k hk; exact hk
    | some x =>
      by_cases hx : x.isNull = true
      · simp [isMember, JsonValue.ref, hf, hx, bind, Except.bind, pure, Except.pure] at h
        subst h
        intro k hk; exact hk
      · simp [isMember, JsonValue.ref, hf, hx, bind, Except.bind, pure, Except.pure,
          JsonValue.set] at h
        subst h
        intro k hk
        by_cases hkk : k = key
        · subst hkk
          simp only [member, hf, Option.getD_some] at hk
          rw [hk] at hx
          exact absurd rfl hx
        · simp only [member, find_insert_ne k key _ sm hkk]
          exact hk
  | _ => simp [isMember, bind, Except.bind] at h

theorem reshapeOption_null_kept (modify : JsonValue → String → Except Exn JsonValue)
    (hmod : ∀ sub w key, modify sub key = .ok w →
      ∀ k, member sub k = .null → member w k = .null)
    (sub w : JsonValue) (h : reshapeOption modify sub = .ok w) :
    ∀ k, member sub k = .null → member w k = .null := by
  unfold reshapeOption at h
  simp only [bind_ok_iff] at h
  obtain ⟨w1, h1, w2, h2, h3⟩ := h
  intro k hk
  exact hmod _ _ _ h3 k (hmod _ _ _ h2 k (hmod _ _ _ h1 k hk))

/-- What the options of the reply are, for a snapshot whose keys are in order: each
reshaped option has the hierarchy of its reshaped value, each other option that of its
value in the snapshot. -/
theorem onGetGlobalConfigDone_options (self : AdminPanelConnector)
    (im m : List (String × JsonValue)) (trace : DoneTrace)
    (hsorted : sortedKeys m = true)
    (h : onGetGlobalConfigDone self (.obj im) (.obj m) = .ok trace) :
    ∃ options logTarget prestartUrls maxInstances,
      trace = ⟨[replyDocument (member (.obj im) "request_id") "ok"
        (.obj [("options", .obj options)])], 1⟩ ∧
      reshapeOption (modifyLogTarget self.env) (member (.obj m) "log_target") =
        .ok logTarget ∧
      reshapeOption (modifyPrestartUrls self.env) (member (.obj m) "prestart_urls") =
        .ok prestartUrls ∧
      reshapeOption (fun s k => modifyMaxInstancesPerApp s k)
        (member (.obj m) "max_instances_per_app") = .ok maxInstances ∧
      find "log_target" options = some (.arr (provenance
        (member logTarget "user_value") (member logTarget "default_value"))) ∧
      find "prestart_urls" options = some (.arr (provenance
        (member prestartUrls "user_value") (member prestartUrls "default_value"))) ∧
      find "max_instances_per_app" options = some (.arr (provenance
        (member maxInstances "user_value") (member maxInstances "default_value"))) ∧
      (∀ name sub, name ∉ reshapedOptions → find name m = some sub →
        find name options = some (.arr (provenance
          (member sub "user_value") (member sub "default_value")))) ∧
      (∀ name, name ∉ reshapedOptions → find name m = none → find name options = none) := by
  obtain ⟨m0, m1, m2, m3, res, hm, hc1, hc2, hc3, hb, ht⟩ :=
    onGetGlobalConfigDone_steps self im (.obj m) trace h
  cases hm
  obtain ⟨w1, m1b, hw1, e1, hf1, hk1, hs1⟩ := modifyOption_form _ m _ _ hc1
  cases e1
  obtain ⟨w2, m2b, hw2, e2, hf2, hk2, hs2⟩ := modifyOption_form _ m1 _ _ hc2
  cases e2
  obtain ⟨w3, m3b, hw3, e3, hf3, hk3, hs3⟩ := modifyOption_form _ m2 _ _ hc3
  cases e3
  have hsorted3 : sortedKeys m3 = true := hs3 (hs2 (hs1 hsorted))
  obtain ⟨o, ho, hfind⟩ := buildOptions_find m3 hsorted3 [] res hb
  subst ho
  have hlt : find "log_target" m3 = some w1 := by
    rw [hk3 _ (by decide), hk2 _ (by decide), hf1]
  have hpu : find "prestart_urls" m3 = some w2 := by
    rw [hk3 _ (by decide), hf2]
  have hw2b : reshapeOption (modifyPrestartUrls self.env) (member (.obj m) "prestart_urls") =
      .ok w2 := by
    have : member (.obj m1) "prestart_urls" = member (.obj m) "prestart_urls" := by
      simp only [member, hk1 _ (by decide : "prestart_urls" ≠ "log_target")]
    rw [← this]; exact hw2
  have hw3b : reshapeOption (fun s k => modifyMaxInstancesPerApp s k)
      (member (.obj m) "max_instances_per_app") = .ok w3 := by
    have : member (.obj m2) "max_instances_per_app" =
        member (.obj m) "max_instances_per_app" := by
      simp only [member, hk2 _ (by decide : "max_instances_per_app" ≠ "prestart_urls"),
        hk1 _ (by decide : "max_instances_per_app" ≠ "log_target")]
    rw [← this]; exact hw3
  have hother : ∀ name, name ∉ reshapedOptions → find name m3 = find name m := by
    intro name hn
    simp only [reshapedOptions, List.mem_cons, List.mem_singleton, List.not_mem_nil,
      or_false, not_or] at hn
    rw [hk3 _ hn.2.2, hk2 _ hn.2.1, hk1 _ hn.1]
  refine ⟨o, w1, w2, w3, ht, hw1, hw2b, hw3b, (hfind _).1 _ hlt, (hfind _).1 _ hpu,
    (hfind _).1 _ hf3, ?_, ?_⟩
  · intro name sub hn hf
    exact (hfind name).1 sub (by rw [hother name hn]; exact hf)
  · intro name hn hf
    rw [(hfind name).2 (by rw [hother name hn]; exact hf)]
    rfl

theorem provenance_length_le (userValue defaultValue : JsonValue) :
    (provenance userValue defaultValue).length ≤ 2 := by
  unfold provenance
  cases userValue.isNull <;> cases defaultValue.isNull <;> simp

/-- Claim C16: for a snapshot whose keys are in order, the hierarchy of every option
in the reply of `onGetGlobalConfigDone` lists the entry of the user value, with source
"ephemeral", when it is not null, then the entry of the default value, with source
"default", when it is not null, and nothing else; for `log_target`, `prestart_urls` and
`max_instances_per_app` the values are those left by the reshaping. A hierarchy has at
most two entries. A snapshot of the shape the handler indexes into gets a reply. -/
theorem value_hierarchy_provenance (self : AdminPanelConnector)
    (im m : List (String × JsonValue)) (hsorted : sortedKeys m = true) :
    (snapshotShape self.env (.obj m) = true →
      ∃ trace, onGetGlobalConfigDone self (.obj im) (.obj m) = .ok trace) ∧
    (∀ subconfig, isNullOrObject subconfig = true →
      valueHierarchy subconfig = .ok (.arr (provenance
        (member subconfig "user_value") (member subconfig "default_value")))) ∧
    (∀ userValue defaultValue,
      provenance userValue defaultValue =
        (if userValue.isNull then [] else [hierarchyEntry userValue "ephemeral"]) ++
          (if defaultValue.isNull then [] else [hierarchyEntry defaultValue "default"]) ∧
      (provenance userValue defaultValue).length ≤ 2) ∧
    ∀ trace, onGetGlobalConfigDone self (.obj im) (.obj m) = .ok trace →
      ∃ options logTarget prestartUrls maxInstances,
        trace = ⟨[replyDocument (member (.obj im) "request_id") "ok"
          (.obj [("options", .obj options)])], 1⟩ ∧
        reshapeOption (modifyLogTarget self.env) (member (.obj m) "log_target") =
          .ok logTarget ∧
        reshapeOption (modifyPrestartUrls self.env) (member (.obj m) "prestart_urls") =
          .ok prestartUrls ∧
        reshapeOption (fun s k => modifyMaxInstancesPerApp s k)
          (member (.obj m) "max_instances_per_app") = .ok maxInstances ∧
        find "log_target" options = some (.arr (provenance
          (member logTarget "user_value") (member logTarget "default_value"))) ∧
        find "prestart_urls" options = some (.arr (provenance
          (member prestartUrls "user_value") (member prestartUrls "default_value"))) ∧
        find "max_instances_per_app" options = some (.arr (provenance
          (member maxInstances "user_value") (member maxInstances "default_value"))) ∧
        ∀ name subconfig, name ∉ reshapedOptions → find name m = some subconfig →
          find name options = some (.arr (provenance
            (member subconfig "user_value") (member subconfig "default_value"))) := by
  refine ⟨fun hshape => onGetGlobalConfigDone_ok self im (.obj m) hshape,
    valueHierarchy_of_isNullOrObject, fun u d => ⟨rfl, provenance_length_le u d⟩, ?_⟩
  intro trace h
  obtain ⟨o, w1, w2, w3, ht, h1, h2, h3, f1, f2, f3, fo, -⟩ :=
    onGetGlobalConfigDone_options self im m trace hsorted h
  exact ⟨o, w1, w2, w3, ht, h1, h2, h3, f1, f2, f3, fo⟩

/-- Witness of C16: an option with a user value 8 and a default 6 lists the user value
first, and the three reshaped options, absent from the snapshot, have empty hierarchies. -/
theorem value_hierarchy_provenance_witness :
    sortedKeys [("instance_registry_dir",
          .obj [("effective_value", .null), ("type", .str "string"), ("user_value", .null)]),
        ("max_pool_size",
          .obj [("default_value", .int 6), ("effective_value", .int 8),
            ("type", .str "unsigned integer"), ("user_value", .int 8)])] = true ∧
    onGetGlobalConfigDone snapshotConnector globalConfigurationCommand sampleSnapshot =
      .ok sampleSnapshotTrace ∧
    find "max_pool_size" sampleSnapshotOptions =
      some (.arr [hierarchyEntry (.int 8) "ephemeral", hierarchyEntry (.int 6) "default"]) ∧
    ∀ subconfig, isNullOrObject subconfig = true →
      valueHierarchy subconfig = .ok (.arr (provenance
        (member subconfig "user_value") (member subconfig "default_value"))) :=
  ⟨by decide, by decide, by decide,
    (value_hierarchy_provenance snapshotConnector
      [("action", .str "get"), ("request_id", .str "r4"),
        ("resource", .str "global_configuration")]
      [("instance_registry_dir",
          .obj [("effective_value", .null), ("type", .str "string"), ("user_value", .null)]),
        ("max_pool_size",
          .obj [("default_value", .int 6), ("effective_value", .int 8),
            ("type", .str "unsigned integer"), ("user_value", .int 8)])]
      (by decide)).2.1⟩

/-- Counterexample to C17: the option `instance_registry_dir` of the sample snapshot has
a null user value and no default, and it is a key of data.options in the reply. -/
theorem option_without_values_is_listed :
    member (member sampleSnapshot "instance_registry_dir") "user_value" = .null ∧
    member (member sampleSnapshot "instance_registry_dir") "default_value" = .null ∧
    onGetGlobalConfigDone snapshotConnector globalConfigurationCommand sampleSnapshot =
      .ok ⟨[replyDocument (.str "r4") "ok" (.obj [("options", .obj sampleSnapshotOptions)])],
        1⟩ ∧
    hasMember (.obj sampleSnapshotOptions) "instance_registry_dir" = true ∧
    keys (.obj sampleSnapshotOptions) = ["instance_registry_dir", "log_target",
      "max_instances_per_app", "max_pool_size", "prestart_urls"] := by
  decide

/-- Claim C17, amended: for a snapshot whose keys are in order, an option whose
user_value and default_value are both null or absent is a key of data.options in the
reply of `onGetGlobalConfigDone`, with an empty value hierarchy. A snapshot of the shape
the handler indexes into gets a reply. -/
theorem option_without_values_has_empty_hierarchy (self : AdminPanelConnector)
    (im m : List (String × JsonValue)) (hsorted : sortedKeys m = true) :
    (snapshotShape self.env (.obj m) = true →
      ∃ trace, onGetGlobalConfigDone self (.obj im) (.obj m) = .ok trace) ∧
    ∀ trace, onGetGlobalConfigDone self (.obj im) (.obj m) = .ok trace →
      ∃ options,
        trace = ⟨[replyDocument (member (.obj im) "request_id") "ok"
          (.obj [("options", .obj options)])], 1⟩ ∧
        ∀ name subconfig, find name m = some subconfig →
          member subconfig "user_value" = .null →
          member subconfig "default_value" = .null →
          find name options = some (.arr []) := by
  refine ⟨fun hshape => onGetGlobalConfigDone_ok self im (.obj m) hshape, ?_⟩
  intro trace h
  obtain ⟨o, w1, w2, w3, ht, h1, h2, h3, f1, f2, f3, fo, -⟩ :=
    onGetGlobalConfigDone_options self im m trace hsorted h
  refine ⟨o, ht, ?_⟩
  intro name sub hf hu hd
  have hprov : ∀ w : JsonValue, member w "user_value" = .null →
      member w "default_value" = .null →
      provenance (member w "user_value") (member w "default_value") = [] := by
    intro w hwu hwd
    rw [hwu, hwd]
    rfl
  have hsub : ∀ option, find option m = some sub → member (.obj m) option = sub := by
    intro option hfo
    simp only [member, hfo, Option.getD_some]
  by_cases hn : name ∈ reshapedOptions
  · simp only [reshapedOptions, List.mem_cons, List.mem_singleton, List.not_mem_nil,
      or_false] at hn
    rcases hn with hn | hn | hn
    · subst hn
      rw [hsub _ hf] at h1
      have hk := reshapeOption_null_kept _
        (fun s w k hm => modifyLogTarget_null_kept self.env s w k hm) sub w1 h1
      rw [f1, hprov w1 (hk _ hu) (hk _ hd)]
    · subst hn
      rw [hsub _ hf] at h2
      have hk := reshapeOption_null_kept _
        (fun s w k hm => modifyPrestartUrls_null_kept self.env s w k hm) sub w2 h2
      rw [f2, hprov w2 (hk _ hu) (hk _ hd)]
    · subst hn
      rw [hsub _ hf] at h3
      have hk := reshapeOption_null_kept _
        (fun s w k hm => modifyMaxInstancesPerApp_null_kept s w k hm) sub w3 h3
      rw [f3, hprov w3 (hk _ hu) (hk _ hd)]
  · rw [fo name sub hn hf, hprov sub hu hd]

/-- Witness of C17 as amended: the option `instance_registry_dir` of the sample snapshot. -/
theorem option_without_values_has_empty_hierarchy_witness :
    sortedKeys [("instance_registry_dir",
          .obj [("effective_value", .null), ("type", .str "string"), ("user_value", .null)]),
        ("max_pool_size",
          .obj [("default_value", .int 6), ("effective_value", .int 8),
            ("type", .str "unsigned integer"), ("user_value", .int 8)])] = true ∧
    onGetGlobalConfigDone snapshotConnector globalConfigurationCommand sampleSnapshot =
      .ok sampleSnapshotTrace ∧
    ∃ options,
      sampleSnapshotTrace =
        ⟨[replyDocument (member globalConfigurationCommand "request_id") "ok"
          (.obj [("options", .obj options)])], 1⟩ ∧
      ∀ name subconfig,
        find name [("instance_registry_dir",
          .obj [("effective_value", .null), ("type", .str "string"), ("user_value", .null)]),
          ("max_pool_size",
            .obj [("default_value", .int 6), ("effective_value", .int 8),
              ("type", .str "unsigned integer"), ("user_value", .int 8)])] =
            some subconfig →
        member subconfig "user_value" = .null →
        member subconfig "default_value" = .null →
        find name options = some (.arr []) :=
  ⟨by decide, by decide,
    (option_without_values_has_empty_hierarchy snapshotConnector
      [("action", .str "get"), ("request_id", .str "r4"),
        ("resource", .str "global_configuration")]
      [("instance_registry_dir",
          .obj [("effective_value", .null), ("type", .str "string"), ("user_value", .null)]),
        ("max_pool_size",
          .obj [("default_value", .int 6), ("effective_value", .int 8),
            ("type", .str "unsigned integer"), ("user_value", .int 8)])]
      (by decide)).2 sampleSnapshotTrace (by decide)⟩

theorem insert_insert (k : String) (x y : JsonValue) (m : List (String × JsonValue)) :
    JsonValue.insert k x (JsonValue.insert k y m) = JsonValue.insert k x m := by
  induction m with
  | nil => simp [JsonValue.insert]
  | cons kv rest ih =>
    obtain ⟨a, v⟩ := kv
    by_cases h1 : a = k
    · simp [JsonValue.insert, h1]
    · by_cases h2 : keyLt k a = true
      · simp [JsonValue.insert, h1, h2]
      · simp [JsonValue.insert, h1, h2, ih]

theorem mapM_eq_map {α β : Type} (f : α → Except Exn β) (g : α → β) (xs : List α)
    (h : ∀ x ∈ xs, f x = .ok (g x)) : xs.mapM f = .ok (xs.map g) := by
  induction xs with
  | nil => rfl
  | cons x rest ih =>
    rw [List.mapM_cons, h x (List.mem_cons_self _ _),
      ih (fun z hz => h z (List.mem_cons_of_mem _ hz))]
    rfl

theorem forEachM_eq_mapElements (f : JsonValue → Except Exn JsonValue)
    (g : JsonValue → JsonValue) (v : JsonValue)
    (h : ∀ x ∈ elements v, f x = .ok (g x)) : v.forEachM f = .ok (mapElements g v) := by
  cases v with
  | arr xs =>
    simp only [forEachM, mapElements, mapM_eq_map f g xs h]
    rfl
  | obj m =>
    have hm : m.mapM (fun kv : String × JsonValue => (f kv.2).map (fun v => (kv.1, v))) =
        .ok (m.map (fun kv => (kv.1, g kv.2))) := by
      apply mapM_eq_map
      intro kv hkv
      rw [h kv.2 (by simp only [elements, List.mem_map]; exact ⟨kv, hkv, rfl⟩)]
      rfl
    simp only [forEachM, mapElements, hm]
    rfl
  | _ => rfl

theorem modifyEnvironmentVariables_eq (env : Env) (option : JsonValue)
    (h : (elements option).all isNullOrObject = true) :
    modifyEnvironmentVariables env option = .ok (mapElements (flattenVariable env) option) := by
  unfold modifyEnvironmentVariables
  apply forEachM_eq_mapElements
  intro x hx
  rw [List.all_eq_true] at h
  have hx2 := h x hx
  cases x with
  | null => rfl
  | obj m =>
    cases hf : find "value" m with
    | none =>
      simp only [JsonValue.ref, hf, bind, Except.bind, JsonValue.set, flattenVariable, member,
        members, Option.getD_none, insert_insert]
    | some v =>
      simp only [JsonValue.ref, hf, bind, Except.bind, JsonValue.set, flattenVariable, member,
        members, Option.getD_some]
  | _ => simp [isNullOrObject] at hx2

theorem modifyAppConfig_eq (env : Env) (appConfig : JsonValue)
    (h1 : isNullOrObject appConfig = true)
    (h2 : (elements (member appConfig "environment_variables")).all isNullOrObject = true) :
    modifyAppConfig env appConfig = .ok (flattenApplication env appConfig) := by
  unfold modifyAppConfig
  cases appConfig with
  | null => rfl
  | obj am =>
    cases hf : find "environment_variables" am with
    | none =>
      simp only [JsonValue.ref, hf, bind, Except.bind, JsonValue.set, flattenApplication,
        member, members, Option.getD_none, insert_insert]
      rfl
    | some ev =>
      have hev : (elements ev).all isNullOrObject = true := by
        simpa [member, hf] using h2
      simp only [JsonValue.ref, hf, bind, Except.bind, JsonValue.set, flattenApplication,
        member, members, Option.getD_some, modifyEnvironmentVariables_eq env ev hev]
  | _ => simp [isNullOrObject] at h1

theorem forEachM_modifyAppConfig_eq (env : Env) (resultOptions : JsonValue)
    (hshape : inspectedConfigShape resultOptions = true) :
    resultOptions.forEachM (modifyAppConfig env) =
      .ok (mapElements (flattenApplication env) resultOptions) := by
  apply forEachM_eq_mapElements
  intro x hx
  simp only [inspectedConfigShape, List.all_eq_true, Bool.and_eq_true] at hshape
  have hx2 := hshape x hx
  exact modifyAppConfig_eq env x hx2.1 (by rw [List.all_eq_true]; exact hx2.2)

theorem keys_mapElements (f : JsonValue → JsonValue) (v : JsonValue) :
    keys (mapElements f v) = keys v := by
  cases v <;> simp [mapElements, keys, List.map_map, Function.comp_def]

theorem elements_mapElements (f : JsonValue → JsonValue) (v : JsonValue) :
    elements (mapElements f v) = (elements v).map f := by
  cases v <;> simp [mapElements, elements, List.map_map, Function.comp_def]

/-- Counterexample to C21: the application pool reports an environment variable whose
value is the integer 5; the reply of `application_properties` returns it as the integer,
not as its styled string. -/
theorem application_properties_not_flattened :
    applicationsConnector.env.inspectPropertiesInAdminPanelFormat
        (ToJsonOptions.makeAuthorized.set (.obj [("uid", .str "x")])) =
      .obj [("/srv/app", .obj [
        ("environment_variables",
          .arr [.obj [("source", .str "default"), ("value", .int 5)]]),
        ("ruby", .str "/usr/bin/ruby")])] ∧
    onGetApplicationProperties applicationsConnector applicationPropertiesCommand =
      .ok ⟨true, [replyDocument (.str "r6") "ok"
        (.obj [("applications", .obj [("/srv/app", .obj [
          ("environment_variables",
            .arr [.obj [("source", .str "default"), ("value", .int 5)]]),
          ("ruby", .str "/usr/bin/ruby")])])])], []⟩ ∧
    applicationsConnector.env.toStyledString (.int 5) = "5\n" ∧
    JsonValue.int 5 ≠ .str "5\n" := by
  decide

/-- Claim C21, amended: when `arguments` is absent or accepted, the reply of
`application_configuration` is the output of the application pool in which every entry of
the `environment_variables` of every application has its `value` replaced by the styled
string of the value it had, every other member of the entry and of the application being
kept (the members `environment_variables` and `value` are created when absent); the
reply of `application_properties` is the output of the application pool as it is. -/
theorem application_configuration_flattens_environment_variables
    (self : AdminPanelConnector) (m : List (String × JsonValue)) (options : ToJsonOptions)
    (hoptions : (find "arguments" m = none ∧ options = ToJsonOptions.makeAuthorized) ∨
      ∃ arguments, find "arguments" m = some arguments ∧
        self.env.updateErrors arguments = [] ∧
        options = ToJsonOptions.makeAuthorized.set
          (self.env.inspectEffectiveValues arguments)) :
    onGetApplicationProperties self (.obj m) =
      .ok ⟨true, [replyDocument (member (.obj m) "request_id") "ok"
        (.obj [("applications",
          self.env.inspectPropertiesInAdminPanelFormat options)])], []⟩ ∧
    (inspectedConfigShape (self.env.inspectConfigInAdminPanelFormat options) = true →
      onGetApplicationConfig self (.obj m) =
        .ok ⟨true, [replyDocument (member (.obj m) "request_id") "ok"
          (.obj [("options", mapElements (flattenApplication self.env)
            (self.env.inspectConfigInAdminPanelFormat options))])], []⟩) ∧
    (∀ resultOptions,
      keys (mapElements (flattenApplication self.env) resultOptions) = keys resultOptions ∧
      elements (mapElements (flattenApplication self.env) resultOptions) =
        (elements resultOptions).map (flattenApplication self.env)) ∧
    (∀ appConfig,
      member (flattenApplication self.env appConfig) "environment_variables" =
        mapElements (flattenVariable self.env) (member appConfig "environment_variables") ∧
      keys (member (flattenApplication self.env appConfig) "environment_variables") =
        keys (member appConfig "environment_variables") ∧
      elements (member (flattenApplication self.env appConfig) "environment_variables") =
        (elements (member appConfig "environment_variables")).map
          (flattenVariable self.env) ∧
      ∀ name, name ≠ "environment_variables" →
        find name (members (flattenApplication self.env appConfig)) =
          find name (members appConfig)) ∧
    ∀ entry,
      member (flattenVariable self.env entry) "value" =
        .str (self.env.toStyledString (member entry "value")) ∧
      ∀ name, name ≠ "value" →
        find name (members (flattenVariable self.env entry)) =
          find name (members entry) := by
  have happ : ∀ appConfig,
      member (flattenApplication self.env appConfig) "environment_variables" =
        mapElements (flattenVariable self.env)
          (member appConfig "environment_variables") := by
    intro appConfig
    simp only [flattenApplication, member, find_insert_self, Option.getD_some]
  refine ⟨?_, ?_, fun r => ⟨keys_mapElements _ r, elements_mapElements _ r⟩, ?_, ?_⟩
  · rcases hoptions with ⟨ha, ho⟩ | ⟨arguments, ha, he, ho⟩
    · rw [ho]; exact appProperties_absent self m ha
    · rw [ho]; exact appProperties_accepted self m arguments ha (by rw [he]; rfl)
  · intro hshape
    rcases hoptions with ⟨ha, ho⟩ | ⟨arguments, ha, he, ho⟩
    · rw [appConfig_absent self m ha, ← ho,
        forEachM_modifyAppConfig_eq self.env _ hshape]
    · rw [appConfig_accepted self m arguments ha (by rw [he]; rfl), ← ho,
        forEachM_modifyAppConfig_eq self.env _ hshape]
  · intro appConfig
    refine ⟨happ appConfig, ?_, ?_, ?_⟩
    · rw [happ, keys_mapElements]
    · rw [happ, elements_mapElements]
    · intro name hne
      simp only [flattenApplication, members, find_insert_ne name _ _ _ hne]
  · intro entry
    refine ⟨?_, ?_⟩
    · simp only [flattenVariable, member, find_insert_self, Option.getD_some]
    · intro name hne
      simp only [flattenVariable, members, find_insert_ne name _ _ _ hne]

/-- Witness of C21 as amended: the application pool reports an environment variable whose
value is the integer 5; the reply of `application_configuration` shows it as "5\n". -/
theorem application_configuration_flattens_environment_variables_witness :
    (find "arguments" [("action", JsonValue.str "get"), ("request_id", .str "r7"),
        ("resource", .str "application_configuration")] = none ∧
      ToJsonOptions.makeAuthorized = ToJsonOptions.makeAuthorized) ∧
    inspectedConfigShape (applicationsConnector.env.inspectConfigInAdminPanelFormat
      ToJsonOptions.makeAuthorized) = true ∧
    onGetApplicationConfig applicationsConnector applicationConfigurationCommand =
      .ok ⟨true, [replyDocument (.str "r7") "ok"
        (.obj [("options", .obj [("/srv/app", .obj [
          ("environment_variables",
            .arr [.obj [("source", .str "default"), ("value", .str "5\n")]]),
          ("ruby", .str "/usr/bin/ruby")])])])], []⟩ ∧
    onGetApplicationConfig applicationsConnector
        (.obj [("action", JsonValue.str "get"), ("request_id", .str "r7"),
          ("resource", .str "application_configuration")]) =
      .ok ⟨true, [replyDocument
        (member (.obj [("action", JsonValue.str "get"), ("request_id", .str "r7"),
          ("resource", .str "application_configuration")]) "request_id") "ok"
        (.obj [("options", mapElements (flattenApplication applicationsConnector.env)
          (applicationsConnector.env.inspectConfigInAdminPanelFormat
            ToJsonOptions.makeAuthorized))])], []⟩ :=
  ⟨⟨by decide, rfl⟩, by decide, by decide,
    (application_configuration_flattens_environment_variables applicationsConnector
      [("action", JsonValue.str "get"), ("request_id", .str "r7"),
        ("resource", .str "application_configuration")]
      ToJsonOptions.makeAuthorized (Or.inl ⟨by decide, rfl⟩)).2.1 (by decide)⟩

/-- Claim C22: `initialize()` throws without calling `server.initialize()` when one of
`resourceLocator`, `appPool`, `configGetter` is unset, the exception naming the first
unset one in that order; when all three are set it calls `server.initialize()` once and
ends as that call ends. So, `server.initialize()` returning normally, it fails exactly
when a dependency is unset. -/
theorem initialize_requires_dependencies {ResourceLocator Pool ConfigGetter : Type}
    (self : Dependencies ResourceLocator Pool ConfigGetter) (server : Except Exn Unit) :
    (∀ name rest, unsetDependencies self = name :: rest →
      initializeConnector self server =
        ⟨0, .error (.runtimeException (name ++ " must be non-NULL"))⟩) ∧
    (unsetDependencies self = [] →
      initializeConnector self server = ⟨1, server⟩) ∧
    (unsetDependencies self = [] ↔
      self.resourceLocator.isSome = true ∧ self.appPool.isSome = true ∧
        self.configGetter.isSome = true) ∧
    ((initializeConnector self server).serverCalls = 1 ↔
      unsetDependencies self = []) ∧
    ((initializeConnector self server).serverCalls = 0 ↔
      unsetDependencies self ≠ []) ∧
    (server = .ok () →
      ((∃ e, (initializeConnector self server).result = .error e) ↔
        unsetDependencies self ≠ [])) := by
  obtain ⟨r, p, g⟩ := self
  cases r <;> cases p <;> cases g <;>
    simp [unsetDependencies, initializeConnector]
  all_goals (intro h; simp [h])

/-- Witness of C22: with `appPool` and `configGetter` unset, the exception names `appPool`
and `server.initialize()` is not called. -/
theorem initialize_requires_dependencies_witness :
    unsetDependencies (⟨some (), none, none⟩ : Dependencies Unit Unit Unit) =
      ["appPool", "configGetter"] ∧
    initializeConnector (⟨some (), none, none⟩ : Dependencies Unit Unit Unit)
        (.ok ()) =
      ⟨0, .error (.runtimeException ("appPool" ++ " must be non-NULL"))⟩ :=
  ⟨by decide,
    (initialize_requires_dependencies (⟨some (), none, none⟩ : Dependencies Unit Unit Unit)
      (.ok ())).1 "appPool" ["configGetter"] (by decide)⟩

/-! ## The handler of `global_statistics` -/

/-- Claim C23: a validated command with action "get" and resource "global_statistics" is
answered, in the same call, with the error reply "Action not implemented" carrying the
request_id of the command, and `onMessage` returns true; its arguments are not read. -/
theorem global_statistics_not_implemented (self : AdminPanelConnector) (payload : String)
    (doc : JsonValue)
    (hv : parseAndBasicValidateMessageAsJSON self.env payload = .ok doc)
    (ha : member doc "action" = .str "get")
    (hr : member doc "resource" = .str "global_statistics") :
    onMessage self payload =
      .ok ⟨true, [errorReply (member doc "request_id") "Action not implemented"], []⟩ ∧
    onGetGlobalStatistics self doc =
      .ok ⟨true, [errorReply (member doc "request_id") "Action not implemented"], []⟩ ∧
    errorReply (member doc "request_id") "Action not implemented" =
      .obj [("data", .obj [("message", .str "Action not implemented")]),
        ("request_id", member doc "request_id"), ("result", .str "error")] := by
  obtain ⟨m, a, r, hd, ha2, hr2⟩ := validate_ok_members self.env payload doc hv
  subst hd
  simp only [member, ha2, hr2, Option.getD_some, JsonValue.str.injEq] at ha hr
  subst ha; subst hr
  refine ⟨?_, onGetGlobalStatistics_eq self m, rfl⟩
  rw [onMessage_valid self payload m _ hv ha2, if_pos rfl, onGetMessage_obj self m _ hr2,
    if_neg (by decide), if_neg (by decide), if_neg (by decide), if_pos rfl,
    onGetGlobalStatistics_eq self m]

/-- Witness of C23: a command for `global_statistics` that carries arguments. -/
theorem global_statistics_not_implemented_witness :
    parseAndBasicValidateMessageAsJSON sampleConnector.env globalStatisticsPayload =
      .ok globalStatisticsCommand ∧
    member globalStatisticsCommand "arguments" = .obj [("verbose", .bool true)] ∧
    onMessage sampleConnector globalStatisticsPayload =
      .ok ⟨true, [errorReply (member globalStatisticsCommand "request_id")
        "Action not implemented"], []⟩ ∧
    member globalStatisticsCommand "request_id" = .str "r8" :=
  ⟨by decide, by decide,
    (global_statistics_not_implemented sampleConnector globalStatisticsPayload
      globalStatisticsCommand (by decide) (by decide) (by decide)).1,
    by decide⟩

/-! ## The background jobs and the launch of the helper tool -/

theorem string_isEmpty_false (s : String) (h : s ≠ "") : s.isEmpty = false := by
  cases hs : s.isEmpty with
  | false => rfl
  | true => exact absurd ((String.isEmpty_iff s).mp hs) h

/-- Claim C25: `onGetServerPropertiesBgJob` posts `onGetServerPropertiesDone` exactly once
and sends no reply, with the output and status of the helper tool and an empty error
when the tool ran, and with an empty output, status -1 and the pointer `e.what()`, read after
the exception is destroyed, when its launch threw; `onGetGlobalConfigurationBgJob` posts
`onGetGlobalConfigDone` exactly once, with the snapshot of `configGetter`, and sends no
reply. No thread sends a reply. -/
theorem background_jobs_only_post (self : AdminPanelConnector) (doc : JsonValue)
    (ruby : String) :
    (∀ status output,
      self.env.runInternalRubyTool ruby ["passenger-config", "system-properties"] =
        .ok (status, output) →
      onGetServerPropertiesBgJob self doc ruby =
        ⟨[.getServerPropertiesDone doc output status ""], []⟩) ∧
    (∀ what,
      self.env.runInternalRubyTool ruby ["passenger-config", "system-properties"] =
        .error what →
      onGetServerPropertiesBgJob self doc ruby =
        ⟨[.getServerPropertiesDone doc "" (-1) (self.env.danglingWhat what)], []⟩) ∧
    (∃ output status error, (onGetServerPropertiesBgJob self doc ruby).posted =
      [.getServerPropertiesDone doc output status error]) ∧
    (onGetServerPropertiesBgJob self doc ruby).replies = [] ∧
    onGetGlobalConfigurationBgJob self doc =
      ⟨[.getGlobalConfigDone doc self.env.configGetter], []⟩ ∧
    ∀ job : BgJob, (job.run self).posted.length = 1 ∧ (job.run self).replies = [] := by
  have hjob : ∀ (d : JsonValue) (r : String),
      (∃ output status error, (onGetServerPropertiesBgJob self d r).posted =
        [.getServerPropertiesDone d output status error]) ∧
      (onGetServerPropertiesBgJob self d r).replies = [] := by
    intro d r
    cases h : self.env.runInternalRubyTool r ["passenger-config", "system-properties"] with
    | error what =>
      exact ⟨⟨"", -1, self.env.danglingWhat what,
          by simp only [onGetServerPropertiesBgJob, h]⟩,
        by simp only [onGetServerPropertiesBgJob, h]⟩
    | ok res =>
      exact ⟨⟨res.2, res.1, "", by simp only [onGetServerPropertiesBgJob, h]⟩,
        by simp only [onGetServerPropertiesBgJob, h]⟩
  refine ⟨?_, ?_, (hjob doc ruby).1, (hjob doc ruby).2, rfl, ?_⟩
  · intro status output h
    simp only [onGetServerPropertiesBgJob, h]
  · intro what h
    simp only [onGetServerPropertiesBgJob, h]
  · intro job
    cases job with
    | getServerProperties d r =>
      obtain ⟨⟨o, s, e, hp⟩, hr⟩ := hjob d r
      exact ⟨by simp only [BgJob.run, hp, List.length_singleton], hr⟩
    | getGlobalConfiguration d => exact ⟨rfl, rfl⟩

/-- Witness of C25: the helper tool of the sample connector exits with code 1 after
printing "boom"; the job posts that to the completion callback and sends nothing. -/
theorem background_jobs_only_post_witness :
    sampleConnector.env.runInternalRubyTool "ruby"
        ["passenger-config", "system-properties"] = .ok (256, "boom") ∧
    onGetServerPropertiesBgJob sampleConnector serverPropertiesCommand "ruby" =
      ⟨[.getServerPropertiesDone serverPropertiesCommand "boom" 256 ""], []⟩ :=
  ⟨by decide,
    (background_jobs_only_post sampleConnector serverPropertiesCommand "ruby").1 256 "boom"
      (by decide)⟩

/-- Claim C26, at the input where it fails: the launch of the helper tool throws with the
description "Cannot execute ruby". The job posts the completion callback with an empty
output, status -1 and the pointer `e.what()`; when the callback runs, the exception is
destroyed and the freed memory reads as `freedMemoryText`, so the message of the reply is
that text and not the description. `onGetServerPropertiesDone` itself sends the error
reply whose message is the error string it is called with, when that is not empty. -/
theorem launch_failure_description_lost :
    launchFailureConnector.env.runInternalRubyTool "ruby"
        ["passenger-config", "system-properties"] = .error "Cannot execute ruby" ∧
    launchFailureConnector.env.danglingWhat "Cannot execute ruby" = freedMemoryText ∧
    onGetServerPropertiesBgJob launchFailureConnector serverPropertiesCommand "ruby" =
      ⟨[.getServerPropertiesDone serverPropertiesCommand "" (-1) freedMemoryText], []⟩ ∧
    Completion.run launchFailureConnector
        (.getServerPropertiesDone serverPropertiesCommand "" (-1) freedMemoryText) =
      .ok ⟨[errorReply (.str "r3") freedMemoryText], 1⟩ ∧
    errorReply (.str "r3") freedMemoryText ≠ errorReply (.str "r3") "Cannot execute ruby" ∧
    onGetServerPropertiesDone launchFailureConnector serverPropertiesCommand "" (-1)
        "Cannot execute ruby" =
      .ok ⟨[errorReply (.str "r3") "Cannot execute ruby"], 1⟩ ∧
    ∀ (self : AdminPanelConnector) (m : List (String × JsonValue)) (output : String)
      (status : Int) (error : String), error ≠ "" →
      onGetServerPropertiesDone self (.obj m) output status error =
        .ok ⟨[errorReply (member (.obj m) "request_id") error], 1⟩ :=
  ⟨by decide, by decide, by decide, by decide, by decide, by decide,
    fun self m output status error he =>
      done_launch_failure self m output status error (string_isEmpty_false error he)⟩

/-! ## Reshaping `prestart_urls` and `max_instances_per_app` -/

theorem modifyPrestartUrls_member (env : Env) (sub w : JsonValue) (key : String)
    (h : modifyPrestartUrls env sub key = .ok w) :
    member w key = displayed (fun v => .str (env.toStyledString v)) (member sub key) ∧
    ∀ k, k ≠ key → member w k = member sub k := by
  unfold modifyPrestartUrls at h
  cases sub with
  | null =>
    simp [isMember, bind, Except.bind, pure, Except.pure] at h
    subst h
    exact ⟨rfl, fun k _ => rfl⟩
  | obj sm =>
    cases hf : find key sm with
    | none =>
      simp [isMember, hf, bind, Except.bind, pure, Except.pure] at h
      subst h
      exact ⟨by simp [member, hf, displayed, isNull], fun k _ => rfl⟩
    | some x =>
      by_cases hx : x.isNull = true
      · simp [isMember, JsonValue.ref, hf, hx, bind, Except.bind, pure, Except.pure] at h
        subst h
        refine ⟨?_, fun k _ => rfl⟩
        cases x <;> simp [isNull] at hx
        simp [member, hf, displayed, isNull]
      · simp [isMember, JsonValue.ref, hf, hx, bind, Except.bind, pure, Except.pure,
          JsonValue.set] at h
        subst h
        refine ⟨?_, ?_⟩
        · simp [member, hf, displayed, hx, find_insert_self]
        · intro k hk
          simp only [member, find_insert_ne k key _ sm hk]
  | _ => simp [isMember, bind, Except.bind] at h

theorem modifyMaxInstancesPerApp_member (sub w : JsonValue) (key : String)
    (h : modifyMaxInstancesPerApp sub key = .ok w) :
    member w key = displayed (fun _ => .int 0) (member sub key) ∧
    ∀ k, k ≠ key → member w k = member sub k := by
  unfold modifyMaxInstancesPerApp at h
  cases sub with
  | null =>
    simp [isMember, bind, Except.bind, pure, Except.pure] at h
    subst h
    exact ⟨rfl, fun k _ => rfl⟩
  | obj sm =>
    cases hf : find key sm with
    | none =>
      simp [isMember, hf, bind, Except.bind, pure, Except.pure] at h
      subst h
      exact ⟨by simp [member, hf, displayed, isNull], fun k _ => rfl⟩
    | some x =>
      by_cases hx : x.isNull = true
      · simp [isMember, JsonValue.ref, hf, hx, bind, Except.bind, pure, Except.pure] at h
        subst h
        refine ⟨?_, fun k _ => rfl⟩
        cases x <;> simp [isNull] at hx
        simp [member, hf, displayed, isNull]
      · simp [isMember, JsonValue.ref, hf, hx, bind, Except.bind, pure, Except.pure,
          JsonValue.set] at h
        subst h
        refine ⟨?_, ?_⟩
        · simp [member, hf, displayed, hx, find_insert_self]
        · intro k hk
          simp only [member, find_insert_ne k key _ sm hk]
  | _ => simp [isMember, bind, Except.bind] at h

theorem reshapeOption_member (modify : JsonValue → String → Except Exn JsonValue)
    (scalar : JsonValue → JsonValue)
    (hmod : ∀ sub w key, modify sub key = .ok w →
      member w key = displayed scalar (member sub key) ∧
        ∀ k, k ≠ key → member w k = member sub k)
    (sub w : JsonValue) (h : reshapeOption modify sub = .ok w) :
    member w "user_value" = displayed scalar (member sub "user_value") ∧
    member w "default_value" = displayed scalar (member sub "default_value") ∧
    member w "effective_value" = displayed scalar (member sub "effective_value") ∧
    ∀ k, k ≠ "user_value" → k ≠ "default_value" → k ≠ "effective_value" →
      member w k = member sub k := by
  unfold reshapeOption at h
  simp only [bind_ok_iff] at h
  obtain ⟨s1, h1, s2, h2, h3⟩ := h
  obtain ⟨a1, b1⟩ := hmod _ _ _ h1
  obtain ⟨a2, b2⟩ := hmod _ _ _ h2
  obtain ⟨a3, b3⟩ := hmod _ _ _ h3
  refine ⟨?_, ?_, ?_, ?_⟩
  · rw [b3 _ (by decide), b2 _ (by decide), a1]
  · rw [b3 _ (by decide), a2, b1 _ (by decide)]
  · rw [a3, b2 _ (by decide), b1 _ (by decide)]
  · intro k hu hd he
    rw [b3 _ he, b2 _ hd, b1 _ hu]

theorem provenance_displayed (scalar : JsonValue → JsonValue)
    (hscalar : ∀ v, (scalar v).isNull = false) (userValue defaultValue : JsonValue) :
    provenance (displayed scalar userValue) (displayed scalar defaultValue) =
      (if userValue.isNull then [] else [hierarchyEntry (scalar userValue) "ephemeral"]) ++
        (if defaultValue.isNull then [] else
          [hierarchyEntry (scalar defaultValue) "default"]) := by
  have hn : JsonValue.null.isNull = true := rfl
  unfold provenance displayed
  by_cases hu : userValue.isNull = true <;> by_cases hd : defaultValue.isNull = true <;>
    simp [hu, hd, hscalar, hn]

/-- Claim C27: in the reply of `onGetGlobalConfigDone`, for a snapshot whose keys are in
order, the hierarchy of `prestart_urls` shows each non-null user_value and default_value as
the string of its styled serialization, the hierarchy of `max_instances_per_app` shows
each non-null user_value and default_value as the number 0, and the hierarchy of every option
other than `log_target`, `prestart_urls` and `max_instances_per_app` holds the user_value
and default_value of the snapshot. A snapshot of the shape the handler indexes into gets
a reply. -/
theorem reshaping_touches_three_options (self : AdminPanelConnector)
    (im m : List (String × JsonValue)) (hsorted : sortedKeys m = true) :
    (snapshotShape self.env (.obj m) = true →
      ∃ trace, onGetGlobalConfigDone self (.obj im) (.obj m) = .ok trace) ∧
    ∀ trace, onGetGlobalConfigDone self (.obj im) (.obj m) = .ok trace →
      ∃ options,
        trace = ⟨[replyDocument (member (.obj im) "request_id") "ok"
          (.obj [("options", .obj options)])], 1⟩ ∧
        find "prestart_urls" options = some (.arr (
          (if (member (member (.obj m) "prestart_urls") "user_value").isNull then []
            else [hierarchyEntry (.str (self.env.toStyledString
              (member (member (.obj m) "prestart_urls") "user_value"))) "ephemeral"]) ++
          (if (member (member (.obj m) "prestart_urls") "default_value").isNull then []
            else [hierarchyEntry (.str (self.env.toStyledString
              (member (member (.obj m) "prestart_urls") "default_value"))) "default"]))) ∧
        find "max_instances_per_app" options = some (.arr (
          (if (member (member (.obj m) "max_instances_per_app") "user_value").isNull then []
            else [hierarchyEntry (.int 0) "ephemeral"]) ++
          (if (member (member (.obj m) "max_instances_per_app") "default_value").isNull
            then [] else [hierarchyEntry (.int 0) "default"]))) ∧
        ∀ name subconfig, name ∉ reshapedOptions → find name m = some subconfig →
          find name options = some (.arr (
            (if (member subconfig "user_value").isNull then []
              else [hierarchyEntry (member subconfig "user_value") "ephemeral"]) ++
            (if (member subconfig "default_value").isNull then []
              else [hierarchyEntry (member subconfig "default_value") "default"]))) := by
  refine ⟨fun hshape => onGetGlobalConfigDone_ok self im (.obj m) hshape, ?_⟩
  intro trace h
  obtain ⟨o, w1, w2, w3, ht, -, h2, h3, -, f2, f3, fo, -⟩ :=
    onGetGlobalConfigDone_options self im m trace hsorted h
  obtain ⟨u2, d2, -, -⟩ := reshapeOption_member _ _
    (fun s w k hm => modifyPrestartUrls_member self.env s w k hm) _ _ h2
  obtain ⟨u3, d3, -, -⟩ := reshapeOption_member _ _
    (fun s w k hm => modifyMaxInstancesPerApp_member s w k hm) _ _ h3
  refine ⟨o, ht, ?_, ?_, ?_⟩
  · rw [f2, u2, d2, provenance_displayed (fun v => .str (self.env.toStyledString v))
      (fun _ => rfl)]
  · rw [f3, u3, d3, provenance_displayed (fun _ => .int 0) (fun _ => rfl)]
  · intro name sub hn hf
    rw [fo name sub hn hf]
    rfl

/-- Witness of C27: a snapshot with a list of pre-start URLs, a configured maximum of 7
instances and an option that is not reshaped. -/
theorem reshaping_touches_three_options_witness :
    sortedKeys [("max_instances_per_app",
        .obj [("default_value", .int 0), ("user_value", .int 7)]),
      ("max_pool_size",
        .obj [("default_value", .int 6), ("user_value", .int 8)]),
      ("prestart_urls",
        .obj [("default_value", .arr []), ("user_value", .arr [.str "http://a/"])])] =
      true ∧
    onGetGlobalConfigDone reshapedConnector globalConfigurationCommand reshapedSnapshot =
      .ok reshapedSnapshotTrace ∧
    ∃ options,
      reshapedSnapshotTrace =
        ⟨[replyDocument (member globalConfigurationCommand "request_id") "ok"
          (.obj [("options", .obj options)])], 1⟩ ∧
      find "prestart_urls" options = some (.arr
        [hierarchyEntry (.str "[\n   \"http://a/\"\n]\n") "ephemeral",
          hierarchyEntry (.str "[]\n") "default"]) ∧
      find "max_instances_per_app" options = some (.arr
        [hierarchyEntry (.int 0) "ephemeral", hierarchyEntry (.int 0) "default"]) ∧
      find "max_pool_size" options = some (.arr
        [hierarchyEntry (.int 8) "ephemeral", hierarchyEntry (.int 6) "default"]) := by
  refine ⟨by decide, by decide, ?_⟩
  obtain ⟨options, ht, hp, hm, ho⟩ :=
    (reshaping_touches_three_options reshapedConnector
      [("action", .str "get"), ("request_id", .str "r4"),
        ("resource", .str "global_configuration")]
      [("max_instances_per_app",
          .obj [("default_value", .int 0), ("user_value", .int 7)]),
        ("max_pool_size",
          .obj [("default_value", .int 6), ("user_value", .int 8)]),
        ("prestart_urls",
          .obj [("default_value", .arr []), ("user_value", .arr [.str "http://a/"])])]
      (by decide)).2 reshapedSnapshotTrace (by decide)
  exact ⟨options, ht, hp, hm,
    ho "max_pool_size" (.obj [("default_value", .int 6), ("user_value", .int 8)])
      (by decide) (by decide)⟩

/-! ## The keys of the options of `global_configuration` -/

theorem mem_keys_iff (name : String) (m : List (String × JsonValue)) :
    name ∈ keys (.obj m) ↔ (find name m).isSome = true := by
  induction m with
  | nil => simp [keys, find]
  | cons kv rest ih =>
    obtain ⟨a, v⟩ := kv
    simp only [keys, List.map_cons, List.mem_cons] at ih ⊢
    by_cases h : a = name
    · simp [find, h]
    · have h2 : ¬ name = a := fun e => h e.symm
      simp only [find, h, h2, if_false, false_or]
      exact ih

/-- Claim C33: for a snapshot that is an object with its keys in order, the keys of
data.options in the reply of `onGetGlobalConfigDone` are the keys of the snapshot together
with `log_target`, `prestart_urls` and `max_instances_per_app`; each of these three that
the snapshot does not hold has an empty value hierarchy. A snapshot of the shape the
handler indexes into gets a reply. -/
theorem reshaped_options_always_listed (self : AdminPanelConnector)
    (im m : List (String × JsonValue)) (hsorted : sortedKeys m = true) :
    (snapshotShape self.env (.obj m) = true →
      ∃ trace, onGetGlobalConfigDone self (.obj im) (.obj m) = .ok trace) ∧
    ∀ trace, onGetGlobalConfigDone self (.obj im) (.obj m) = .ok trace →
      ∃ options,
        trace = ⟨[replyDocument (member (.obj im) "request_id") "ok"
          (.obj [("options", .obj options)])], 1⟩ ∧
        (∀ name, name ∈ keys (.obj options) ↔
          name ∈ keys (.obj m) ∨
            name ∈ ["log_target", "prestart_urls", "max_instances_per_app"]) ∧
        (∀ name, name ∈ ["log_target", "prestart_urls", "max_instances_per_app"] →
          name ∉ keys (.obj m) → find name options = some (.arr [])) := by
  refine ⟨fun hshape => onGetGlobalConfigDone_ok self im (.obj m) hshape, ?_⟩
  intro trace h
  obtain ⟨o, w1, w2, w3, ht, h1, h2, h3, f1, f2, f3, fo, fn⟩ :=
    onGetGlobalConfigDone_options self im m trace hsorted h
  refine ⟨o, ht, ?_, ?_⟩
  · intro name
    rw [mem_keys_iff, mem_keys_iff]
    by_cases hn : name ∈ reshapedOptions
    · have hn2 := hn
      simp only [reshapedOptions, List.mem_cons, List.mem_singleton, List.not_mem_nil,
        or_false] at hn2
      constructor
      · intro _
        exact Or.inr hn
      · intro _
        rcases hn2 with e | e | e
        · rw [e, f1]; rfl
        · rw [e, f2]; rfl
        · rw [e, f3]; rfl
    · cases hf : find name m with
      | none =>
        rw [fn name hn hf]
        constructor
        · intro hc; cases hc
        · intro hc
          rcases hc with hc | hc
          · cases hc
          · exact absurd hc hn
      | some sub =>
        rw [fo name sub hn hf]
        exact ⟨fun _ => Or.inl rfl, fun _ => rfl⟩
  · intro name hn habsent
    have hnone : find name m = none := by
      cases hf : find name m with
      | none => rfl
      | some sub =>
        exact absurd ((mem_keys_iff name m).mpr (by rw [hf]; rfl)) habsent
    have hnull : ∀ option, find option m = none → ∀ k, member (member (.obj m) option) k =
        .null := by
      intro option ho k
      simp only [member, ho, Option.getD_none]
    have hprov : ∀ w : JsonValue, member w "user_value" = .null →
        member w "default_value" = .null →
        provenance (member w "user_value") (member w "default_value") = [] := by
      intro w hwu hwd
      rw [hwu, hwd]
      rfl
    simp only [List.mem_cons, List.mem_singleton, List.not_mem_nil, or_false] at hn
    rcases hn with e | e | e
    · subst e
      have hk := reshapeOption_null_kept _
        (fun s w k hm => modifyLogTarget_null_kept self.env s w k hm) _ w1 h1
      rw [f1, hprov w1 (hk _ (hnull _ hnone _)) (hk _ (hnull _ hnone _))]
    · subst e
      have hk := reshapeOption_null_kept _
        (fun s w k hm => modifyPrestartUrls_null_kept self.env s w k hm) _ w2 h2
      rw [f2, hprov w2 (hk _ (hnull _ hnone _)) (hk _ (hnull _ hnone _))]
    · subst e
      have hk := reshapeOption_null_kept _
        (fun s w k hm => modifyMaxInstancesPerApp_null_kept s w k hm) _ w3 h3
      rw [f3, hprov w3 (hk _ (hnull _ hnone _)) (hk _ (hnull _ hnone _))]

/-- Witness of C33: the sample snapshot holds `instance_registry_dir` and `max_pool_size`;
the reply lists these two and the three reshaped options, the latter with empty
hierarchies. -/
theorem reshaped_options_always_listed_witness :
    sortedKeys [("instance_registry_dir",
          .obj [("effective_value", .null), ("type", .str "string"), ("user_value", .null)]),
        ("max_pool_size",
          .obj [("default_value", .int 6), ("effective_value", .int 8),
            ("type", .str "unsigned integer"), ("user_value", .int 8)])] = true ∧
    keys sampleSnapshot = ["instance_registry_dir", "max_pool_size"] ∧
    onGetGlobalConfigDone snapshotConnector globalConfigurationCommand sampleSnapshot =
      .ok sampleSnapshotTrace ∧
    keys (.obj sampleSnapshotOptions) = ["instance_registry_dir", "log_target",
      "max_instances_per_app", "max_pool_size", "prestart_urls"] ∧
    ∃ options,
      sampleSnapshotTrace =
        ⟨[replyDocument (member globalConfigurationCommand "request_id") "ok"
          (.obj [("options", .obj options)])], 1⟩ ∧
      find "log_target" options = some (.arr []) ∧
      find "prestart_urls" options = some (.arr []) ∧
      find "max_instances_per_app" options = some (.arr []) := by
  refine ⟨by decide, by decide, by decide, by decide, ?_⟩
  obtain ⟨options, ht, -, he⟩ :=
    (reshaped_options_always_listed snapshotConnector
      [("action", .str "get"), ("request_id", .str "r4"),
        ("resource", .str "global_configuration")]
      [("instance_registry_dir",
          .obj [("effective_value", .null), ("type", .str "string"), ("user_value", .null)]),
        ("max_pool_size",
          .obj [("default_value", .int 6), ("effective_value", .int 8),
            ("type", .str "unsigned integer"), ("user_value", .int 8)])]
      (by decide)).2 sampleSnapshotTrace (by decide)
  exact ⟨options, ht, he "log_target" (by decide) (by decide),
    he "prestart_urls" (by decide) (by decide),
    he "max_instances_per_app" (by decide) (by decide)⟩

end Core

namespace Apache2Module

/-! ## The directive setters -/

/-- The fields that `read` knows are all the fields of the two records. -/
theorem read_ext (s s2 : ServerConfig) (c c2 : DirConfig)
    (h : ∀ field, read s c field = read s2 c2 field) : s = s2 ∧ c = c2 := by
  constructor
  · cases s
    cases s2
    simp only [ServerConfig.mk.injEq]
    refine
      ⟨?_, ?_, ?_, ?_, ?_, ?_, ?_, ?_, ?_, ?_, ?_, ?_, ?_, ?_, ?_, ?_, ?_, ?_, ?_, ?_⟩
    · simpa [read] using h .root
    · simpa [read] using h .defaultRuby
    · simpa [read] using h .logLevel
    · simpa [read] using h .logFile
    · simpa [read] using h .socketBacklog
    · simpa [read] using h .fileDescriptorLogFile
    · simpa [read] using h .maxPoolSize
    · simpa [read] using h .poolIdleTime
    · simpa [read] using h .responseBufferHighWatermark
    · simpa [read] using h .userSwitching
    · simpa [read] using h .defaultUser
    · simpa [read] using h .defaultGroup
    · simpa [read] using h .dataBufferDir
    · simpa [read] using h .instanceRegistryDir
    · simpa [read] using h .disableSecurityUpdateCheck
    · simpa [read] using h .securityUpdateCheckProxy
    · simpa [read] using h .statThrottleRate
    · simpa [read] using h .prestartURLs
    · simpa [read] using h .turbocaching
    · simpa [read] using h .showVersionInHeader
  · cases c
    cases c2
    simp only [DirConfig.mk.injEq]
    refine
      ⟨?_, ?_, ?_, ?_, ?_, ?_, ?_, ?_, ?_, ?_, ?_, ?_, ?_, ?_, ?_, ?_, ?_, ?_, ?_, ?_, ?_, ?_,
        ?_, ?_, ?_, ?_, ?_, ?_, ?_, ?_, ?_⟩
    · simpa [read] using h .ruby
    · simpa [read] using h .python
    · simpa [read] using h .nodejs
    · simpa [read] using h .meteorAppSettings
    · simpa [read] using h .appEnv
    · simpa [read] using h .minInstances
    · simpa [read] using h .maxInstancesPerApp
    · simpa [read] using h .user
    · simpa [read] using h .group
    · simpa [read] using h .errorOverride
    · simpa [read] using h .maxRequests
    · simpa [read] using h .startTimeout
    · simpa [read] using h .highPerformance
    · simpa [read] using h .enabled
    · simpa [read] using h .maxRequestQueueSize
    · simpa [read] using h .maxPreloaderIdleTime
    · simpa [read] using h .loadShellEnvvars
    · simpa [read] using h .bufferUpload
    · simpa [read] using h .appType
    · simpa [read] using h .startupFile
    · simpa [read] using h .stickySessions
    · simpa [read] using h .stickySessionsCookieName
    · simpa [read] using h .friendlyErrorPages
    · simpa [read] using h .restartDir
    · simpa [read] using h .appGroupName
    · simpa [read] using h .forceMaxConcurrentRequestsPerProcess
    · simpa [read] using h .lveMinUid
    · simpa [read] using h .appRoot
    · simpa [read] using h .bufferResponse
    · simpa [read] using h .resolveSymlinksInDocumentRoot
    · simpa [read] using h .allowEncodedSlashes

/-- A setter of a text-valued directive returns NULL and changes no field but its own. -/
theorem stringSetters_frame (setter : Setter String) (hs : setter ∈ stringSetters)
    (cmd : cmd_parms) (serverConfig : ServerConfig) (pcfg : DirConfig) (arg : String) :
    (setter.run cmd serverConfig pcfg arg).message = none ∧
    (setter.run cmd serverConfig pcfg arg).stderr = [] ∧
    ∀ field, field ≠ setter.field →
      read (setter.run cmd serverConfig pcfg arg).serverConfig
        (setter.run cmd serverConfig pcfg arg).config field =
          read serverConfig pcfg field := by
  simp only [stringSetters, List.mem_cons, List.mem_singleton, List.not_mem_nil, or_false]
    at hs
  rcases hs with
    rfl | rfl | rfl | rfl | rfl | rfl | rfl | rfl | rfl | rfl | rfl | rfl | rfl | rfl | rfl |
    rfl | rfl | rfl | rfl | rfl | rfl | rfl <;>
  exact ⟨rfl, rfl, fun field hne => by cases field <;> first | rfl | exact absurd rfl hne⟩

/-- A setter of a flag returns NULL and changes no field but its own. -/
theorem flagSetters_frame (setter : Setter (Option String)) (hs : setter ∈ flagSetters)
    (cmd : cmd_parms) (serverConfig : ServerConfig) (pcfg : DirConfig) (arg : Option String) :
    (setter.run cmd serverConfig pcfg arg).message = none ∧
    (setter.run cmd serverConfig pcfg arg).stderr = [] ∧
    ∀ field, field ≠ setter.field →
      read (setter.run cmd serverConfig pcfg arg).serverConfig
        (setter.run cmd serverConfig pcfg arg).config field =
          read serverConfig pcfg field := by
  simp only [flagSetters, List.mem_cons, List.mem_singleton, List.not_mem_nil, or_false]
    at hs
  rcases hs with
    rfl | rfl | rfl | rfl | rfl | rfl | rfl | rfl | rfl | rfl | rfl | rfl | rfl | rfl | rfl <;>
  exact ⟨rfl, rfl, fun field hne => by cases field <;> first | rfl | exact absurd rfl hne⟩

/-- The three ways an integer setter with the lower bound 0 ends. -/
theorem lowerBoundZero_cases (setter : Setter String) (hs : setter ∈ lowerBoundZeroSetters)
    (cmd : cmd_parms) (serverConfig : ServerConfig) (pcfg : DirConfig) (arg : String) :
    ((strtol arg).2 ≠ [] →
      setter.run cmd serverConfig pcfg arg =
        ⟨some ("Invalid number specified for " ++ cmd.directive ++ "."),
          serverConfig, pcfg, []⟩) ∧
    ((strtol arg).2 = [] → (strtol arg).1 < 0 →
      setter.run cmd serverConfig pcfg arg =
        ⟨some ("Value for " ++ cmd.directive ++ " must be greater than or equal to 0."),
          serverConfig, pcfg, []⟩) ∧
    ((strtol arg).2 = [] → 0 ≤ (strtol arg).1 →
      (setter.run cmd serverConfig pcfg arg).message = none ∧
      (setter.run cmd serverConfig pcfg arg).stderr = [] ∧
      read (setter.run cmd serverConfig pcfg arg).serverConfig
        (setter.run cmd serverConfig pcfg arg).config setter.field =
          .number (toInt (strtol arg).1) ∧
      ∀ field, field ≠ setter.field →
        read (setter.run cmd serverConfig pcfg arg).serverConfig
          (setter.run cmd serverConfig pcfg arg).config field =
            read serverConfig pcfg field) := by
  simp only [lowerBoundZeroSetters, List.mem_cons, List.mem_singleton, List.not_mem_nil,
    or_false] at hs
  rcases hs with
    rfl | rfl | rfl | rfl | rfl | rfl | rfl | rfl | rfl <;>
  refine ⟨fun h => ?_, fun h hlt => ?_, fun h hge => ?_⟩ <;>
  simp only [
    cmd_passenger_log_level, cmd_passenger_socket_backlog, cmd_passenger_pool_idle_time,
    cmd_passenger_response_buffer_high_watermark, cmd_passenger_min_instances,
    cmd_passenger_max_requests, cmd_passenger_max_request_queue_size,
    cmd_passenger_max_preloader_idle_time, cmd_passenger_lve_min_uid] <;>
  first
  | rw [if_pos h]
  | rw [if_neg (not_not.mpr h), if_pos hlt]
  | (rw [if_neg (not_not.mpr h), if_neg (not_lt.mpr hge)]
     exact ⟨rfl, rfl, rfl,
       fun field hne => by cases field <;> first | rfl | exact absurd rfl hne⟩)

/-- The three ways an integer setter with the lower bound 1 ends. -/
theorem lowerBoundOne_cases (setter : Setter String) (hs : setter ∈ lowerBoundOneSetters)
    (cmd : cmd_parms) (serverConfig : ServerConfig) (pcfg : DirConfig) (arg : String) :
    ((strtol arg).2 ≠ [] →
      setter.run cmd serverConfig pcfg arg =
        ⟨some ("Invalid number specified for " ++ cmd.directive ++ "."),
          serverConfig, pcfg, []⟩) ∧
    ((strtol arg).2 = [] → (strtol arg).1 < 1 →
      setter.run cmd serverConfig pcfg arg =
        ⟨some ("Value for " ++ cmd.directive ++ " must be greater than or equal to 1."),
          serverConfig, pcfg, []⟩) ∧
    ((strtol arg).2 = [] → 1 ≤ (strtol arg).1 →
      (setter.run cmd serverConfig pcfg arg).message = none ∧
      (setter.run cmd serverConfig pcfg arg).stderr = [] ∧
      read (setter.run cmd serverConfig pcfg arg).serverConfig
        (setter.run cmd serverConfig pcfg arg).config setter.field =
          .number (toInt (strtol arg).1) ∧
      ∀ field, field ≠ setter.field →
        read (setter.run cmd serverConfig pcfg arg).serverConfig
          (setter.run cmd serverConfig pcfg arg).config field =
            read serverConfig pcfg field) := by
  simp only [lowerBoundOneSetters, List.mem_cons, List.mem_singleton, List.not_mem_nil,
    or_false] at hs
  rcases hs with
    rfl | rfl <;>
  refine ⟨fun h => ?_, fun h hlt => ?_, fun h hge => ?_⟩ <;>
  simp only [
    cmd_passenger_max_pool_size, cmd_passenger_start_timeout] <;>
  first
  | rw [if_pos h]
  | rw [if_neg (not_not.mpr h), if_pos hlt]
  | (rw [if_neg (not_not.mpr h), if_neg (not_lt.mpr hge)]
     exact ⟨rfl, rfl, rfl,
       fun field hne => by cases field <;> first | rfl | exact absurd rfl hne⟩)

/-- The two ways an integer setter without a bound ends. -/
theorem unbounded_cases (setter : Setter String) (hs : setter ∈ unboundedSetters)
    (cmd : cmd_parms) (serverConfig : ServerConfig) (pcfg : DirConfig) (arg : String) :
    ((strtol arg).2 ≠ [] →
      setter.run cmd serverConfig pcfg arg =
        ⟨some ("Invalid number specified for " ++ cmd.directive ++ "."),
          serverConfig, pcfg, []⟩) ∧
    ((strtol arg).2 = [] →
      (setter.run cmd serverConfig pcfg arg).message = none ∧
      (setter.run cmd serverConfig pcfg arg).stderr = [] ∧
      read (setter.run cmd serverConfig pcfg arg).serverConfig
        (setter.run cmd serverConfig pcfg arg).config setter.field =
          .number (toInt (strtol arg).1) ∧
      ∀ field, field ≠ setter.field →
        read (setter.run cmd serverConfig pcfg arg).serverConfig
          (setter.run cmd serverConfig pcfg arg).config field =
            read serverConfig pcfg field) := by
  simp only [unboundedSetters, List.mem_cons, List.mem_singleton, List.not_mem_nil,
    or_false] at hs
  rcases hs with
    rfl | rfl | rfl <;>
  refine ⟨fun h => ?_, fun h => ?_⟩ <;>
  simp only [
    cmd_passenger_stat_throttle_rate, cmd_passenger_max_instances_per_app,
    cmd_passenger_force_max_concurrent_requests_per_process] <;>
  first
  | rw [if_pos h]
  | (rw [if_neg (not_not.mpr h)]
     exact ⟨rfl, rfl, rfl,
       fun field hne => by cases field <;> first | rfl | exact absurd rfl hne⟩)

/-- A handler of an obsolete directive returns NULL and leaves both records as they are. -/
theorem obsoleteHandlers_frame
    (handler : cmd_parms → ServerConfig → DirConfig → String → SetterResult)
    (hh : handler ∈ obsoleteHandlers)
    (cmd : cmd_parms) (serverConfig : ServerConfig) (pcfg : DirConfig) (arg : String) :
    (handler cmd serverConfig pcfg arg).message = none ∧
    (handler cmd serverConfig pcfg arg).serverConfig = serverConfig ∧
    (handler cmd serverConfig pcfg arg).config = pcfg := by
  simp only [obsoleteHandlers, List.mem_cons, List.mem_singleton, List.not_mem_nil, or_false]
    at hh
  rcases hh with
    rfl | rfl | rfl | rfl | rfl | rfl | rfl | rfl | rfl | rfl | rfl | rfl | rfl <;>
  exact ⟨rfl, rfl, rfl⟩

/-- Claim C28: an integer setter with the lower bound 0 ends in one of three ways, whatever
the argument is: when a character remains after the number `strtol` reads, it returns
"Invalid number specified for <directive>." and changes nothing; otherwise, when the
number is negative, it returns "Value for <directive> must be greater than or equal to 0."
and changes nothing; otherwise it returns NULL and its field is the number converted to
`int`. The syntax is tested before the range. -/
theorem lower_bound_zero_setters (setter : Setter String)
    (hs : setter ∈ lowerBoundZeroSetters)
    (cmd : cmd_parms) (serverConfig : ServerConfig) (pcfg : DirConfig) (arg : String) :
    ((strtol arg).2 ≠ [] →
      setter.run cmd serverConfig pcfg arg =
        ⟨some ("Invalid number specified for " ++ cmd.directive ++ "."),
          serverConfig, pcfg, []⟩) ∧
    ((strtol arg).2 = [] → (strtol arg).1 < 0 →
      setter.run cmd serverConfig pcfg arg =
        ⟨some ("Value for " ++ cmd.directive ++ " must be greater than or equal to 0."),
          serverConfig, pcfg, []⟩) ∧
    ((strtol arg).2 = [] → 0 ≤ (strtol arg).1 →
      (setter.run cmd serverConfig pcfg arg).message = none ∧
      read (setter.run cmd serverConfig pcfg arg).serverConfig
        (setter.run cmd serverConfig pcfg arg).config setter.field =
          .number (toInt (strtol arg).1)) ∧
    lowerBoundZeroSetters.map (fun s => s.field) =
      [.logLevel, .socketBacklog, .poolIdleTime, .responseBufferHighWatermark,
        .minInstances, .maxRequests, .maxRequestQueueSize, .maxPreloaderIdleTime,
        .lveMinUid] := by
  obtain ⟨h1, h2, h3⟩ := lowerBoundZero_cases setter hs cmd serverConfig pcfg arg
  exact ⟨h1, h2, fun h hge => ⟨(h3 h hge).1, (h3 h hge).2.2.1⟩, rfl⟩

/-- Witness of C28: `PassengerLogLevel -5x` is reported as an invalid number, not as a
value out of range. -/
theorem lower_bound_zero_setters_witness :
    strtol "-5x" = (-5, ['x']) ∧
    cmd_passenger_log_level logLevelDirective sampleServerConfig sampleDirConfig "-5x" =
      ⟨some "Invalid number specified for PassengerLogLevel.",
        sampleServerConfig, sampleDirConfig, []⟩ ∧
    strtol "-5" = (-5, []) ∧
    cmd_passenger_log_level logLevelDirective sampleServerConfig sampleDirConfig "-5" =
      ⟨some "Value for PassengerLogLevel must be greater than or equal to 0.",
        sampleServerConfig, sampleDirConfig, []⟩ ∧
    strtol "3" = (3, []) ∧
    cmd_passenger_log_level logLevelDirective sampleServerConfig sampleDirConfig "3" =
      ⟨none, { sampleServerConfig with logLevel := 3 }, sampleDirConfig, []⟩ :=
  ⟨by decide,
    (lower_bound_zero_setters ⟨.logLevel, cmd_passenger_log_level⟩
      (List.mem_cons_self _ _) logLevelDirective sampleServerConfig sampleDirConfig
      "-5x").1 (by decide),
    by decide,
    (lower_bound_zero_setters ⟨.logLevel, cmd_passenger_log_level⟩
      (List.mem_cons_self _ _) logLevelDirective sampleServerConfig sampleDirConfig
      "-5").2.1 (by decide) (by decide),
    by decide, by decide⟩

/-- Claim C29, at the inputs where it fails: `PassengerMaxPoolSize 4294967296` and
`PassengerStartTimeout 4294967296` are accepted and store 0, which is below the bound 1 of
their messages; `PassengerLogLevel 2147483648` is accepted and stores -2147483648, which
is below the bound 0. The bound is tested on the `long`, the field holds its low 32 bits. -/
theorem bounded_setter_stores_value_below_bound :
    strtol "4294967296" = (4294967296, []) ∧
    cmd_passenger_max_pool_size ⟨"PassengerMaxPoolSize"⟩ sampleServerConfig sampleDirConfig
        "4294967296" =
      ⟨none, { sampleServerConfig with maxPoolSize := 0 }, sampleDirConfig, []⟩ ∧
    cmd_passenger_start_timeout ⟨"PassengerStartTimeout"⟩ sampleServerConfig sampleDirConfig
        "4294967296" =
      ⟨none, sampleServerConfig, { sampleDirConfig with startTimeout := 0 }, []⟩ ∧
    ¬ ((1 : Int) ≤ 0) ∧
    strtol "2147483648" = (2147483648, []) ∧
    cmd_passenger_log_level logLevelDirective sampleServerConfig sampleDirConfig
        "2147483648" =
      ⟨none, { sampleServerConfig with logLevel := -2147483648 }, sampleDirConfig, []⟩ ∧
    ¬ ((0 : Int) ≤ -2147483648) := by
  decide

/-- Claim C30: an integer setter that returns a message leaves `serverConfig` and the
`DirConfig` as they were; a setter that returns NULL changes no field but the one its
directive names; a handler of an obsolete directive returns NULL and leaves both records
as they were. The fields read by name are all the fields of the two records. -/
theorem setters_are_atomic_and_local (cmd : cmd_parms) (serverConfig : ServerConfig)
    (pcfg : DirConfig) :
    (∀ setter ∈ integerSetters, ∀ arg,
      (setter.run cmd serverConfig pcfg arg).message ≠ none →
        (setter.run cmd serverConfig pcfg arg).serverConfig = serverConfig ∧
        (setter.run cmd serverConfig pcfg arg).config = pcfg) ∧
    (∀ setter ∈ stringSetters ++ integerSetters, ∀ arg,
      (setter.run cmd serverConfig pcfg arg).message = none →
        ∀ field, field ≠ setter.field →
          read (setter.run cmd serverConfig pcfg arg).serverConfig
            (setter.run cmd serverConfig pcfg arg).config field =
              read serverConfig pcfg field) ∧
    (∀ setter ∈ flagSetters, ∀ arg,
      (setter.run cmd serverConfig pcfg arg).message = none →
        ∀ field, field ≠ setter.field →
          read (setter.run cmd serverConfig pcfg arg).serverConfig
            (setter.run cmd serverConfig pcfg arg).config field =
              read serverConfig pcfg field) ∧
    (∀ handler ∈ obsoleteHandlers, ∀ arg,
      (handler cmd serverConfig pcfg arg).message = none ∧
      (handler cmd serverConfig pcfg arg).serverConfig = serverConfig ∧
      (handler cmd serverConfig pcfg arg).config = pcfg) ∧
    (∀ (s s2 : ServerConfig) (c c2 : DirConfig),
      (∀ field, read s c field = read s2 c2 field) → s = s2 ∧ c = c2) ∧
    (stringSetters.length = 22 ∧ integerSetters.length = 14 ∧ flagSetters.length = 15 ∧
      obsoleteHandlers.length = 13) := by
  have hint : ∀ setter ∈ integerSetters, ∀ arg,
      ((setter.run cmd serverConfig pcfg arg).message ≠ none →
        (setter.run cmd serverConfig pcfg arg).serverConfig = serverConfig ∧
        (setter.run cmd serverConfig pcfg arg).config = pcfg) ∧
      ((setter.run cmd serverConfig pcfg arg).message = none →
        ∀ field, field ≠ setter.field →
          read (setter.run cmd serverConfig pcfg arg).serverConfig
            (setter.run cmd serverConfig pcfg arg).config field =
              read serverConfig pcfg field) := by
    intro setter hs arg
    simp only [integerSetters, List.mem_append] at hs
    by_cases hend : (strtol arg).2 = []
    · rcases hs with (hs | hs) | hs
      · obtain ⟨-, h2, h3⟩ := lowerBoundZero_cases setter hs cmd serverConfig pcfg arg
        by_cases hlt : (strtol arg).1 < 0
        · rw [h2 hend hlt]
          exact ⟨fun _ => ⟨rfl, rfl⟩, fun h => by cases h⟩
        · obtain ⟨hm, -, -, hf⟩ := h3 hend (not_lt.mp hlt)
          exact ⟨fun h => absurd hm h, fun _ => hf⟩
      · obtain ⟨-, h2, h3⟩ := lowerBoundOne_cases setter hs cmd serverConfig pcfg arg
        by_cases hlt : (strtol arg).1 < 1
        · rw [h2 hend hlt]
          exact ⟨fun _ => ⟨rfl, rfl⟩, fun h => by cases h⟩
        · obtain ⟨hm, -, -, hf⟩ := h3 hend (not_lt.mp hlt)
          exact ⟨fun h => absurd hm h, fun _ => hf⟩
      · obtain ⟨-, h3⟩ := unbounded_cases setter hs cmd serverConfig pcfg arg
        obtain ⟨hm, -, -, hf⟩ := h3 hend
        exact ⟨fun h => absurd hm h, fun _ => hf⟩
    · have h1 : setter.run cmd serverConfig pcfg arg =
          ⟨some ("Invalid number specified for " ++ cmd.directive ++ "."),
            serverConfig, pcfg, []⟩ := by
        rcases hs with (hs | hs) | hs
        · exact (lowerBoundZero_cases setter hs cmd serverConfig pcfg arg).1 hend
        · exact (lowerBoundOne_cases setter hs cmd serverConfig pcfg arg).1 hend
        · exact (unbounded_cases setter hs cmd serverConfig pcfg arg).1 hend
      rw [h1]
      exact ⟨fun _ => ⟨rfl, rfl⟩, fun h => by cases h⟩
  refine ⟨fun setter hs arg => (hint setter hs arg).1, ?_, ?_, ?_, read_ext,
    ⟨rfl, rfl, rfl, rfl⟩⟩
  · intro setter hs arg hnull
    rcases List.mem_append.mp hs with hs | hs
    · exact (stringSetters_frame setter hs cmd serverConfig pcfg arg).2.2
    · exact (hint setter hs arg).2 hnull
  · intro setter hs arg _
    exact (flagSetters_frame setter hs cmd serverConfig pcfg arg).2.2
  · intro handler hh arg
    exact obsoleteHandlers_frame handler hh cmd serverConfig pcfg arg

/-- Witness of C30: `PassengerMaxRequests abc` returns a message and changes nothing, and
`RailsSpawnServer` returns NULL and changes nothing. -/
theorem setters_are_atomic_and_local_witness :
    cmd_passenger_max_requests ⟨"PassengerMaxRequests"⟩ sampleServerConfig sampleDirConfig
        "abc" =
      ⟨some "Invalid number specified for PassengerMaxRequests.",
        sampleServerConfig, sampleDirConfig, []⟩ ∧
    (cmd_rails_spawn_server ⟨"RailsSpawnServer"⟩ sampleServerConfig sampleDirConfig
        "x").message = none ∧
    (cmd_rails_spawn_server ⟨"RailsSpawnServer"⟩ sampleServerConfig sampleDirConfig
        "x").serverConfig = sampleServerConfig ∧
    (cmd_rails_spawn_server ⟨"RailsSpawnServer"⟩ sampleServerConfig sampleDirConfig
        "x").config = sampleDirConfig :=
  ⟨by decide,
    (setters_are_atomic_and_local ⟨"RailsSpawnServer"⟩ sampleServerConfig
      sampleDirConfig).2.2.2.1 cmd_rails_spawn_server (List.mem_cons_self _ _) "x"⟩

theorem takeWhile_eq_nil_of_forall {α : Type} (p : α → Bool) (l : List α)
    (h : ∀ x ∈ l, p x = false) : l.takeWhile p = [] := by
  cases l with
  | nil => rfl
  | cons a t => simp [List.takeWhile, h a (List.mem_cons_self _ _)]

/-- Without a digit in the text of `arg`, `strtol` reads nothing: the number is 0 and `end`
is `arg`. -/
theorem strtol_no_digit (arg : String)
    (hnd : ∀ c ∈ arg.data.takeWhile (fun c => c != '\x00'), isdigit c = false) :
    strtol arg = (0, arg.data.takeWhile (fun c => c != '\x00')) := by
  have hsub : ∀ c ∈ (arg.data.takeWhile (fun c => c != '\x00')).dropWhile isspace,
      isdigit c = false :=
    fun c hc => hnd c ((List.dropWhile_sublist isspace).subset hc)
  unfold strtol
  simp only
  split
  · rfl
  · rename_i hdigits
    exfalso
    apply hdigits
    split
    · rename_i t ht
      rw [takeWhile_eq_nil_of_forall isdigit t
        (fun c hc => hsub c (by rw [ht]; exact List.mem_cons_of_mem _ hc))]
      rfl
    · rename_i t ht
      rw [takeWhile_eq_nil_of_forall isdigit t
        (fun c hc => hsub c (by rw [ht]; exact List.mem_cons_of_mem _ hc))]
      rfl
    · rw [takeWhile_eq_nil_of_forall isdigit _ hsub]
      rfl

theorem range_message_ne_invalid (directive bound : String) :
    "Value for " ++ directive ++ bound ≠ "Invalid number specified for " ++ directive ++ "." := by
  intro h
  have hd := congrArg String.data h
  simp only [String.data_append] at hd
  have hh := congrArg List.head? hd
  simp at hh

/-- Claim C31: for the empty argument, `strtol` reads the number 0 and leaves nothing at
`end`, so every integer setter with the lower bound 0 or without a bound returns NULL and
stores 0, and every integer setter with the lower bound 1 returns "Value for <directive>
must be greater than or equal to 1."; no integer setter reports the empty argument as an
invalid number. An argument that is not empty and holds no digit is reported as an invalid
number by every integer setter. -/
theorem empty_argument_is_not_invalid (cmd : cmd_parms) (serverConfig : ServerConfig)
    (pcfg : DirConfig) :
    strtol "" = (0, []) ∧
    (∀ setter ∈ lowerBoundZeroSetters ++ unboundedSetters,
      (setter.run cmd serverConfig pcfg "").message = none ∧
      read (setter.run cmd serverConfig pcfg "").serverConfig
        (setter.run cmd serverConfig pcfg "").config setter.field = .number 0) ∧
    (∀ setter ∈ lowerBoundOneSetters,
      setter.run cmd serverConfig pcfg "" =
        ⟨some ("Value for " ++ cmd.directive ++ " must be greater than or equal to 1."),
          serverConfig, pcfg, []⟩) ∧
    (∀ setter ∈ integerSetters,
      (setter.run cmd serverConfig pcfg "").message ≠
        some ("Invalid number specified for " ++ cmd.directive ++ ".")) ∧
    (∀ setter ∈ integerSetters, ∀ arg : String, arg ≠ "" →
      (∀ c ∈ arg.data, c ≠ '\x00' ∧ isdigit c = false) →
      setter.run cmd serverConfig pcfg arg =
        ⟨some ("Invalid number specified for " ++ cmd.directive ++ "."),
          serverConfig, pcfg, []⟩) ∧
    unboundedSetters.map (fun s => s.field) =
      [.statThrottleRate, .maxInstancesPerApp, .forceMaxConcurrentRequestsPerProcess] ∧
    lowerBoundOneSetters.map (fun s => s.field) = [.maxPoolSize, .startTimeout] := by
  have hempty : strtol "" = (0, []) := by decide
  have hend : (strtol "").2 = [] := by rw [hempty]
  have hzero : (strtol "").1 = 0 := by rw [hempty]
  have hnull : ∀ setter ∈ lowerBoundZeroSetters ++ unboundedSetters,
      (setter.run cmd serverConfig pcfg "").message = none ∧
      read (setter.run cmd serverConfig pcfg "").serverConfig
        (setter.run cmd serverConfig pcfg "").config setter.field = .number 0 := by
    intro setter hs
    rcases List.mem_append.mp hs with hs | hs
    · obtain ⟨hm, -, hf, -⟩ :=
        (lowerBoundZero_cases setter hs cmd serverConfig pcfg "").2.2 hend
          (by rw [hzero])
      rw [hzero] at hf
      exact ⟨hm, hf⟩
    · obtain ⟨hm, -, hf, -⟩ :=
        (unbounded_cases setter hs cmd serverConfig pcfg "").2 hend
      rw [hzero] at hf
      exact ⟨hm, hf⟩
  have hone : ∀ setter ∈ lowerBoundOneSetters,
      setter.run cmd serverConfig pcfg "" =
        ⟨some ("Value for " ++ cmd.directive ++ " must be greater than or equal to 1."),
          serverConfig, pcfg, []⟩ := by
    intro setter hs
    exact (lowerBoundOne_cases setter hs cmd serverConfig pcfg "").2.1 hend
      (by rw [hzero]; decide)
  refine ⟨hempty, hnull, hone, ?_, ?_, rfl, rfl⟩
  · intro setter hs
    simp only [integerSetters, List.mem_append] at hs
    rcases hs with (hs | hs) | hs
    · rw [(hnull setter (List.mem_append.mpr (Or.inl hs))).1]
      intro h; cases h
    · rw [hone setter hs]
      intro h
      exact range_message_ne_invalid cmd.directive " must be greater than or equal to 1."
        (Option.some.inj h)
    · rw [(hnull setter (List.mem_append.mpr (Or.inr hs))).1]
      intro h; cases h
  · intro setter hs arg hne hchars
    have htext : arg.data.takeWhile (fun c => c != '\x00') = arg.data := by
      rw [List.takeWhile_eq_self_iff]
      intro c hc
      simpa using (hchars c hc).1
    have hstr : strtol arg = (0, arg.data) := by
      have h := strtol_no_digit arg (by rw [htext]; exact fun c hc => (hchars c hc).2)
      rw [htext] at h
      exact h
    have hrest : (strtol arg).2 ≠ [] := by
      rw [hstr]
      intro hnil
      apply hne
      cases arg with
      | mk data =>
        simp only at hnil
        rw [hnil]
    simp only [integerSetters, List.mem_append] at hs
    rcases hs with (hs | hs) | hs
    · exact (lowerBoundZero_cases setter hs cmd serverConfig pcfg arg).1 hrest
    · exact (lowerBoundOne_cases setter hs cmd serverConfig pcfg arg).1 hrest
    · exact (unbounded_cases setter hs cmd serverConfig pcfg arg).1 hrest

/-- Witness of C31: `PassengerLogLevel` with the empty argument stores 0,
`PassengerMaxPoolSize` with the empty argument reports the bound, and `PassengerLogLevel`
with " " or "+" reports an invalid number. -/
theorem empty_argument_is_not_invalid_witness :
    cmd_passenger_log_level logLevelDirective sampleServerConfig sampleDirConfig "" =
      ⟨none, { sampleServerConfig with logLevel := 0 }, sampleDirConfig, []⟩ ∧
    cmd_passenger_max_pool_size ⟨"PassengerMaxPoolSize"⟩ sampleServerConfig sampleDirConfig
        "" =
      ⟨some "Value for PassengerMaxPoolSize must be greater than or equal to 1.",
        sampleServerConfig, sampleDirConfig, []⟩ ∧
    strtol " " = (0, [' ']) ∧
    cmd_passenger_log_level logLevelDirective sampleServerConfig sampleDirConfig " " =
      ⟨some "Invalid number specified for PassengerLogLevel.",
        sampleServerConfig, sampleDirConfig, []⟩ ∧
    strtol "+" = (0, ['+']) ∧
    cmd_passenger_log_level logLevelDirective sampleServerConfig sampleDirConfig "+" =
      ⟨some "Invalid number specified for PassengerLogLevel.",
        sampleServerConfig, sampleDirConfig, []⟩ :=
  ⟨by decide,
    (empty_argument_is_not_invalid ⟨"PassengerMaxPoolSize"⟩ sampleServerConfig
      sampleDirConfig).2.2.1 ⟨.maxPoolSize, cmd_passenger_max_pool_size⟩
      (List.mem_cons_self _ _),
    by decide,
    (empty_argument_is_not_invalid logLevelDirective sampleServerConfig
      sampleDirConfig).2.2.2.2.1 ⟨.logLevel, cmd_passenger_log_level⟩
      (List.mem_append_left _ (List.mem_append_left _ (List.mem_cons_self _ _)))
      " " (by decide) (by decide),
    by decide,
    (empty_argument_is_not_invalid logLevelDirective sampleServerConfig
      sampleDirConfig).2.2.2.2.1 ⟨.logLevel, cmd_passenger_log_level⟩
      (List.mem_append_left _ (List.mem_append_left _ (List.mem_cons_self _ _)))
      "+" (by decide) (by decide)⟩

/-- Claim C32, at the inputs where it fails: `PassengerStickySessionsCookieName _route`
and `PassengerStickySessionsCookieName _session` both leave `ENABLED` in
`stickySessionsCookieName`, so the field does not hold the name; whatever the name is, the
field is `ENABLED`. The setters of `PassengerAppRoot`, `PassengerRestartDir` and
`PassengerAppGroupName` store their argument. -/
theorem sticky_sessions_cookie_name_not_recorded :
    cmd_passenger_sticky_sessions_cookie_name ⟨"PassengerStickySessionsCookieName"⟩
        sampleServerConfig sampleDirConfig (some "_route") =
      ⟨none, sampleServerConfig,
        { sampleDirConfig with stickySessionsCookieName := .ENABLED }, []⟩ ∧
    cmd_passenger_sticky_sessions_cookie_name ⟨"PassengerStickySessionsCookieName"⟩
        sampleServerConfig sampleDirConfig (some "_session") =
      ⟨none, sampleServerConfig,
        { sampleDirConfig with stickySessionsCookieName := .ENABLED }, []⟩ ∧
    "_route" ≠ "_session" ∧
    (cmd_passenger_app_root ⟨"PassengerAppRoot"⟩ sampleServerConfig sampleDirConfig
      "/srv/app").config.appRoot = "/srv/app" ∧
    (cmd_passenger_restart_dir ⟨"PassengerRestartDir"⟩ sampleServerConfig sampleDirConfig
      "tmp").config.restartDir = "tmp" ∧
    (cmd_passenger_app_group_name ⟨"PassengerAppGroupName"⟩ sampleServerConfig
      sampleDirConfig "blog").config.appGroupName = "blog" ∧
    ∀ (cmd : cmd_parms) (serverConfig : ServerConfig) (pcfg : DirConfig) (arg : String),
      (cmd_passenger_sticky_sessions_cookie_name cmd serverConfig pcfg
        (some arg)).config.stickySessionsCookieName = .ENABLED :=
  ⟨by decide, by decide, by decide, by decide, by decide, by decide,
    fun _ _ _ _ => rfl⟩

end Apache2Module

end Passenger
